import Mathlib

/-!
Verification development for the DLMS/COSEM metering client
(HDLC framing layer, COSEM PDU codec, session orchestrator).

The definitions below are shallow embeddings of the C sources:
  src/dlms_hdlc.c   (CRC-16, HDLC frame build/parse)
  src/dlms_cosem.c  (AARQ/AARE, GET.request, data decoding)
  src/dlms_meter.c  (session orchestrator / polling state machine)

Bytes are modelled as `Nat` (always < 256 where the C type is `uint8_t`),
buffers as `List Nat`, and C bitwise operators by the corresponding `Nat`
bitwise operators.  Fallible functions return `Option`/`Except`.  Error
codes are the (negated) errno values the C code returns.
-/

deriving instance DecidableEq for Except

namespace Dlms

/-! ## errno values (as returned, i.e. the C code returns their negations) -/

def eio : Int := 5
def eagain : Int := 11
def enomem : Int := 12
def eacces : Int := 13
def einval : Int := 22
def enodata : Int := 61
def eproto : Int := 71
def enotsup : Int := 95
def enotconn : Int := 107

/-! ## CRC-16 engine (dlms_hdlc.c)

`crc16_table` is the 256-entry lookup table from the source, verbatim.
`hdlc_crc16` is the table-driven CRC-16/CCITT (reflected poly 0x8408,
seed 0xFFFF, final XOR 0xFFFF). -/

def crc16_table : List Nat := [
  0x0000, 0x1189, 0x2312, 0x329B, 0x4624, 0x57AD, 0x6536, 0x74BF,
  0x8C48, 0x9DC1, 0xAF5A, 0xBED3, 0xCA6C, 0xDBE5, 0xE97E, 0xF8F7,
  0x1081, 0x0108, 0x3393, 0x221A, 0x56A5, 0x472C, 0x75B7, 0x643E,
  0x9CC9, 0x8D40, 0xBFDB, 0xAE52, 0xDAED, 0xCB64, 0xF9FF, 0xE876,
  0x2102, 0x308B, 0x0210, 0x1399, 0x6726, 0x76AF, 0x4434, 0x55BD,
  0xAD4A, 0xBCC3, 0x8E58, 0x9FD1, 0xEB6E, 0xFAE7, 0xC87C, 0xD9F5,
  0x3183, 0x200A, 0x1291, 0x0318, 0x77A7, 0x662E, 0x54B5, 0x453C,
  0xBDCB, 0xAC42, 0x9ED9, 0x8F50, 0xFBEF, 0xEA66, 0xD8FD, 0xC974,
  0x4204, 0x538D, 0x6116, 0x709F, 0x0420, 0x15A9, 0x2732, 0x36BB,
  0xCE4C, 0xDFC5, 0xED5E, 0xFCD7, 0x8868, 0x99E1, 0xAB7A, 0xBAF3,
  0x5285, 0x430C, 0x7197, 0x601E, 0x14A1, 0x0528, 0x37B3, 0x263A,
  0xDECD, 0xCF44, 0xFDDF, 0xEC56, 0x98E9, 0x8960, 0xBBFB, 0xAA72,
  0x6306, 0x728F, 0x4014, 0x519D, 0x2522, 0x34AB, 0x0630, 0x17B9,
  0xEF4E, 0xFEC7, 0xCC5C, 0xDDD5, 0xA96A, 0xB8E3, 0x8A78, 0x9BF1,
  0x7387, 0x620E, 0x5095, 0x411C, 0x35A3, 0x242A, 0x16B1, 0x0738,
  0xFFCF, 0xEE46, 0xDCDD, 0xCD54, 0xB9EB, 0xA862, 0x9AF9, 0x8B70,
  0x8408, 0x9581, 0xA71A, 0xB693, 0xC22C, 0xD3A5, 0xE13E, 0xF0B7,
  0x0840, 0x19C9, 0x2B52, 0x3ADB, 0x4E64, 0x5FED, 0x6D76, 0x7CFF,
  0x9489, 0x8500, 0xB79B, 0xA612, 0xD2AD, 0xC324, 0xF1BF, 0xE036,
  0x18C1, 0x0948, 0x3BD3, 0x2A5A, 0x5EE5, 0x4F6C, 0x7DF7, 0x6C7E,
  0xA50A, 0xB483, 0x8618, 0x9791, 0xE32E, 0xF2A7, 0xC03C, 0xD1B5,
  0x2942, 0x38CB, 0x0A50, 0x1BD9, 0x6F66, 0x7EEF, 0x4C74, 0x5DFD,
  0xB58B, 0xA402, 0x9699, 0x8710, 0xF3AF, 0xE226, 0xD0BD, 0xC134,
  0x39C3, 0x284A, 0x1AD1, 0x0B58, 0x7FE7, 0x6E6E, 0x5CF5, 0x4D7C,
  0xC60C, 0xD785, 0xE51E, 0xF497, 0x8028, 0x91A1, 0xA33A, 0xB2B3,
  0x4A44, 0x5BCD, 0x6956, 0x78DF, 0x0C60, 0x1DE9, 0x2F72, 0x3EFB,
  0xD68D, 0xC704, 0xF59F, 0xE416, 0x90A9, 0x8120, 0xB3BB, 0xA232,
  0x5AC5, 0x4B4C, 0x79D7, 0x685E, 0x1CE1, 0x0D68, 0x3FF3, 0x2E7A,
  0xE70E, 0xF687, 0xC41C, 0xD595, 0xA12A, 0xB0A3, 0x8238, 0x93B1,
  0x6B46, 0x7ACF, 0x4854, 0x59DD, 0x2D62, 0x3CEB, 0x0E70, 0x1FF9,
  0xF78F, 0xE606, 0xD49D, 0xC514, 0xB1AB, 0xA022, 0x92B9, 0x8330,
  0x7BC7, 0x6A4E, 0x58D5, 0x495C, 0x3DE3, 0x2C6A, 0x1EF1, 0x0F78
]

/-- One step of the table-driven CRC:
`crc = (crc >> 8) ^ crc16_table[(crc ^ data[i]) & 0xFF]`. -/
def crcStep (crc b : Nat) : Nat :=
  (crc >>> 8) ^^^ crc16_table.getD ((crc ^^^ b) &&& 0xFF) 0

/-- `hdlc_crc16(data, len)` from dlms_hdlc.c. -/
def hdlc_crc16 (data : List Nat) : Nat :=
  (data.foldl crcStep 0xFFFF) ^^^ 0xFFFF

/-! ## HDLC framing (dlms_hdlc.c) -/

def HDLC_FLAG : Nat := 0x7E
def HDLC_FORMAT_TYPE : Nat := 0xA0
def HDLC_MAX_INFO_LEN : Nat := 256
def HDLC_MAX_FRAME_LEN : Nat := 300
def HDLC_CTRL_SNRM : Nat := 0x93
def HDLC_CTRL_UA : Nat := 0x73
def HDLC_CTRL_DISC : Nat := 0x53

/-- `HDLC_CTRL_I_FRAME(send_seq, recv_seq, pf)` with pf = 1:
`(recv_seq << 5) | 0x10 | (send_seq << 1)`. -/
def hdlcCtrlIFrame (sendSeq recvSeq : Nat) : Nat :=
  (recvSeq <<< 5) ||| 0x10 ||| (sendSeq <<< 1)

/-- SNRM negotiation parameters (`struct hdlc_params`). -/
structure HdlcParams where
  maxInfoTx : Nat
  maxInfoRx : Nat
  windowTx : Nat
  windowRx : Nat
deriving Repr, DecidableEq

/-- Parsed HDLC frame (`struct hdlc_frame`); `info_len` is `info.length`. -/
structure HdlcFrame where
  dst_addr : Nat
  src_addr : Nat
  control : Nat
  info : List Nat
  segmented : Bool
  valid : Bool
deriving Repr, DecidableEq

/-- `build_header` from dlms_hdlc.c: emits
`7E | format(2) | dst | src | ctrl`, failing with ENOMEM when the whole
frame (`frame_len + 2` including flags) exceeds the buffer.  The format
field is `0xA0` with the 11-bit frame length (frame bytes excluding the
two flags). -/
def build_header (bufSize : Nat) (dst_addr src_addr control : Nat)
    (has_info : Bool) (info_len : Nat) : Option (List Nat) :=
  let frame_len := match has_info with
    | true => 7 + info_len + 2
    | false => 7
  if frame_len + 2 > bufSize then none
  else some [HDLC_FLAG,
             HDLC_FORMAT_TYPE ||| ((frame_len >>> 8) &&& 0x07),
             frame_len &&& 0xFF,
             dst_addr, src_addr, control]

/-- The two HCS/FCS bytes as written by the builders (low byte first). -/
def crcBytes (c : Nat) : List Nat := [c &&& 0xFF, (c >>> 8) &&& 0xFF]

/-- The SNRM negotiation information field (`81 80 len` + TLVs), exactly
as assembled byte-by-byte in `hdlc_build_snrm`. -/
def snrmInfo (p : HdlcParams) : List Nat :=
  let t5 := if p.maxInfoTx <= 0xFF then [0x05, 0x01, p.maxInfoTx &&& 0xFF]
            else [0x05, 0x02, (p.maxInfoTx >>> 8) &&& 0xFF, p.maxInfoTx &&& 0xFF]
  let t6 := if p.maxInfoRx <= 0xFF then [0x06, 0x01, p.maxInfoRx &&& 0xFF]
            else [0x06, 0x02, (p.maxInfoRx >>> 8) &&& 0xFF, p.maxInfoRx &&& 0xFF]
  let w := [0x07, 0x01, p.windowTx, 0x08, 0x01, p.windowRx]
  [0x81, 0x80, t5.length + t6.length + 6] ++ t5 ++ t6 ++ w

/-- `hdlc_build_snrm` (dlms_hdlc.c). `params = none` builds the minimal
SNRM without information field (and without FCS). -/
def hdlc_build_snrm (bufSize : Nat) (client_addr server_addr : Nat)
    (params : Option HdlcParams) : Option (List Nat) :=
  match params with
  | none =>
    match build_header bufSize server_addr client_addr HDLC_CTRL_SNRM false 0 with
    | none => none
    | some hdr =>
      let hcs := hdlc_crc16 (hdr.drop 1)
      some (hdr ++ crcBytes hcs ++ [HDLC_FLAG])
  | some p =>
    let info := snrmInfo p
    match build_header bufSize server_addr client_addr HDLC_CTRL_SNRM true info.length with
    | none => none
    | some hdr =>
      let hcs := hdlc_crc16 (hdr.drop 1)
      let pre := hdr ++ crcBytes hcs ++ info
      let fcs := hdlc_crc16 (pre.drop 1)
      some (pre ++ crcBytes fcs ++ [HDLC_FLAG])

/-- `hdlc_build_disc` (dlms_hdlc.c). -/
def hdlc_build_disc (bufSize : Nat) (client_addr server_addr : Nat) :
    Option (List Nat) :=
  match build_header bufSize server_addr client_addr HDLC_CTRL_DISC false 0 with
  | none => none
  | some hdr =>
    let hcs := hdlc_crc16 (hdr.drop 1)
    some (hdr ++ crcBytes hcs ++ [HDLC_FLAG])

/-- `hdlc_build_iframe` (dlms_hdlc.c).  Fails (EINVAL) when the
information field is empty or longer than `HDLC_MAX_INFO_LEN`. -/
def hdlc_build_iframe (bufSize : Nat) (client_addr server_addr : Nat)
    (send_seq recv_seq : Nat) (info : List Nat) : Option (List Nat) :=
  if info.length = 0 ∨ info.length > HDLC_MAX_INFO_LEN then none
  else
    let ctrl := hdlcCtrlIFrame send_seq recv_seq
    match build_header bufSize server_addr client_addr ctrl true info.length with
    | none => none
    | some hdr =>
      let hcs := hdlc_crc16 (hdr.drop 1)
      let pre := hdr ++ crcBytes hcs ++ info
      let fcs := hdlc_crc16 (pre.drop 1)
      some (pre ++ crcBytes fcs ++ [HDLC_FLAG])

/-- `hdlc_parse_frame` (dlms_hdlc.c).  On success returns the filled
`struct hdlc_frame`; on failure the negative errno the C code returns
(`-EINVAL` bad framing, `-EIO` HCS/FCS mismatch, `-ENOMEM` oversized
info field).  All C reads `data[i]` have `i < len`; `List.getD` with
default 0 models them. -/
def hdlc_parse_frame (data : List Nat) : Except Int HdlcFrame :=
  let len := data.length
  if len < 9 then .error (-einval)
  else if data.getD 0 0 != HDLC_FLAG || data.getD (len - 1) 0 != HDLC_FLAG then
    .error (-einval)
  else
    let format_hi := data.getD 1 0
    if format_hi &&& 0xF0 != HDLC_FORMAT_TYPE then .error (-einval)
    else
      -- frame-length mismatch with `len` is tolerated (log only)
      let segmented := format_hi &&& 0x08 != 0
      let dst := data.getD 3 0
      let src := data.getD 4 0
      let control := data.getD 5 0
      let hcs_calc := hdlc_crc16 ((data.drop 1).take 5)
      let hcs_recv := data.getD 6 0 ||| (data.getD 7 0 <<< 8)
      if hcs_calc != hcs_recv then .error (-eio)
      else if len > 9 then
        let info_len := len - 9 - 2
        if info_len > HDLC_MAX_INFO_LEN then .error (-enomem)
        else
          let info := (data.drop 8).take info_len
          let fcs_calc := hdlc_crc16 ((data.drop 1).take (len - 4))
          let fcs_recv := data.getD (len - 3) 0 ||| (data.getD (len - 2) 0 <<< 8)
          if fcs_calc != fcs_recv then .error (-eio)
          else .ok { dst_addr := dst, src_addr := src, control := control,
                     info := info, segmented := segmented, valid := true }
      else .ok { dst_addr := dst, src_addr := src, control := control,
                 info := [], segmented := segmented, valid := true }


/-! ## Bit-level helper lemmas -/

theorem xor_left_comm (a b c : Nat) : a ^^^ (b ^^^ c) = b ^^^ (a ^^^ c) := by
  rw [← Nat.xor_assoc, Nat.xor_comm a b, Nat.xor_assoc]

theorem xor_right_cancel {a b m : Nat} (h : a ^^^ m = b ^^^ m) : a = b := by
  have := congrArg (· ^^^ m) h
  simpa [Nat.xor_assoc] using this

theorem xor_eq_self_iff {a e : Nat} : a ^^^ e = a ↔ e = 0 := by
  constructor
  · intro h
    have h2 : a ^^^ (a ^^^ e) = a ^^^ a := congrArg (a ^^^ ·) h
    rw [← Nat.xor_assoc, Nat.xor_self, Nat.zero_xor] at h2
    exact h2
  · intro h; simp [h]

theorem xor_cancel_left (a b : Nat) : a ^^^ (a ^^^ b) = b := by
  rw [← Nat.xor_assoc, Nat.xor_self, Nat.zero_xor]

theorem shiftRight_le_self (n k : Nat) : n >>> k <= n := by
  rw [Nat.shiftRight_eq_div_pow]; exact Nat.div_le_self _ _

theorem testBit_false_of_lt_256 {x : Nat} (h : x < 256) {i : Nat} (hi : 8 <= i) :
    x.testBit i = false := by
  apply Nat.testBit_lt_two_pow
  calc x < 256 := h
    _ = 2 ^ 8 := by norm_num
    _ <= 2 ^ i := Nat.pow_le_pow_right (by norm_num) hi

theorem and_255_eq_mod (x : Nat) : x &&& 255 = x % 256 := by
  have : (255 : Nat) = 2 ^ 8 - 1 := rfl
  rw [this, Nat.and_pow_two_sub_one_eq_mod]

theorem and_255_lt (x : Nat) : x &&& 255 < 256 := by
  rw [and_255_eq_mod]; exact Nat.mod_lt _ (by norm_num)

theorem and_255_eq_self {x : Nat} (h : x < 256) : x &&& 255 = x := by
  rw [and_255_eq_mod]; exact Nat.mod_eq_of_lt h

theorem shiftRight_xor_distrib (x y n : Nat) :
    (x ^^^ y) >>> n = (x >>> n) ^^^ (y >>> n) := by
  apply Nat.eq_of_testBit_eq
  intro i
  simp [Nat.testBit_shiftRight, Nat.testBit_xor]

theorem shiftRight8_eq_zero {x : Nat} (h : x < 256) : x >>> 8 = 0 := by
  rw [Nat.shiftRight_eq_div_pow]
  exact Nat.div_eq_of_lt h

/-- Recombining the low byte and the remaining high bits. -/
theorem byte_decomp (c : Nat) : ((c >>> 8) <<< 8) ||| (c &&& 255) = c := by
  apply Nat.eq_of_testBit_eq
  intro i
  have h255 : (255 : Nat) = 2 ^ 8 - 1 := rfl
  simp only [Nat.testBit_or, Nat.testBit_shiftLeft, Nat.testBit_shiftRight,
    Nat.testBit_and, h255, Nat.testBit_two_pow_sub_one]
  by_cases h : 8 <= i
  · have : 8 + (i - 8) = i := by omega
    simp [h, this, Nat.lt_irrefl, show ¬ i < 8 by omega]
  · simp [h, show i < 8 by omega]

/-- Extracting the low byte of `lo ||| (hi <<< 8)`. -/
theorem lo_or_hi_and (lo hi : Nat) (hlo : lo < 256) :
    (lo ||| (hi <<< 8)) &&& 255 = lo := by
  apply Nat.eq_of_testBit_eq
  intro i
  have h255 : (255 : Nat) = 2 ^ 8 - 1 := rfl
  simp only [Nat.testBit_and, Nat.testBit_or, Nat.testBit_shiftLeft, h255,
    Nat.testBit_two_pow_sub_one]
  by_cases h : i < 8
  · simp [h, show ¬ 8 <= i by omega]
  · simp [h, testBit_false_of_lt_256 hlo (by omega : 8 <= i)]

/-- Extracting the high bits of `lo ||| (hi <<< 8)`. -/
theorem lo_or_hi_shift (lo hi : Nat) (hlo : lo < 256) :
    (lo ||| (hi <<< 8)) >>> 8 = hi := by
  apply Nat.eq_of_testBit_eq
  intro i
  have hlo8 : lo.testBit (8 + i) = false :=
    testBit_false_of_lt_256 hlo (by omega)
  simp [Nat.testBit_shiftRight, Nat.testBit_or, Nat.testBit_shiftLeft, hlo8,
    show 8 + i - 8 = i by omega]

/-- The two checksum bytes written by the builders reassemble to the
checksum: `parse`'s `data[6] | (data[7] << 8)` recovers the CRC. -/
theorem crcBytes_recombine {h : Nat} (hh : h < 65536) :
    (h &&& 255) ||| (((h >>> 8) &&& 255) <<< 8) = h := by
  have hhi : h >>> 8 < 256 := by
    rw [Nat.shiftRight_eq_div_pow]
    exact Nat.div_lt_of_lt_mul (by simpa [Nat.mul_comm] using hh)
  rw [and_255_eq_self hhi, Nat.or_comm, byte_decomp]

theorem lo_or_hi_inj_lo {lo lo' hi : Nat} (h1 : lo < 256) (h2 : lo' < 256)
    (h : lo ||| (hi <<< 8) = lo' ||| (hi <<< 8)) : lo = lo' := by
  have := congrArg (· &&& 255) h
  simpa [lo_or_hi_and _ _ h1, lo_or_hi_and _ _ h2] using this

theorem lo_or_hi_inj_hi {lo hi hi' : Nat} (h1 : lo < 256)
    (h : lo ||| (hi <<< 8) = lo ||| (hi' <<< 8)) : hi = hi' := by
  have := congrArg (· >>> 8) h
  simpa [lo_or_hi_shift _ _ h1] using this

/-! ## CRC-16 theory

The bit-serial generator of `crc16_table` and the XOR-linearity facts
needed to show that any single-bit error changes the checksum. -/

/-- Table lookup (index is always taken `&&& 0xFF`, hence in range). -/
def crcTab (i : Nat) : Nat := crc16_table.getD i 0

/-- One bit of the reflected CRC-16 shift register (polynomial 0x8408). -/
def crcBitStep (r : Nat) : Nat :=
  (r >>> 1) ^^^ (if r &&& 1 = 1 then 0x8408 else 0)

/-- Eight shift steps: the bit-serial CRC of one byte. -/
def crcByteBits (b : Nat) : Nat :=
  crcBitStep (crcBitStep (crcBitStep (crcBitStep
    (crcBitStep (crcBitStep (crcBitStep (crcBitStep b)))))))

theorem and_1_le (x : Nat) : x &&& 1 <= 1 := Nat.and_le_right

theorem crcBitStep_linear (x y : Nat) :
    crcBitStep (x ^^^ y) = crcBitStep x ^^^ crcBitStep y := by
  unfold crcBitStep
  rw [shiftRight_xor_distrib]
  have hx := and_1_le x
  have hy := and_1_le y
  have hxy : (x ^^^ y) &&& 1 = (x &&& 1) ^^^ (y &&& 1) := Nat.and_xor_distrib_right
  interval_cases hx' : x &&& 1 <;> interval_cases hy' : y &&& 1 <;>
    simp_all [Nat.xor_assoc, Nat.xor_comm, xor_left_comm]

theorem crcByteBits_linear (x y : Nat) :
    crcByteBits (x ^^^ y) = crcByteBits x ^^^ crcByteBits y := by
  unfold crcByteBits
  simp only [crcBitStep_linear]

set_option maxRecDepth 100000 in
theorem crcTab_eq_bits : forall i, i < 256 -> crcTab i = crcByteBits i := by decide

theorem crcTab_linear {x y : Nat} (hx : x < 256) (hy : y < 256) :
    crcTab (x ^^^ y) = crcTab x ^^^ crcTab y := by
  have hxy : x ^^^ y < 256 := Nat.xor_lt_two_pow (n := 8) hx hy
  rw [crcTab_eq_bits _ hxy, crcTab_eq_bits _ hx, crcTab_eq_bits _ hy,
    crcByteBits_linear]

set_option maxRecDepth 100000 in
theorem crc16_table_length : crc16_table.length = 256 := rfl

set_option maxRecDepth 100000 in
theorem crcTab_lt_aux : forall i, i < 256 -> crcTab i < 65536 := by decide

theorem crcTab_lt (i : Nat) : crcTab i < 65536 := by
  by_cases h : i < 256
  · exact crcTab_lt_aux i h
  · unfold crcTab
    rw [List.getD_eq_getElem?_getD, List.getElem?_eq_none (by simpa [crc16_table_length] using Nat.le_of_not_lt h)]
    norm_num

/-- Propagation of a state difference through one CRC step with equal
input bytes: the difference evolves independently of the data. -/
def crcDiffStep (d : Nat) : Nat := (d >>> 8) ^^^ crcTab (d &&& 255)

theorem crcStep_same_byte (c1 c2 b : Nat) :
    crcStep c1 b ^^^ crcStep c2 b = crcDiffStep (c1 ^^^ c2) := by
  unfold crcStep crcDiffStep
  have h1 : ((c1 ^^^ b) &&& 255) ^^^ ((c2 ^^^ b) &&& 255) = (c1 ^^^ c2) &&& 255 := by
    rw [← Nat.and_xor_distrib_right]
    congr 1
    simp [Nat.xor_assoc, Nat.xor_comm, xor_left_comm, xor_cancel_left]
  calc (c1 >>> 8 ^^^ crcTab ((c1 ^^^ b) &&& 255)) ^^^
        (c2 >>> 8 ^^^ crcTab ((c2 ^^^ b) &&& 255))
      = (c1 >>> 8 ^^^ c2 >>> 8) ^^^
        (crcTab ((c1 ^^^ b) &&& 255) ^^^ crcTab ((c2 ^^^ b) &&& 255)) := by
        rw [Nat.xor_assoc, Nat.xor_assoc, xor_left_comm (crcTab ((c1 ^^^ b) &&& 255))]
    _ = (c1 ^^^ c2) >>> 8 ^^^ crcTab ((c1 ^^^ c2) &&& 255) := by
        rw [← shiftRight_xor_distrib, ← crcTab_linear (and_255_lt _) (and_255_lt _), h1]

/-- Same state, one input byte XORed by `e`: the resulting state
difference is the table entry of `e`'s low byte. -/
theorem crcStep_same_state (c x e : Nat) :
    crcStep c (x ^^^ e) ^^^ crcStep c x = crcTab (e &&& 255) := by
  unfold crcStep
  have h1 : ((c ^^^ (x ^^^ e)) &&& 255) ^^^ ((c ^^^ x) &&& 255) = e &&& 255 := by
    rw [← Nat.and_xor_distrib_right]
    congr 1
    simp [Nat.xor_assoc, Nat.xor_comm, xor_left_comm, xor_cancel_left]
  calc (c >>> 8 ^^^ crcTab ((c ^^^ (x ^^^ e)) &&& 255)) ^^^
        (c >>> 8 ^^^ crcTab ((c ^^^ x) &&& 255))
      = (c >>> 8 ^^^ c >>> 8) ^^^
        (crcTab ((c ^^^ (x ^^^ e)) &&& 255) ^^^ crcTab ((c ^^^ x) &&& 255)) := by
        rw [Nat.xor_assoc, Nat.xor_assoc, xor_left_comm (crcTab ((c ^^^ (x ^^^ e)) &&& 255))]
    _ = crcTab (e &&& 255) := by
        rw [Nat.xor_self, Nat.zero_xor,
          ← crcTab_linear (and_255_lt _) (and_255_lt _), h1]

/-- Running the raw (pre-complement) CRC fold. -/
def crcRaw (c : Nat) (l : List Nat) : Nat := l.foldl crcStep c

theorem crcRaw_diff (l : List Nat) (c1 c2 : Nat) :
    crcRaw c1 l ^^^ crcRaw c2 l = crcDiffStep^[l.length] (c1 ^^^ c2) := by
  induction l generalizing c1 c2 with
  | nil => rfl
  | cons b t ih =>
    show crcRaw (crcStep c1 b) t ^^^ crcRaw (crcStep c2 b) t = _
    rw [ih, crcStep_same_byte]
    simp [Function.iterate_succ_apply]

/-- Inverse high-byte table: `crc_hi_inv_table[crc16_table[i] >> 8] = i`.
(The high bytes of the 256 table entries are pairwise distinct.) -/
def crc_hi_inv_table : List Nat := [
  0x00, 0x11, 0x22, 0x33, 0x44, 0x55, 0x66, 0x77,
  0x88, 0x99, 0xAA, 0xBB, 0xCC, 0xDD, 0xEE, 0xFF,
  0x10, 0x01, 0x32, 0x23, 0x54, 0x45, 0x76, 0x67,
  0x98, 0x89, 0xBA, 0xAB, 0xDC, 0xCD, 0xFE, 0xEF,
  0x31, 0x20, 0x13, 0x02, 0x75, 0x64, 0x57, 0x46,
  0xB9, 0xA8, 0x9B, 0x8A, 0xFD, 0xEC, 0xDF, 0xCE,
  0x21, 0x30, 0x03, 0x12, 0x65, 0x74, 0x47, 0x56,
  0xA9, 0xB8, 0x8B, 0x9A, 0xED, 0xFC, 0xCF, 0xDE,
  0x62, 0x73, 0x40, 0x51, 0x26, 0x37, 0x04, 0x15,
  0xEA, 0xFB, 0xC8, 0xD9, 0xAE, 0xBF, 0x8C, 0x9D,
  0x72, 0x63, 0x50, 0x41, 0x36, 0x27, 0x14, 0x05,
  0xFA, 0xEB, 0xD8, 0xC9, 0xBE, 0xAF, 0x9C, 0x8D,
  0x53, 0x42, 0x71, 0x60, 0x17, 0x06, 0x35, 0x24,
  0xDB, 0xCA, 0xF9, 0xE8, 0x9F, 0x8E, 0xBD, 0xAC,
  0x43, 0x52, 0x61, 0x70, 0x07, 0x16, 0x25, 0x34,
  0xCB, 0xDA, 0xE9, 0xF8, 0x8F, 0x9E, 0xAD, 0xBC,
  0xC4, 0xD5, 0xE6, 0xF7, 0x80, 0x91, 0xA2, 0xB3,
  0x4C, 0x5D, 0x6E, 0x7F, 0x08, 0x19, 0x2A, 0x3B,
  0xD4, 0xC5, 0xF6, 0xE7, 0x90, 0x81, 0xB2, 0xA3,
  0x5C, 0x4D, 0x7E, 0x6F, 0x18, 0x09, 0x3A, 0x2B,
  0xF5, 0xE4, 0xD7, 0xC6, 0xB1, 0xA0, 0x93, 0x82,
  0x7D, 0x6C, 0x5F, 0x4E, 0x39, 0x28, 0x1B, 0x0A,
  0xE5, 0xF4, 0xC7, 0xD6, 0xA1, 0xB0, 0x83, 0x92,
  0x6D, 0x7C, 0x4F, 0x5E, 0x29, 0x38, 0x0B, 0x1A,
  0xA6, 0xB7, 0x84, 0x95, 0xE2, 0xF3, 0xC0, 0xD1,
  0x2E, 0x3F, 0x0C, 0x1D, 0x6A, 0x7B, 0x48, 0x59,
  0xB6, 0xA7, 0x94, 0x85, 0xF2, 0xE3, 0xD0, 0xC1,
  0x3E, 0x2F, 0x1C, 0x0D, 0x7A, 0x6B, 0x58, 0x49,
  0x97, 0x86, 0xB5, 0xA4, 0xD3, 0xC2, 0xF1, 0xE0,
  0x1F, 0x0E, 0x3D, 0x2C, 0x5B, 0x4A, 0x79, 0x68,
  0x87, 0x96, 0xA5, 0xB4, 0xC3, 0xD2, 0xE1, 0xF0,
  0x0F, 0x1E, 0x2D, 0x3C, 0x4B, 0x5A, 0x69, 0x78
]

/-- Right inverse of `i ↦ crcTab i >>> 8` on bytes (checked below). -/
def crcHiInv (h : Nat) : Nat := crc_hi_inv_table.getD h 0

set_option maxRecDepth 100000 in
theorem crcHiInv_crcTab : forall l, l < 256 -> crcHiInv (crcTab l >>> 8) = l := by
  decide

theorem crcDiffStep_lt {d : Nat} (h : d < 65536) : crcDiffStep d < 65536 := by
  unfold crcDiffStep
  exact Nat.xor_lt_two_pow (n := 16)
    (lt_of_le_of_lt (shiftRight_le_self d 8) h) (crcTab_lt _)

/-- `crcDiffStep` is recoverable: the shifted-in table entry determines
the low byte (its high byte is injective), and hence the whole state. -/
def crcDiffRecover (y : Nat) : Nat :=
  (((y ^^^ crcTab (crcHiInv (y >>> 8))) &&& 255) <<< 8) ||| crcHiInv (y >>> 8)

theorem crcDiffRecover_diffStep {d : Nat} (h : d < 65536) :
    crcDiffRecover (crcDiffStep d) = d := by
  have hhi : d >>> 8 < 256 := by
    rw [Nat.shiftRight_eq_div_pow]
    exact Nat.div_lt_of_lt_mul (by simpa [Nat.mul_comm] using h)
  have hlo : d &&& 255 < 256 := and_255_lt d
  unfold crcDiffRecover crcDiffStep
  have e1 : ((d >>> 8) ^^^ crcTab (d &&& 255)) >>> 8 = crcTab (d &&& 255) >>> 8 := by
    rw [shiftRight_xor_distrib, shiftRight8_eq_zero hhi, Nat.zero_xor]
  rw [e1, crcHiInv_crcTab _ hlo]
  have e2 : ((d >>> 8) ^^^ crcTab (d &&& 255)) ^^^ crcTab (d &&& 255) = d >>> 8 := by
    rw [Nat.xor_assoc, Nat.xor_self, Nat.xor_zero]
  rw [e2, and_255_eq_self hhi, byte_decomp]

theorem crcDiffStep_ne_zero {d : Nat} (h : d < 65536) (hd : d ≠ 0) :
    crcDiffStep d ≠ 0 := by
  intro h0
  apply hd
  have := crcDiffRecover_diffStep h
  rw [h0] at this
  simpa using this.symm

theorem crcDiffStep_iter_ne_zero (n : Nat) {d : Nat} (h : d < 65536) (hd : d ≠ 0) :
    crcDiffStep^[n] d ≠ 0 := by
  induction n generalizing d with
  | zero => simpa using hd
  | succ m ih =>
    rw [Function.iterate_succ_apply]
    exact ih (crcDiffStep_lt h) (crcDiffStep_ne_zero h hd)

set_option maxRecDepth 2048 in
theorem crcTab_pow_ne_zero : forall k, k < 8 ->
    crcTab ((1 <<< k) &&& 255) ≠ 0 ∧ crcTab ((1 <<< k) &&& 255) < 65536 := by
  decide

/-- Any single-bit error in the CRC input changes the CRC-16. -/
theorem hdlc_crc16_flip_ne (pre suf : List Nat) (x k : Nat) (hk : k < 8) :
    hdlc_crc16 (pre ++ (x ^^^ (1 <<< k)) :: suf) ≠ hdlc_crc16 (pre ++ x :: suf) := by
  intro heq
  unfold hdlc_crc16 at heq
  have hraw : (pre ++ (x ^^^ (1 <<< k)) :: suf).foldl crcStep 0xFFFF =
      (pre ++ x :: suf).foldl crcStep 0xFFFF := xor_right_cancel heq
  rw [List.foldl_append, List.foldl_append] at hraw
  have hdiff : crcRaw (crcStep (pre.foldl crcStep 0xFFFF) (x ^^^ (1 <<< k))) suf ^^^
      crcRaw (crcStep (pre.foldl crcStep 0xFFFF) x) suf =
      crcDiffStep^[suf.length] (crcTab ((1 <<< k) &&& 255)) := by
    rw [crcRaw_diff, crcStep_same_state]
  have hne := crcDiffStep_iter_ne_zero suf.length
    (crcTab_pow_ne_zero k hk).2 (crcTab_pow_ne_zero k hk).1
  rw [← hdiff] at hne
  apply hne
  show crcRaw _ suf ^^^ crcRaw _ suf = 0
  unfold crcRaw
  simp only [List.foldl_cons] at hraw
  rw [hraw, Nat.xor_self]

/-- CRC outputs are 16-bit values. -/
theorem crcStep_lt {c : Nat} (hc : c < 65536) (b : Nat) : crcStep c b < 65536 := by
  unfold crcStep
  exact Nat.xor_lt_two_pow (n := 16)
    (lt_of_le_of_lt (shiftRight_le_self c 8) hc) (crcTab_lt _)

theorem hdlc_crc16_lt (l : List Nat) : hdlc_crc16 l < 65536 := by
  unfold hdlc_crc16
  have : forall c, c < 65536 -> l.foldl crcStep c < 65536 := by
    induction l with
    | nil => intro c hc; simpa using hc
    | cons b t ih =>
      intro c hc
      simpa using ih _ (crcStep_lt hc b)
  exact Nat.xor_lt_two_pow (n := 16) (this _ (by norm_num)) (by norm_num)


/-! ## HDLC round-trip (claim C1) -/

theorem parse_built_noInfo (b1 b2 b3 b4 b5 : Nat) (hfmt : b1 &&& 0xF0 = 0xA0) :
    hdlc_parse_frame ([HDLC_FLAG, b1, b2, b3, b4, b5] ++
        crcBytes (hdlc_crc16 [b1, b2, b3, b4, b5]) ++ [HDLC_FLAG]) =
    .ok { dst_addr := b3, src_addr := b4, control := b5, info := [],
          segmented := b1 &&& 0x08 != 0, valid := true } := by
  have hlt := hdlc_crc16_lt [b1, b2, b3, b4, b5]
  have hrec := crcBytes_recombine hlt
  simp only [hdlc_parse_frame, crcBytes, HDLC_FLAG, HDLC_FORMAT_TYPE, List.cons_append,
    List.nil_append, List.length_cons, List.length_nil, List.getD_cons_zero,
    List.getD_cons_succ, List.drop, List.take]
  norm_num [hfmt, hrec]

theorem parse_built_withInfo (b1 b2 b3 b4 b5 : Nat) (info : List Nat)
    (hfmt : b1 &&& 0xF0 = 0xA0) (hn1 : 1 <= info.length) (hn2 : info.length <= 256) :
    hdlc_parse_frame ([HDLC_FLAG, b1, b2, b3, b4, b5] ++
        crcBytes (hdlc_crc16 [b1, b2, b3, b4, b5]) ++ info ++
        crcBytes (hdlc_crc16 ([b1, b2, b3, b4, b5] ++
          crcBytes (hdlc_crc16 [b1, b2, b3, b4, b5]) ++ info)) ++ [HDLC_FLAG]) =
    .ok { dst_addr := b3, src_addr := b4, control := b5, info := info,
          segmented := b1 &&& 0x08 != 0, valid := true } := by
  have hhlt := hdlc_crc16_lt [b1, b2, b3, b4, b5]
  have hflt := hdlc_crc16_lt ([b1, b2, b3, b4, b5] ++
    crcBytes (hdlc_crc16 [b1, b2, b3, b4, b5]) ++ info)
  generalize hh : hdlc_crc16 [b1, b2, b3, b4, b5] = h at *
  generalize hf : hdlc_crc16 ([b1, b2, b3, b4, b5] ++ crcBytes h ++ info) = f at *
  generalize hnn : info.length = n at *
  have hhrec := crcBytes_recombine hhlt
  have hfrec := crcBytes_recombine hflt
  have hD : [HDLC_FLAG, b1, b2, b3, b4, b5] ++ crcBytes h ++ info ++
      crcBytes f ++ [HDLC_FLAG] =
      HDLC_FLAG :: b1 :: b2 :: b3 :: b4 :: b5 :: (h &&& 255) :: ((h >>> 8) &&& 255) ::
        (info ++ (f &&& 255) :: ((f >>> 8) &&& 255) :: [HDLC_FLAG]) := by
    simp [crcBytes]
  rw [hD]
  have hlen : (HDLC_FLAG :: b1 :: b2 :: b3 :: b4 :: b5 :: (h &&& 255) ::
      ((h >>> 8) &&& 255) ::
      (info ++ (f &&& 255) :: ((f >>> 8) &&& 255) :: [HDLC_FLAG])).length = 11 + n := by
    simp [hnn]; omega
  unfold hdlc_parse_frame
  rw [hlen]
  rw [if_neg (by omega : ¬ (11 + n < 9))]
  have hlast : (HDLC_FLAG :: b1 :: b2 :: b3 :: b4 :: b5 :: (h &&& 255) ::
      ((h >>> 8) &&& 255) ::
      (info ++ (f &&& 255) :: ((f >>> 8) &&& 255) :: [HDLC_FLAG])).getD (11 + n - 1) 0
      = HDLC_FLAG := by
    have e1 : 11 + n - 1 = n + 10 := by omega
    rw [e1]
    simp only [List.getD_cons_succ]
    rw [List.getD_append_right _ _ _ _ (by omega : info.length <= n + 2)]
    rw [hnn]
    have e2 : n + 2 - n = 2 := by omega
    rw [e2]
    rfl
  rw [hlast]
  simp only [List.getD_cons_zero, List.getD_cons_succ]
  rw [if_neg (by simp [HDLC_FLAG] : ¬ ((HDLC_FLAG != HDLC_FLAG || HDLC_FLAG != HDLC_FLAG) = true))]
  rw [hfmt]
  rw [if_neg (by simp [HDLC_FORMAT_TYPE] : ¬ ((0xA0 != HDLC_FORMAT_TYPE) = true))]
  have hdrop5 : ((HDLC_FLAG :: b1 :: b2 :: b3 :: b4 :: b5 :: (h &&& 255) ::
      ((h >>> 8) &&& 255) ::
      (info ++ (f &&& 255) :: ((f >>> 8) &&& 255) :: [HDLC_FLAG])).drop 1).take 5
      = [b1, b2, b3, b4, b5] := by
    simp
  rw [hdrop5, hh, hhrec]
  rw [if_neg (by simp : ¬ ((h != h) = true))]
  rw [if_pos (by omega : 11 + n > 9)]
  have einfo : 11 + n - 9 - 2 = n := by omega
  rw [einfo]
  rw [if_neg (show ¬ (n > HDLC_MAX_INFO_LEN) by simp only [HDLC_MAX_INFO_LEN]; omega)]
  have hinfo : ((HDLC_FLAG :: b1 :: b2 :: b3 :: b4 :: b5 :: (h &&& 255) ::
      ((h >>> 8) &&& 255) ::
      (info ++ (f &&& 255) :: ((f >>> 8) &&& 255) :: [HDLC_FLAG])).drop 8).take n
      = info := by
    simp only [List.drop_succ_cons, List.drop_zero]
    rw [← hnn, List.take_left]
  rw [hinfo]
  have efcs : 11 + n - 4 = n + 7 := by omega
  rw [efcs]
  have hfcsmsg : ((HDLC_FLAG :: b1 :: b2 :: b3 :: b4 :: b5 :: (h &&& 255) ::
      ((h >>> 8) &&& 255) ::
      (info ++ (f &&& 255) :: ((f >>> 8) &&& 255) :: [HDLC_FLAG])).drop 1).take (n + 7)
      = [b1, b2, b3, b4, b5] ++ crcBytes h ++ info := by
    simp only [List.drop_succ_cons, List.drop_zero, List.take_succ_cons]
    rw [← hnn, List.take_left]
    simp [crcBytes]
  rw [hfcsmsg, hf]
  have em3 : 11 + n - 3 = n + 8 := by omega
  have em2 : 11 + n - 2 = n + 9 := by omega
  rw [em3, em2]
  have hgm3 : (HDLC_FLAG :: b1 :: b2 :: b3 :: b4 :: b5 :: (h &&& 255) ::
      ((h >>> 8) &&& 255) ::
      (info ++ (f &&& 255) :: ((f >>> 8) &&& 255) :: [HDLC_FLAG])).getD (n + 8) 0
      = f &&& 255 := by
    simp only [List.getD_cons_succ]
    rw [List.getD_append_right _ _ _ _ (le_of_eq hnn), hnn]
    simp
  have hgm2 : (HDLC_FLAG :: b1 :: b2 :: b3 :: b4 :: b5 :: (h &&& 255) ::
      ((h >>> 8) &&& 255) ::
      (info ++ (f &&& 255) :: ((f >>> 8) &&& 255) :: [HDLC_FLAG])).getD (n + 9) 0
      = (f >>> 8) &&& 255 := by
    simp only [List.getD_cons_succ]
    rw [List.getD_append_right _ _ _ _ (by omega : info.length <= n + 1), hnn]
    simp
  rw [hgm3, hgm2, hfrec]
  rw [if_neg (by simp : ¬ ((f != f) = true))]

set_option maxRecDepth 2048 in
theorem format_or_and : forall t, t <= 7 -> (0xA0 ||| t) &&& 0xF0 = 0xA0 := by decide

theorem snrmInfo_len (p : HdlcParams) :
    15 <= (snrmInfo p).length ∧ (snrmInfo p).length <= 17 := by
  unfold snrmInfo
  split <;> split <;> simp

theorem hdlc_build_iframe_eq (bufSize client server send recv : Nat) (info : List Nat)
    (hn1 : 1 <= info.length) (hn2 : info.length <= 256)
    (hbuf : 11 + info.length <= bufSize) :
    hdlc_build_iframe bufSize client server send recv info =
      some ([HDLC_FLAG,
             HDLC_FORMAT_TYPE ||| (((9 + info.length) >>> 8) &&& 0x07),
             (9 + info.length) &&& 0xFF,
             server, client, hdlcCtrlIFrame send recv] ++
        crcBytes (hdlc_crc16 [HDLC_FORMAT_TYPE ||| (((9 + info.length) >>> 8) &&& 0x07),
             (9 + info.length) &&& 0xFF, server, client, hdlcCtrlIFrame send recv]) ++ info ++
        crcBytes (hdlc_crc16 ([HDLC_FORMAT_TYPE ||| (((9 + info.length) >>> 8) &&& 0x07),
             (9 + info.length) &&& 0xFF, server, client, hdlcCtrlIFrame send recv] ++
          crcBytes (hdlc_crc16 [HDLC_FORMAT_TYPE ||| (((9 + info.length) >>> 8) &&& 0x07),
             (9 + info.length) &&& 0xFF, server, client, hdlcCtrlIFrame send recv]) ++ info)) ++
        [HDLC_FLAG]) := by
  unfold hdlc_build_iframe
  rw [if_neg (by simp only [HDLC_MAX_INFO_LEN]; omega : ¬ (info.length = 0 ∨ info.length > HDLC_MAX_INFO_LEN))]
  unfold build_header
  dsimp only
  rw [if_neg (by omega : ¬ (7 + info.length + 2 + 2 > bufSize))]
  simp [crcBytes, show 7 + info.length + 2 = 9 + info.length by omega]

theorem hdlc_build_disc_eq (bufSize client server : Nat) (hbuf : 9 <= bufSize) :
    hdlc_build_disc bufSize client server =
      some ([HDLC_FLAG, 0xA0, 7, server, client, HDLC_CTRL_DISC] ++
        crcBytes (hdlc_crc16 [0xA0, 7, server, client, HDLC_CTRL_DISC]) ++ [HDLC_FLAG]) := by
  unfold hdlc_build_disc build_header
  dsimp only
  rw [if_neg (by omega : ¬ (7 + 2 > bufSize))]
  simp [crcBytes, HDLC_FORMAT_TYPE, show (7 : Nat) &&& 255 = 7 from by decide]

theorem hdlc_build_snrm_none_eq (bufSize client server : Nat) (hbuf : 9 <= bufSize) :
    hdlc_build_snrm bufSize client server none =
      some ([HDLC_FLAG, 0xA0, 7, server, client, HDLC_CTRL_SNRM] ++
        crcBytes (hdlc_crc16 [0xA0, 7, server, client, HDLC_CTRL_SNRM]) ++ [HDLC_FLAG]) := by
  unfold hdlc_build_snrm build_header
  dsimp only
  rw [if_neg (by omega : ¬ (7 + 2 > bufSize))]
  simp [crcBytes, HDLC_FORMAT_TYPE, show (7 : Nat) &&& 255 = 7 from by decide]

theorem hdlc_build_snrm_some_eq (bufSize client server : Nat) (p : HdlcParams)
    (hbuf : 11 + (snrmInfo p).length <= bufSize) :
    hdlc_build_snrm bufSize client server (some p) =
      some ([HDLC_FLAG,
             HDLC_FORMAT_TYPE ||| (((9 + (snrmInfo p).length) >>> 8) &&& 0x07),
             (9 + (snrmInfo p).length) &&& 0xFF,
             server, client, HDLC_CTRL_SNRM] ++
        crcBytes (hdlc_crc16 [HDLC_FORMAT_TYPE ||| (((9 + (snrmInfo p).length) >>> 8) &&& 0x07),
             (9 + (snrmInfo p).length) &&& 0xFF, server, client, HDLC_CTRL_SNRM]) ++ snrmInfo p ++
        crcBytes (hdlc_crc16 ([HDLC_FORMAT_TYPE ||| (((9 + (snrmInfo p).length) >>> 8) &&& 0x07),
             (9 + (snrmInfo p).length) &&& 0xFF, server, client, HDLC_CTRL_SNRM] ++
          crcBytes (hdlc_crc16 [HDLC_FORMAT_TYPE ||| (((9 + (snrmInfo p).length) >>> 8) &&& 0x07),
             (9 + (snrmInfo p).length) &&& 0xFF, server, client, HDLC_CTRL_SNRM]) ++ snrmInfo p)) ++
        [HDLC_FLAG]) := by
  unfold hdlc_build_snrm build_header
  dsimp only
  rw [if_neg (by omega : ¬ (7 + (snrmInfo p).length + 2 + 2 > bufSize))]
  simp [crcBytes, show 7 + (snrmInfo p).length + 2 = 9 + (snrmInfo p).length by omega]

theorem format_hi_ok (n : Nat) :
    (HDLC_FORMAT_TYPE ||| (((9 + n) >>> 8) &&& 0x07)) &&& 0xF0 = 0xA0 :=
  format_or_and _ Nat.and_le_right

/-- C1, HDLC I-frame case. -/
theorem hdlc_iframe_roundtrip (bufSize client server send recv : Nat) (info : List Nat)
    (hn1 : 1 <= info.length) (hn2 : info.length <= 256)
    (hbuf : 11 + info.length <= bufSize) :
    ∃ fr pf, hdlc_build_iframe bufSize client server send recv info = some fr ∧
      hdlc_parse_frame fr = .ok pf ∧ pf.dst_addr = server ∧ pf.src_addr = client ∧
      pf.control = hdlcCtrlIFrame send recv ∧ pf.info = info ∧ pf.valid = true := by
  refine ⟨_, _, hdlc_build_iframe_eq bufSize client server send recv info hn1 hn2 hbuf,
    parse_built_withInfo _ _ _ _ _ info (format_hi_ok info.length) hn1 hn2, rfl, rfl, rfl, rfl, rfl⟩

/-- C1, minimal SNRM case. -/
theorem hdlc_snrm_none_roundtrip (bufSize client server : Nat) (hbuf : 9 <= bufSize) :
    ∃ fr pf, hdlc_build_snrm bufSize client server none = some fr ∧
      hdlc_parse_frame fr = .ok pf ∧ pf.dst_addr = server ∧ pf.src_addr = client ∧
      pf.control = HDLC_CTRL_SNRM ∧ pf.info = [] ∧ pf.valid = true := by
  refine ⟨_, _, hdlc_build_snrm_none_eq bufSize client server hbuf,
    parse_built_noInfo _ _ _ _ _ (by decide), rfl, rfl, rfl, rfl, rfl⟩

/-- C1, negotiated SNRM case. -/
theorem hdlc_snrm_some_roundtrip (bufSize client server : Nat) (p : HdlcParams)
    (hbuf : 11 + (snrmInfo p).length <= bufSize) :
    ∃ fr pf, hdlc_build_snrm bufSize client server (some p) = some fr ∧
      hdlc_parse_frame fr = .ok pf ∧ pf.dst_addr = server ∧ pf.src_addr = client ∧
      pf.control = HDLC_CTRL_SNRM ∧ pf.info = snrmInfo p ∧ pf.valid = true := by
  refine ⟨_, _, hdlc_build_snrm_some_eq bufSize client server p hbuf,
    parse_built_withInfo _ _ _ _ _ (snrmInfo p) (format_hi_ok _)
      (by have := (snrmInfo_len p).1; omega) (by have := (snrmInfo_len p).2; omega),
    rfl, rfl, rfl, rfl, rfl⟩

/-- C1, DISC case. -/
theorem hdlc_disc_roundtrip (bufSize client server : Nat) (hbuf : 9 <= bufSize) :
    ∃ fr pf, hdlc_build_disc bufSize client server = some fr ∧
      hdlc_parse_frame fr = .ok pf ∧ pf.dst_addr = server ∧ pf.src_addr = client ∧
      pf.control = HDLC_CTRL_DISC ∧ pf.info = [] ∧ pf.valid = true := by
  refine ⟨_, _, hdlc_build_disc_eq bufSize client server hbuf,
    parse_built_noInfo _ _ _ _ _ (by decide), rfl, rfl, rfl, rfl, rfl⟩

/-- **C1** — For every client/server address, send/receive sequence numbers in
0..7, and information field of 1 to 256 bytes, the frame produced by
`hdlc_build_iframe` — and likewise the frames produced by `hdlc_build_snrm`
(with or without negotiation parameters) and `hdlc_build_disc` — is accepted
by `hdlc_parse_frame`, and the parsed destination address, source address,
control byte and (when present) information field equal the built ones. -/
theorem C1_build_parse_roundtrip :
    (∀ bufSize client server send recv (info : List Nat),
      client <= 255 → server <= 255 → send <= 7 → recv <= 7 →
      (∀ b ∈ info, b <= 255) → 1 <= info.length → info.length <= 256 →
      11 + info.length <= bufSize →
      ∃ fr pf, hdlc_build_iframe bufSize client server send recv info = some fr ∧
        hdlc_parse_frame fr = .ok pf ∧ pf.dst_addr = server ∧ pf.src_addr = client ∧
        pf.control = hdlcCtrlIFrame send recv ∧ pf.info = info ∧ pf.valid = true) ∧
    (∀ bufSize client server, client <= 255 → server <= 255 → 9 <= bufSize →
      ∃ fr pf, hdlc_build_snrm bufSize client server none = some fr ∧
        hdlc_parse_frame fr = .ok pf ∧ pf.dst_addr = server ∧ pf.src_addr = client ∧
        pf.control = HDLC_CTRL_SNRM ∧ pf.info = [] ∧ pf.valid = true) ∧
    (∀ bufSize client server p, client <= 255 → server <= 255 →
      11 + (snrmInfo p).length <= bufSize →
      ∃ fr pf, hdlc_build_snrm bufSize client server (some p) = some fr ∧
        hdlc_parse_frame fr = .ok pf ∧ pf.dst_addr = server ∧ pf.src_addr = client ∧
        pf.control = HDLC_CTRL_SNRM ∧ pf.info = snrmInfo p ∧ pf.valid = true) ∧
    (∀ bufSize client server, client <= 255 → server <= 255 → 9 <= bufSize →
      ∃ fr pf, hdlc_build_disc bufSize client server = some fr ∧
        hdlc_parse_frame fr = .ok pf ∧ pf.dst_addr = server ∧ pf.src_addr = client ∧
        pf.control = HDLC_CTRL_DISC ∧ pf.info = [] ∧ pf.valid = true) :=
  ⟨fun bufSize client server send recv info _ _ _ _ _ h1 h2 hb =>
      hdlc_iframe_roundtrip bufSize client server send recv info h1 h2 hb,
    fun bufSize client server _ _ hb => hdlc_snrm_none_roundtrip bufSize client server hb,
    fun bufSize client server p _ _ hb => hdlc_snrm_some_roundtrip bufSize client server p hb,
    fun bufSize client server _ _ hb => hdlc_disc_roundtrip bufSize client server hb⟩

/-- Witness for C1 at concrete inputs. -/
theorem C1_build_parse_roundtrip_witness :
    (∃ fr pf, hdlc_build_iframe 300 0x03 0x03 1 2 [0xE6, 0xE6, 0x00, 0xC0] = some fr ∧
      hdlc_parse_frame fr = .ok pf ∧ pf.dst_addr = 0x03 ∧ pf.src_addr = 0x03 ∧
      pf.control = hdlcCtrlIFrame 1 2 ∧ pf.info = [0xE6, 0xE6, 0x00, 0xC0] ∧
      pf.valid = true) ∧
    (∃ fr pf, hdlc_build_snrm 300 0x03 0x03 none = some fr ∧
      hdlc_parse_frame fr = .ok pf ∧ pf.dst_addr = 0x03 ∧ pf.src_addr = 0x03 ∧
      pf.control = HDLC_CTRL_SNRM ∧ pf.info = [] ∧ pf.valid = true) ∧
    (∃ fr pf, hdlc_build_snrm 300 0x03 0x03 (some ⟨128, 128, 1, 1⟩) = some fr ∧
      hdlc_parse_frame fr = .ok pf ∧ pf.dst_addr = 0x03 ∧ pf.src_addr = 0x03 ∧
      pf.control = HDLC_CTRL_SNRM ∧ pf.info = snrmInfo ⟨128, 128, 1, 1⟩ ∧
      pf.valid = true) ∧
    (∃ fr pf, hdlc_build_disc 300 0x03 0x03 = some fr ∧
      hdlc_parse_frame fr = .ok pf ∧ pf.dst_addr = 0x03 ∧ pf.src_addr = 0x03 ∧
      pf.control = HDLC_CTRL_DISC ∧ pf.info = [] ∧ pf.valid = true) :=
  ⟨C1_build_parse_roundtrip.1 300 0x03 0x03 1 2 [0xE6, 0xE6, 0x00, 0xC0]
      (by decide) (by decide) (by decide) (by decide) (by decide) (by decide)
      (by decide) (by decide),
    C1_build_parse_roundtrip.2.1 300 0x03 0x03 (by decide) (by decide) (by decide),
    C1_build_parse_roundtrip.2.2.1 300 0x03 0x03 ⟨128, 128, 1, 1⟩
      (by decide) (by decide) (by decide),
    C1_build_parse_roundtrip.2.2.2 300 0x03 0x03 (by decide) (by decide) (by decide)⟩

/-! ## Frame corruption detection (claim C2) -/

/-- A frame of the built shape whose format-type nibble is wrong parses
to `-EINVAL` (the check precedes both checksums). -/
theorem parse_shape_badfmt (c1 c2 c3 c4 c5 u0 u1 : Nat) (mid : List Nat)
    (hfmt : c1 &&& 0xF0 ≠ 0xA0) :
    hdlc_parse_frame (HDLC_FLAG :: c1 :: c2 :: c3 :: c4 :: c5 :: u0 :: u1 ::
      (mid ++ [HDLC_FLAG])) = .error (-einval) := by
  generalize hnn : mid.length = n
  unfold hdlc_parse_frame
  have hlen : (HDLC_FLAG :: c1 :: c2 :: c3 :: c4 :: c5 :: u0 :: u1 ::
      (mid ++ [HDLC_FLAG])).length = 9 + n := by
    simp [hnn]; omega
  rw [hlen]
  rw [if_neg (by omega : ¬ (9 + n < 9))]
  have hlast : (HDLC_FLAG :: c1 :: c2 :: c3 :: c4 :: c5 :: u0 :: u1 ::
      (mid ++ [HDLC_FLAG])).getD (9 + n - 1) 0 = HDLC_FLAG := by
    have e1 : 9 + n - 1 = n + 8 := by omega
    rw [e1]
    simp only [List.getD_cons_succ]
    rw [List.getD_append_right _ _ _ _ (le_of_eq hnn), hnn]
    simp
  rw [hlast]
  simp only [List.getD_cons_zero, List.getD_cons_succ]
  rw [if_neg (by simp [HDLC_FLAG] : ¬ ((HDLC_FLAG != HDLC_FLAG || HDLC_FLAG != HDLC_FLAG) = true))]
  rw [if_pos (by simp [HDLC_FORMAT_TYPE, bne_iff_ne]; exact hfmt)]

/-- A frame of the built shape whose received HCS does not match the
recomputed header CRC parses to `-EIO` (ChecksumMismatch). -/
theorem parse_shape_badhcs (c1 c2 c3 c4 c5 u0 u1 : Nat) (mid : List Nat)
    (hfmt : c1 &&& 0xF0 = 0xA0)
    (hbad : hdlc_crc16 [c1, c2, c3, c4, c5] ≠ u0 ||| (u1 <<< 8)) :
    hdlc_parse_frame (HDLC_FLAG :: c1 :: c2 :: c3 :: c4 :: c5 :: u0 :: u1 ::
      (mid ++ [HDLC_FLAG])) = .error (-eio) := by
  generalize hnn : mid.length = n
  unfold hdlc_parse_frame
  have hlen : (HDLC_FLAG :: c1 :: c2 :: c3 :: c4 :: c5 :: u0 :: u1 ::
      (mid ++ [HDLC_FLAG])).length = 9 + n := by
    simp [hnn]; omega
  rw [hlen]
  rw [if_neg (by omega : ¬ (9 + n < 9))]
  have hlast : (HDLC_FLAG :: c1 :: c2 :: c3 :: c4 :: c5 :: u0 :: u1 ::
      (mid ++ [HDLC_FLAG])).getD (9 + n - 1) 0 = HDLC_FLAG := by
    have e1 : 9 + n - 1 = n + 8 := by omega
    rw [e1]
    simp only [List.getD_cons_succ]
    rw [List.getD_append_right _ _ _ _ (le_of_eq hnn), hnn]
    simp
  rw [hlast]
  simp only [List.getD_cons_zero, List.getD_cons_succ]
  rw [if_neg (by simp [HDLC_FLAG] : ¬ ((HDLC_FLAG != HDLC_FLAG || HDLC_FLAG != HDLC_FLAG) = true))]
  rw [hfmt]
  rw [if_neg (by simp [HDLC_FORMAT_TYPE] : ¬ ((0xA0 != HDLC_FORMAT_TYPE) = true))]
  have hdrop5 : ((HDLC_FLAG :: c1 :: c2 :: c3 :: c4 :: c5 :: u0 :: u1 ::
      (mid ++ [HDLC_FLAG])).drop 1).take 5 = [c1, c2, c3, c4, c5] := by
    simp
  rw [hdrop5]
  rw [if_pos (by simp [bne_iff_ne]; exact hbad)]

/-- A frame of the built with-info shape whose header checks pass but
whose received FCS does not match the recomputed CRC parses to `-EIO`. -/
theorem parse_shape_badfcs (c1 c2 c3 c4 c5 u0 u1 v0 v1 : Nat) (info : List Nat)
    (hfmt : c1 &&& 0xF0 = 0xA0) (hn1 : 1 <= info.length) (hn2 : info.length <= 256)
    (hhcs : hdlc_crc16 [c1, c2, c3, c4, c5] = u0 ||| (u1 <<< 8))
    (hbad : hdlc_crc16 ([c1, c2, c3, c4, c5] ++ [u0, u1] ++ info) ≠ v0 ||| (v1 <<< 8)) :
    hdlc_parse_frame (HDLC_FLAG :: c1 :: c2 :: c3 :: c4 :: c5 :: u0 :: u1 ::
      (info ++ v0 :: v1 :: [HDLC_FLAG])) = .error (-eio) := by
  generalize hnn : info.length = n at *
  unfold hdlc_parse_frame
  have hlen : (HDLC_FLAG :: c1 :: c2 :: c3 :: c4 :: c5 :: u0 :: u1 ::
      (info ++ v0 :: v1 :: [HDLC_FLAG])).length = 11 + n := by
    simp [hnn]; omega
  rw [hlen]
  rw [if_neg (by omega : ¬ (11 + n < 9))]
  have hlast : (HDLC_FLAG :: c1 :: c2 :: c3 :: c4 :: c5 :: u0 :: u1 ::
      (info ++ v0 :: v1 :: [HDLC_FLAG])).getD (11 + n - 1) 0 = HDLC_FLAG := by
    have e1 : 11 + n - 1 = n + 10 := by omega
    rw [e1]
    simp only [List.getD_cons_succ]
    rw [List.getD_append_right _ _ _ _ (by omega : info.length <= n + 2), hnn]
    have e2 : n + 2 - n = 2 := by omega
    rw [e2]
    rfl
  rw [hlast]
  simp only [List.getD_cons_zero, List.getD_cons_succ]
  rw [if_neg (by simp [HDLC_FLAG] : ¬ ((HDLC_FLAG != HDLC_FLAG || HDLC_FLAG != HDLC_FLAG) = true))]
  rw [hfmt]
  rw [if_neg (by simp [HDLC_FORMAT_TYPE] : ¬ ((0xA0 != HDLC_FORMAT_TYPE) = true))]
  have hdrop5 : ((HDLC_FLAG :: c1 :: c2 :: c3 :: c4 :: c5 :: u0 :: u1 ::
      (info ++ v0 :: v1 :: [HDLC_FLAG])).drop 1).take 5 = [c1, c2, c3, c4, c5] := by
    simp
  rw [hdrop5, hhcs]
  rw [if_neg (by simp : ¬ ((u0 ||| u1 <<< 8 != u0 ||| u1 <<< 8) = true))]
  rw [if_pos (by omega : 11 + n > 9)]
  have einfo : 11 + n - 9 - 2 = n := by omega
  rw [einfo]
  rw [if_neg (show ¬ (n > HDLC_MAX_INFO_LEN) by simp only [HDLC_MAX_INFO_LEN]; omega)]
  have efcs : 11 + n - 4 = n + 7 := by omega
  rw [efcs]
  have hfcsmsg : ((HDLC_FLAG :: c1 :: c2 :: c3 :: c4 :: c5 :: u0 :: u1 ::
      (info ++ v0 :: v1 :: [HDLC_FLAG])).drop 1).take (n + 7)
      = [c1, c2, c3, c4, c5] ++ [u0, u1] ++ info := by
    simp only [List.drop_succ_cons, List.drop_zero, List.take_succ_cons]
    rw [← hnn, List.take_left]
    simp
  rw [hfcsmsg]
  have em3 : 11 + n - 3 = n + 8 := by omega
  have em2 : 11 + n - 2 = n + 9 := by omega
  rw [em3, em2]
  have hgm3 : (HDLC_FLAG :: c1 :: c2 :: c3 :: c4 :: c5 :: u0 :: u1 ::
      (info ++ v0 :: v1 :: [HDLC_FLAG])).getD (n + 8) 0 = v0 := by
    simp only [List.getD_cons_succ]
    rw [List.getD_append_right _ _ _ _ (le_of_eq hnn), hnn]
    simp
  have hgm2 : (HDLC_FLAG :: c1 :: c2 :: c3 :: c4 :: c5 :: u0 :: u1 ::
      (info ++ v0 :: v1 :: [HDLC_FLAG])).getD (n + 9) 0 = v1 := by
    simp only [List.getD_cons_succ]
    rw [List.getD_append_right _ _ _ _ (by omega : info.length <= n + 1), hnn]
    simp
  rw [hgm3, hgm2]
  rw [if_pos (by simp [bne_iff_ne]; exact hbad)]

/-- Flip bit `k` of byte `i` (`data[i] ^= (1 << k)`). -/
def flipBit (l : List Nat) (i k : Nat) : List Nat :=
  l.set i (l.getD i 0 ^^^ (1 <<< k))

set_option maxRecDepth 2048 in
theorem flip_e_facts : forall k, k < 8 ->
    (1 <<< k) < 256 ∧ (1 <<< k) ≠ 0 ∧
    (k < 4 -> (1 <<< k) &&& 0xF0 = 0) ∧
    (4 <= k -> (1 <<< k) &&& 0xF0 ≠ 0) := by decide

/-- Flipping one bit of the five header bytes or of the two HCS bytes of a
built-shape frame: `-EINVAL` for a format-nibble bit, `-EIO` otherwise. -/
theorem flip_header_parse (b1 b2 b3 b4 b5 : Nat) (mid : List Nat) (i k : Nat)
    (hk : k < 8) (hfmt : b1 &&& 0xF0 = 0xA0) (hi1 : 1 <= i) (hi2 : i <= 7) :
    hdlc_parse_frame (flipBit (HDLC_FLAG :: b1 :: b2 :: b3 :: b4 :: b5 ::
      ((hdlc_crc16 [b1, b2, b3, b4, b5]) &&& 255) ::
      (((hdlc_crc16 [b1, b2, b3, b4, b5]) >>> 8) &&& 255) ::
      (mid ++ [HDLC_FLAG])) i k) =
    (if i = 1 ∧ 4 <= k then .error (-einval) else .error (-eio)) := by
  have hlt := hdlc_crc16_lt [b1, b2, b3, b4, b5]
  have hrec := crcBytes_recombine hlt
  have he := flip_e_facts k hk
  interval_cases i
  · -- i = 1 : format byte
    by_cases h4 : 4 <= k
    · rw [if_pos ⟨rfl, h4⟩]
      simp only [flipBit, List.getD_cons_succ, List.getD_cons_zero,
        List.set_cons_succ, List.set_cons_zero]
      apply parse_shape_badfmt
      rw [Nat.and_xor_distrib_right, hfmt, ne_eq, xor_eq_self_iff]
      exact he.2.2.2 h4
    · rw [if_neg (by tauto)]
      simp only [flipBit, List.getD_cons_succ, List.getD_cons_zero,
        List.set_cons_succ, List.set_cons_zero]
      apply parse_shape_badhcs
      · rw [Nat.and_xor_distrib_right, hfmt, he.2.2.1 (by omega), Nat.xor_zero]
      · rw [hrec]
        simpa using hdlc_crc16_flip_ne [] [b2, b3, b4, b5] b1 k hk
  · rw [if_neg (by omega)]
    simp only [flipBit, List.getD_cons_succ, List.getD_cons_zero,
      List.set_cons_succ, List.set_cons_zero]
    apply parse_shape_badhcs _ _ _ _ _ _ _ _ hfmt
    rw [hrec]
    simpa using hdlc_crc16_flip_ne [b1] [b3, b4, b5] b2 k hk
  · rw [if_neg (by omega)]
    simp only [flipBit, List.getD_cons_succ, List.getD_cons_zero,
      List.set_cons_succ, List.set_cons_zero]
    apply parse_shape_badhcs _ _ _ _ _ _ _ _ hfmt
    rw [hrec]
    simpa using hdlc_crc16_flip_ne [b1, b2] [b4, b5] b3 k hk
  · rw [if_neg (by omega)]
    simp only [flipBit, List.getD_cons_succ, List.getD_cons_zero,
      List.set_cons_succ, List.set_cons_zero]
    apply parse_shape_badhcs _ _ _ _ _ _ _ _ hfmt
    rw [hrec]
    simpa using hdlc_crc16_flip_ne [b1, b2, b3] [b5] b4 k hk
  · rw [if_neg (by omega)]
    simp only [flipBit, List.getD_cons_succ, List.getD_cons_zero,
      List.set_cons_succ, List.set_cons_zero]
    apply parse_shape_badhcs _ _ _ _ _ _ _ _ hfmt
    rw [hrec]
    simpa using hdlc_crc16_flip_ne [b1, b2, b3, b4] [] b5 k hk
  · -- i = 6 : low HCS byte
    rw [if_neg (by omega)]
    simp only [flipBit, List.getD_cons_succ, List.getD_cons_zero,
      List.set_cons_succ, List.set_cons_zero]
    have hbad : hdlc_crc16 [b1, b2, b3, b4, b5] ≠
        ((hdlc_crc16 [b1, b2, b3, b4, b5] &&& 255) ^^^ (1 <<< k)) |||
          (((hdlc_crc16 [b1, b2, b3, b4, b5] >>> 8) &&& 255) <<< 8) := by
      intro heq
      have h2 := hrec.trans heq
      have h3 := lo_or_hi_inj_lo (and_255_lt _)
        (Nat.xor_lt_two_pow (n := 8) (and_255_lt _) he.1) h2
      exact he.2.1 (xor_eq_self_iff.mp h3.symm)
    exact parse_shape_badhcs _ _ _ _ _ _ _ _ hfmt hbad
  · -- i = 7 : high HCS byte
    rw [if_neg (by omega)]
    simp only [flipBit, List.getD_cons_succ, List.getD_cons_zero,
      List.set_cons_succ, List.set_cons_zero]
    have hbad : hdlc_crc16 [b1, b2, b3, b4, b5] ≠
        (hdlc_crc16 [b1, b2, b3, b4, b5] &&& 255) |||
          ((((hdlc_crc16 [b1, b2, b3, b4, b5] >>> 8) &&& 255) ^^^ (1 <<< k)) <<< 8) := by
      intro heq
      have h2 := hrec.trans heq
      have h3 := lo_or_hi_inj_hi (and_255_lt _) h2
      exact he.2.1 (xor_eq_self_iff.mp h3.symm)
    exact parse_shape_badhcs _ _ _ _ _ _ _ _ hfmt hbad

theorem take_getD_drop (l : List Nat) (j : Nat) (h : j < l.length) :
    l.take j ++ l.getD j 0 :: l.drop (j + 1) = l := by
  induction l generalizing j with
  | nil => simp at h
  | cons a t ih =>
    cases j with
    | zero => simp
    | succ m =>
      simp only [List.take_succ_cons, List.getD_cons_succ, List.drop_succ_cons,
        List.cons_append, List.cons.injEq, true_and]
      exact ih m (by simpa using h)

/-- Flipping one bit inside the information field of a built with-info
frame yields `-EIO` (the FCS no longer matches). -/
theorem flip_info_parse (b1 b2 b3 b4 b5 : Nat) (info : List Nat) (j k : Nat)
    (hk : k < 8) (hfmt : b1 &&& 0xF0 = 0xA0)
    (hn1 : 1 <= info.length) (hn2 : info.length <= 256) (hj : j < info.length) :
    hdlc_parse_frame (flipBit (HDLC_FLAG :: b1 :: b2 :: b3 :: b4 :: b5 ::
      ((hdlc_crc16 [b1, b2, b3, b4, b5]) &&& 255) ::
      (((hdlc_crc16 [b1, b2, b3, b4, b5]) >>> 8) &&& 255) ::
      (info ++
        ((hdlc_crc16 ([b1, b2, b3, b4, b5] ++
          [(hdlc_crc16 [b1, b2, b3, b4, b5]) &&& 255,
           ((hdlc_crc16 [b1, b2, b3, b4, b5]) >>> 8) &&& 255] ++ info)) &&& 255) ::
        (((hdlc_crc16 ([b1, b2, b3, b4, b5] ++
          [(hdlc_crc16 [b1, b2, b3, b4, b5]) &&& 255,
           ((hdlc_crc16 [b1, b2, b3, b4, b5]) >>> 8) &&& 255] ++ info)) >>> 8) &&& 255) ::
        [HDLC_FLAG])) (8 + j) k) = .error (-eio) := by
  have hhlt := hdlc_crc16_lt [b1, b2, b3, b4, b5]
  have hrec := crcBytes_recombine hhlt
  have he := flip_e_facts k hk
  have e8 : 8 + j = j + 8 := by omega
  rw [e8]
  unfold flipBit
  have hget : (HDLC_FLAG :: b1 :: b2 :: b3 :: b4 :: b5 ::
      ((hdlc_crc16 [b1, b2, b3, b4, b5]) &&& 255) ::
      (((hdlc_crc16 [b1, b2, b3, b4, b5]) >>> 8) &&& 255) ::
      (info ++
        ((hdlc_crc16 ([b1, b2, b3, b4, b5] ++
          [(hdlc_crc16 [b1, b2, b3, b4, b5]) &&& 255,
           ((hdlc_crc16 [b1, b2, b3, b4, b5]) >>> 8) &&& 255] ++ info)) &&& 255) ::
        (((hdlc_crc16 ([b1, b2, b3, b4, b5] ++
          [(hdlc_crc16 [b1, b2, b3, b4, b5]) &&& 255,
           ((hdlc_crc16 [b1, b2, b3, b4, b5]) >>> 8) &&& 255] ++ info)) >>> 8) &&& 255) ::
        [HDLC_FLAG])).getD (j + 8) 0 = info.getD j 0 := by
    simp only [List.getD_cons_succ]
    rw [List.getD_append _ _ _ _ hj]
  rw [hget]
  simp only [List.set_cons_succ]
  rw [List.set_append, if_pos hj]
  apply parse_shape_badfcs
  · exact hfmt
  · simpa using hn1
  · simpa using hn2
  · exact hrec.symm
  · -- corrupted FCS message has a different CRC
    have hfrec := crcBytes_recombine (hdlc_crc16_lt ([b1, b2, b3, b4, b5] ++
      [(hdlc_crc16 [b1, b2, b3, b4, b5]) &&& 255,
       ((hdlc_crc16 [b1, b2, b3, b4, b5]) >>> 8) &&& 255] ++ info))
    rw [hfrec]
    rw [List.set_eq_take_cons_drop _ hj]
    conv =>
      rhs
      rw [← take_getD_drop info j hj]
    have := hdlc_crc16_flip_ne
      ([b1, b2, b3, b4, b5, (hdlc_crc16 [b1, b2, b3, b4, b5]) &&& 255,
        ((hdlc_crc16 [b1, b2, b3, b4, b5]) >>> 8) &&& 255] ++ info.take j)
      (info.drop (j + 1)) (info.getD j 0) k hk
    simpa using this

/-- Flipping one bit of either FCS byte of a built with-info frame
yields `-EIO`. -/
theorem flip_fcs_parse (b1 b2 b3 b4 b5 : Nat) (info : List Nat) (i k : Nat)
    (hk : k < 8) (hfmt : b1 &&& 0xF0 = 0xA0)
    (hn1 : 1 <= info.length) (hn2 : info.length <= 256)
    (hi : i = 8 + info.length ∨ i = 9 + info.length) :
    hdlc_parse_frame (flipBit (HDLC_FLAG :: b1 :: b2 :: b3 :: b4 :: b5 ::
      ((hdlc_crc16 [b1, b2, b3, b4, b5]) &&& 255) ::
      (((hdlc_crc16 [b1, b2, b3, b4, b5]) >>> 8) &&& 255) ::
      (info ++
        ((hdlc_crc16 ([b1, b2, b3, b4, b5] ++
          [(hdlc_crc16 [b1, b2, b3, b4, b5]) &&& 255,
           ((hdlc_crc16 [b1, b2, b3, b4, b5]) >>> 8) &&& 255] ++ info)) &&& 255) ::
        (((hdlc_crc16 ([b1, b2, b3, b4, b5] ++
          [(hdlc_crc16 [b1, b2, b3, b4, b5]) &&& 255,
           ((hdlc_crc16 [b1, b2, b3, b4, b5]) >>> 8) &&& 255] ++ info)) >>> 8) &&& 255) ::
        [HDLC_FLAG])) i k) = .error (-eio) := by
  have hhlt := hdlc_crc16_lt [b1, b2, b3, b4, b5]
  have hrec := crcBytes_recombine hhlt
  have hflt := hdlc_crc16_lt ([b1, b2, b3, b4, b5] ++
    [(hdlc_crc16 [b1, b2, b3, b4, b5]) &&& 255,
     ((hdlc_crc16 [b1, b2, b3, b4, b5]) >>> 8) &&& 255] ++ info)
  have hfrec := crcBytes_recombine hflt
  have he := flip_e_facts k hk
  unfold flipBit
  rcases hi with hi | hi
  · -- low FCS byte
    rw [hi, show 8 + info.length = info.length + 8 by omega]
    have hget : ∀ tail : List Nat, (HDLC_FLAG :: b1 :: b2 :: b3 :: b4 :: b5 ::
        ((hdlc_crc16 [b1, b2, b3, b4, b5]) &&& 255) ::
        (((hdlc_crc16 [b1, b2, b3, b4, b5]) >>> 8) &&& 255) ::
        (info ++ tail)).getD (info.length + 8) 0 = tail.getD 0 0 := by
      intro tail
      simp only [List.getD_cons_succ]
      rw [List.getD_append_right _ _ _ _ (by omega)]
      simp
    rw [hget]
    simp only [List.getD_cons_zero, List.set_cons_succ]
    rw [List.set_append, if_neg (by omega), Nat.sub_self]
    simp only [List.set_cons_zero]
    have hbad : hdlc_crc16 ([b1, b2, b3, b4, b5] ++
        [(hdlc_crc16 [b1, b2, b3, b4, b5]) &&& 255,
         ((hdlc_crc16 [b1, b2, b3, b4, b5]) >>> 8) &&& 255] ++ info) ≠
        ((hdlc_crc16 ([b1, b2, b3, b4, b5] ++
          [(hdlc_crc16 [b1, b2, b3, b4, b5]) &&& 255,
           ((hdlc_crc16 [b1, b2, b3, b4, b5]) >>> 8) &&& 255] ++ info) &&& 255) ^^^ (1 <<< k)) |||
          (((hdlc_crc16 ([b1, b2, b3, b4, b5] ++
            [(hdlc_crc16 [b1, b2, b3, b4, b5]) &&& 255,
             ((hdlc_crc16 [b1, b2, b3, b4, b5]) >>> 8) &&& 255] ++ info) >>> 8) &&& 255) <<< 8) := by
      intro heq
      have h2 := hfrec.trans heq
      have h3 := lo_or_hi_inj_lo (and_255_lt _)
        (Nat.xor_lt_two_pow (n := 8) (and_255_lt _) he.1) h2
      exact he.2.1 (xor_eq_self_iff.mp h3.symm)
    exact parse_shape_badfcs _ _ _ _ _ _ _ _ _ _ hfmt hn1 hn2 hrec.symm hbad
  · -- high FCS byte
    rw [hi, show 9 + info.length = info.length + 9 by omega]
    have hget : ∀ v0 : Nat, ∀ tail : List Nat, (HDLC_FLAG :: b1 :: b2 :: b3 :: b4 :: b5 ::
        ((hdlc_crc16 [b1, b2, b3, b4, b5]) &&& 255) ::
        (((hdlc_crc16 [b1, b2, b3, b4, b5]) >>> 8) &&& 255) ::
        (info ++ v0 :: tail)).getD (info.length + 9) 0 = tail.getD 0 0 := by
      intro v0 tail
      simp only [List.getD_cons_succ]
      rw [List.getD_append_right _ _ _ _ (by omega)]
      rw [show info.length + 1 - info.length = 1 by omega]
      simp
    rw [hget]
    simp only [List.getD_cons_zero, List.set_cons_succ]
    rw [List.set_append, if_neg (by omega),
      show info.length + 1 - info.length = 1 by omega]
    simp only [List.set_cons_succ, List.set_cons_zero]
    have hbad : hdlc_crc16 ([b1, b2, b3, b4, b5] ++
        [(hdlc_crc16 [b1, b2, b3, b4, b5]) &&& 255,
         ((hdlc_crc16 [b1, b2, b3, b4, b5]) >>> 8) &&& 255] ++ info) ≠
        ((hdlc_crc16 ([b1, b2, b3, b4, b5] ++
          [(hdlc_crc16 [b1, b2, b3, b4, b5]) &&& 255,
           ((hdlc_crc16 [b1, b2, b3, b4, b5]) >>> 8) &&& 255] ++ info)) &&& 255) |||
          ((((hdlc_crc16 ([b1, b2, b3, b4, b5] ++
            [(hdlc_crc16 [b1, b2, b3, b4, b5]) &&& 255,
             ((hdlc_crc16 [b1, b2, b3, b4, b5]) >>> 8) &&& 255] ++ info) >>> 8) &&& 255) ^^^
            (1 <<< k)) <<< 8) := by
      intro heq
      have h2 := hfrec.trans heq
      have h3 := lo_or_hi_inj_hi (and_255_lt _) h2
      exact he.2.1 (xor_eq_self_iff.mp h3.symm)
    exact parse_shape_badfcs _ _ _ _ _ _ _ _ _ _ hfmt hn1 hn2 hrec.symm hbad

/-- Any single-bit flip in a built no-info frame (outside the flag bytes):
`-EINVAL` for the four format-type bits of byte 1, `-EIO` otherwise. -/
theorem flip_noInfo_full (b1 b2 b3 b4 b5 : Nat) (i k : Nat)
    (hk : k < 8) (hfmt : b1 &&& 0xF0 = 0xA0) (hi1 : 1 <= i) (hi2 : i <= 7) :
    hdlc_parse_frame (flipBit ([HDLC_FLAG, b1, b2, b3, b4, b5] ++
      crcBytes (hdlc_crc16 [b1, b2, b3, b4, b5]) ++ [HDLC_FLAG]) i k) =
    (if i = 1 ∧ 4 <= k then .error (-einval) else .error (-eio)) := by
  have hsp : [HDLC_FLAG, b1, b2, b3, b4, b5] ++
      crcBytes (hdlc_crc16 [b1, b2, b3, b4, b5]) ++ [HDLC_FLAG] =
      HDLC_FLAG :: b1 :: b2 :: b3 :: b4 :: b5 ::
      ((hdlc_crc16 [b1, b2, b3, b4, b5]) &&& 255) ::
      (((hdlc_crc16 [b1, b2, b3, b4, b5]) >>> 8) &&& 255) ::
      (([] : List Nat) ++ [HDLC_FLAG]) := by
    simp [crcBytes]
  rw [hsp]
  exact flip_header_parse b1 b2 b3 b4 b5 [] i k hk hfmt hi1 hi2

/-- Any single-bit flip in a built with-info frame (outside the flag
bytes): `-EINVAL` for the four format-type bits of byte 1, `-EIO`
otherwise. -/
theorem flip_withInfo_full (b1 b2 b3 b4 b5 : Nat) (info : List Nat) (i k : Nat)
    (hk : k < 8) (hfmt : b1 &&& 0xF0 = 0xA0)
    (hn1 : 1 <= info.length) (hn2 : info.length <= 256)
    (hi1 : 1 <= i) (hi2 : i <= 9 + info.length) :
    hdlc_parse_frame (flipBit ([HDLC_FLAG, b1, b2, b3, b4, b5] ++
      crcBytes (hdlc_crc16 [b1, b2, b3, b4, b5]) ++ info ++
      crcBytes (hdlc_crc16 ([b1, b2, b3, b4, b5] ++
        crcBytes (hdlc_crc16 [b1, b2, b3, b4, b5]) ++ info)) ++ [HDLC_FLAG]) i k) =
    (if i = 1 ∧ 4 <= k then .error (-einval) else .error (-eio)) := by
  have hsp : [HDLC_FLAG, b1, b2, b3, b4, b5] ++
      crcBytes (hdlc_crc16 [b1, b2, b3, b4, b5]) ++ info ++
      crcBytes (hdlc_crc16 ([b1, b2, b3, b4, b5] ++
        crcBytes (hdlc_crc16 [b1, b2, b3, b4, b5]) ++ info)) ++ [HDLC_FLAG] =
      HDLC_FLAG :: b1 :: b2 :: b3 :: b4 :: b5 ::
      ((hdlc_crc16 [b1, b2, b3, b4, b5]) &&& 255) ::
      (((hdlc_crc16 [b1, b2, b3, b4, b5]) >>> 8) &&& 255) ::
      (info ++
        ((hdlc_crc16 ([b1, b2, b3, b4, b5] ++
          [(hdlc_crc16 [b1, b2, b3, b4, b5]) &&& 255,
           ((hdlc_crc16 [b1, b2, b3, b4, b5]) >>> 8) &&& 255] ++ info)) &&& 255) ::
        (((hdlc_crc16 ([b1, b2, b3, b4, b5] ++
          [(hdlc_crc16 [b1, b2, b3, b4, b5]) &&& 255,
           ((hdlc_crc16 [b1, b2, b3, b4, b5]) >>> 8) &&& 255] ++ info)) >>> 8) &&& 255) ::
        [HDLC_FLAG]) := by
    simp [crcBytes]
  rw [hsp]
  by_cases h7 : i <= 7
  · have hmid : (info ++
        ((hdlc_crc16 ([b1, b2, b3, b4, b5] ++
          [(hdlc_crc16 [b1, b2, b3, b4, b5]) &&& 255,
           ((hdlc_crc16 [b1, b2, b3, b4, b5]) >>> 8) &&& 255] ++ info)) &&& 255) ::
        (((hdlc_crc16 ([b1, b2, b3, b4, b5] ++
          [(hdlc_crc16 [b1, b2, b3, b4, b5]) &&& 255,
           ((hdlc_crc16 [b1, b2, b3, b4, b5]) >>> 8) &&& 255] ++ info)) >>> 8) &&& 255) ::
        [HDLC_FLAG]) =
        ((info ++
        [(hdlc_crc16 ([b1, b2, b3, b4, b5] ++
          [(hdlc_crc16 [b1, b2, b3, b4, b5]) &&& 255,
           ((hdlc_crc16 [b1, b2, b3, b4, b5]) >>> 8) &&& 255] ++ info)) &&& 255,
         ((hdlc_crc16 ([b1, b2, b3, b4, b5] ++
          [(hdlc_crc16 [b1, b2, b3, b4, b5]) &&& 255,
           ((hdlc_crc16 [b1, b2, b3, b4, b5]) >>> 8) &&& 255] ++ info)) >>> 8) &&& 255]) ++
          [HDLC_FLAG]) := by
      simp
    rw [hmid]
    exact flip_header_parse b1 b2 b3 b4 b5 _ i k hk hfmt hi1 h7
  · rw [if_neg (by omega)]
    by_cases hinf : i <= 7 + info.length
    · have hij : i = 8 + (i - 8) := by omega
      rw [hij]
      exact flip_info_parse b1 b2 b3 b4 b5 info (i - 8) k hk hfmt hn1 hn2 (by omega)
    · exact flip_fcs_parse b1 b2 b3 b4 b5 info i k hk hfmt hn1 hn2 (by omega)

theorem C2_flip_amended_iframe (bufSize client server send recv : Nat)
    (info : List Nat) (fr : List Nat)
    (hn1 : 1 <= info.length) (hn2 : info.length <= 256)
    (hbuf : 11 + info.length <= bufSize)
    (hfr : hdlc_build_iframe bufSize client server send recv info = some fr)
    (i k : Nat) (hi1 : 1 <= i) (hi2 : i <= fr.length - 2) (hk : k < 8) :
    hdlc_parse_frame (flipBit fr i k) =
      (if i = 1 ∧ 4 <= k then .error (-einval) else .error (-eio)) := by
  rw [hdlc_build_iframe_eq bufSize client server send recv info hn1 hn2 hbuf] at hfr
  injection hfr with hfr
  subst hfr
  rw [List.length_append, List.length_append, List.length_append,
    List.length_append] at hi2
  simp only [crcBytes, List.length_cons, List.length_nil] at hi2
  exact flip_withInfo_full _ _ _ _ _ info i k hk (format_hi_ok _) hn1 hn2 hi1
    (by omega)

theorem C2_flip_amended_snrm_some (bufSize client server : Nat) (p : HdlcParams)
    (fr : List Nat) (hbuf : 11 + (snrmInfo p).length <= bufSize)
    (hfr : hdlc_build_snrm bufSize client server (some p) = some fr)
    (i k : Nat) (hi1 : 1 <= i) (hi2 : i <= fr.length - 2) (hk : k < 8) :
    hdlc_parse_frame (flipBit fr i k) =
      (if i = 1 ∧ 4 <= k then .error (-einval) else .error (-eio)) := by
  have hl := snrmInfo_len p
  rw [hdlc_build_snrm_some_eq bufSize client server p hbuf] at hfr
  injection hfr with hfr
  subst hfr
  rw [List.length_append, List.length_append, List.length_append,
    List.length_append] at hi2
  simp only [crcBytes, List.length_cons, List.length_nil] at hi2
  exact flip_withInfo_full _ _ _ _ _ (snrmInfo p) i k hk (format_hi_ok _)
    (by omega) (by omega) hi1 (by omega)

theorem C2_flip_amended_snrm_none (bufSize client server : Nat) (fr : List Nat)
    (hbuf : 9 <= bufSize)
    (hfr : hdlc_build_snrm bufSize client server none = some fr)
    (i k : Nat) (hi1 : 1 <= i) (hi2 : i <= fr.length - 2) (hk : k < 8) :
    hdlc_parse_frame (flipBit fr i k) =
      (if i = 1 ∧ 4 <= k then .error (-einval) else .error (-eio)) := by
  rw [hdlc_build_snrm_none_eq bufSize client server hbuf] at hfr
  injection hfr with hfr
  subst hfr
  rw [List.length_append, List.length_append] at hi2
  simp only [crcBytes, List.length_cons, List.length_nil] at hi2
  exact flip_noInfo_full _ _ _ _ _ i k hk (by decide) hi1 (by omega)

theorem C2_flip_amended_disc (bufSize client server : Nat) (fr : List Nat)
    (hbuf : 9 <= bufSize)
    (hfr : hdlc_build_disc bufSize client server = some fr)
    (i k : Nat) (hi1 : 1 <= i) (hi2 : i <= fr.length - 2) (hk : k < 8) :
    hdlc_parse_frame (flipBit fr i k) =
      (if i = 1 ∧ 4 <= k then .error (-einval) else .error (-eio)) := by
  rw [hdlc_build_disc_eq bufSize client server hbuf] at hfr
  injection hfr with hfr
  subst hfr
  rw [List.length_append, List.length_append] at hi2
  simp only [crcBytes, List.length_cons, List.length_nil] at hi2
  exact flip_noInfo_full _ _ _ _ _ i k hk (by decide) hi1 (by omega)

/-- **C2 (amended)** — For every frame produced by `hdlc_build_snrm`,
`hdlc_build_disc`, or `hdlc_build_iframe`, flipping any single bit of any
byte other than the opening and closing flags causes `hdlc_parse_frame` to
return the ChecksumMismatch error (`-EIO`), **except** for the four
format-type bits (bits 4–7 of the byte at index 1), whose flips fail the
format-type check first and return `-EINVAL` instead. -/
theorem C2_flip_checksum_amended :
    (∀ bufSize client server send recv (info : List Nat) (fr : List Nat),
      1 <= info.length → info.length <= 256 → 11 + info.length <= bufSize →
      hdlc_build_iframe bufSize client server send recv info = some fr →
      ∀ i k, 1 <= i → i <= fr.length - 2 → k < 8 →
        hdlc_parse_frame (flipBit fr i k) =
          (if i = 1 ∧ 4 <= k then .error (-einval) else .error (-eio))) ∧
    (∀ bufSize client server (fr : List Nat), 9 <= bufSize →
      hdlc_build_snrm bufSize client server none = some fr →
      ∀ i k, 1 <= i → i <= fr.length - 2 → k < 8 →
        hdlc_parse_frame (flipBit fr i k) =
          (if i = 1 ∧ 4 <= k then .error (-einval) else .error (-eio))) ∧
    (∀ bufSize client server p (fr : List Nat),
      11 + (snrmInfo p).length <= bufSize →
      hdlc_build_snrm bufSize client server (some p) = some fr →
      ∀ i k, 1 <= i → i <= fr.length - 2 → k < 8 →
        hdlc_parse_frame (flipBit fr i k) =
          (if i = 1 ∧ 4 <= k then .error (-einval) else .error (-eio))) ∧
    (∀ bufSize client server (fr : List Nat), 9 <= bufSize →
      hdlc_build_disc bufSize client server = some fr →
      ∀ i k, 1 <= i → i <= fr.length - 2 → k < 8 →
        hdlc_parse_frame (flipBit fr i k) =
          (if i = 1 ∧ 4 <= k then .error (-einval) else .error (-eio))) :=
  ⟨fun bufSize client server send recv info fr h1 h2 hb hfr i k hi1 hi2 hk =>
      C2_flip_amended_iframe bufSize client server send recv info fr h1 h2 hb hfr i k hi1 hi2 hk,
    fun bufSize client server fr hb hfr i k hi1 hi2 hk =>
      C2_flip_amended_snrm_none bufSize client server fr hb hfr i k hi1 hi2 hk,
    fun bufSize client server p fr hb hfr i k hi1 hi2 hk =>
      C2_flip_amended_snrm_some bufSize client server p fr hb hfr i k hi1 hi2 hk,
    fun bufSize client server fr hb hfr i k hi1 hi2 hk =>
      C2_flip_amended_disc bufSize client server fr hb hfr i k hi1 hi2 hk⟩

/-- **C2 counterexample** — the claim as stated is false: on the DISC frame
built for client 3 / server 3, flipping bit 6 of byte 1 (a format-type bit)
makes `hdlc_parse_frame` return `-EINVAL` (InvalidArgument), not the claimed
`-EIO` (ChecksumMismatch). -/
theorem C2_flip_checksum_counterexample :
    hdlc_build_disc 300 3 3 = some [126, 160, 7, 3, 3, 83, 128, 215, 126] ∧
    hdlc_parse_frame (flipBit [126, 160, 7, 3, 3, 83, 128, 215, 126] 1 6) =
      .error (-einval) ∧
    (Except.error (-einval) : Except Int HdlcFrame) ≠ .error (-eio) := by
  refine ⟨by decide, by decide, by decide⟩

/-- Witness for the amended C2 at concrete inputs: an info-field bit flip
gives `-EIO`, a format-nibble bit flip gives `-EINVAL`. -/
theorem C2_flip_checksum_amended_witness :
    hdlc_parse_frame (flipBit [126, 160, 10, 3, 3, 82, 134, 77, 230, 244, 68, 126] 8 0) =
      .error (-eio) ∧
    hdlc_parse_frame (flipBit [126, 160, 7, 3, 3, 83, 128, 215, 126] 1 5) =
      .error (-einval) := by
  constructor
  · have := C2_flip_checksum_amended.1 300 3 3 1 2 [0xE6]
      [126, 160, 10, 3, 3, 82, 134, 77, 230, 244, 68, 126]
      (by decide) (by decide) (by decide) (by decide) 8 0 (by decide) (by decide)
      (by decide)
    simpa using this
  · have := C2_flip_checksum_amended.2.2.2 300 3 3
      [126, 160, 7, 3, 3, 83, 128, 215, 126] (by decide) (by decide)
      1 5 (by decide) (by decide) (by decide)
    simpa using this

/-! ## COSEM application layer (dlms_cosem.c) -/

def COSEM_TAG_AARQ : Nat := 0x60
def COSEM_TAG_AARE : Nat := 0x61
def COSEM_TAG_GET_REQUEST : Nat := 0xC0
def COSEM_TAG_GET_RESPONSE : Nat := 0xC4
def COSEM_TAG_RLRQ : Nat := 0x62
def GET_REQUEST_NORMAL : Nat := 0x01
def GET_RESPONSE_NORMAL : Nat := 0x01
def GET_RESPONSE_WITH_DATABLOCK : Nat := 0x02

def COSEM_TYPE_NULL_DATA : Nat := 0x00
def COSEM_TYPE_BOOLEAN : Nat := 0x03
def COSEM_TYPE_INT8 : Nat := 0x0F
def COSEM_TYPE_UINT8 : Nat := 0x11
def COSEM_TYPE_INT16 : Nat := 0x10
def COSEM_TYPE_UINT16 : Nat := 0x12
def COSEM_TYPE_INT32 : Nat := 0x05
def COSEM_TYPE_UINT32 : Nat := 0x06
def COSEM_TYPE_INT64 : Nat := 0x14
def COSEM_TYPE_UINT64 : Nat := 0x15
def COSEM_TYPE_FLOAT32 : Nat := 0x17
def COSEM_TYPE_FLOAT64 : Nat := 0x18
def COSEM_TYPE_OCTET_STRING : Nat := 0x09
def COSEM_TYPE_VISIBLE_STRING : Nat := 0x0A
def COSEM_TYPE_ENUM : Nat := 0x16
def COSEM_TYPE_STRUCTURE : Nat := 0x02
def COSEM_TYPE_ARRAY : Nat := 0x01

/-- OBIS code (`struct obis_code`, 6 bytes `A-B:C.D.E*F`). -/
structure ObisCode where
  a : Nat
  b : Nat
  c : Nat
  d : Nat
  e : Nat
  f : Nat
deriving Repr, DecidableEq

/-- COSEM attribute descriptor (`struct cosem_attr_desc`).
`class_id` is a `uint16_t`, `attribute_id` an `int8_t`. -/
structure CosemAttrDesc where
  class_id : Nat
  obis : ObisCode
  attribute_id : Int
deriving Repr, DecidableEq

/-- BER body of the application-context-name OID 2.16.756.5.8.1.1. -/
def app_context_ln : List Nat := [0x60, 0x85, 0x74, 0x05, 0x08, 0x01, 0x01]

/-- The constant xDLMS InitiateRequest (`initiate_request[]`). -/
def initiate_request : List Nat :=
  [0x01, 0x00, 0x00, 0x00, 0x06, 0x5F, 0x1F, 0x04, 0x00, 0x00, 0x18, 0x1D, 0x00, 0x80]

/-- `cosem_build_aarq` (dlms_cosem.c).  `password = none` models a NULL
password pointer; the ACSE-requirements / mechanism-name /
calling-authentication-value fields are emitted only for a non-null,
non-empty password.  The single-byte length fields mirror the C
`(uint8_t)` casts (`&&& 0xFF`). -/
def cosem_build_aarq (bufSize : Nat) (password : Option (List Nat)) :
    Option (List Nat) :=
  if bufSize < 64 then none
  else
    let auth :=
      match password with
      | some pw =>
        if pw.length > 0 then
          [0x8A, 0x02, 0x07, 0x80] ++
          [0x8B, 0x07, 0x60, 0x85, 0x74, 0x05, 0x08, 0x02, 0x01] ++
          [0xAC, (pw.length + 2) &&& 0xFF, 0x80, pw.length &&& 0xFF] ++ pw
        else []
      | none => []
    let body := [0xA1, 0x09, 0x06, 0x07] ++ app_context_ln ++ auth ++
      ([0xBE, (initiate_request.length + 2) &&& 0xFF, 0x04,
        initiate_request.length &&& 0xFF] ++ initiate_request)
    some (COSEM_TAG_AARQ :: (body.length &&& 0xFF) :: body)

/-- Result of `cosem_parse_aare`.  `accepted` maps to return 0, `errInval`
to `-EINVAL`, `errProto` to `-EPROTO`, `rejected r` to `-EACCES` (the
numeric reason `r` is reported in the log).  `oobRead i` marks the C code
reading `data[i]` with `i >= len`: an access past the declared length,
which the total embedding makes explicit (see C10). -/
inductive AareResult where
  | accepted
  | errInval
  | errProto
  | rejected (reason : Nat)
  | oobRead (idx : Nat)
deriving Repr, DecidableEq

def SIZE_T_MOD : Nat := 2 ^ 64

/-- The association-result scan of `cosem_parse_aare`:
`for (size_t i = 2; i < len - 4; i++)` looking for `A2 03 02 01` and then
reading the result byte.  `&&` short-circuit order is preserved; every
`data[...]` access is bounds-instrumented.  The loop is expressed with a
fuel argument (`bound - i` iterations remain); `aareScanGo` returns
`errProto` exactly when the loop index reaches the bound. -/
def aareScanGo (data : List Nat) (bound : Nat) : Nat → Nat → AareResult
  | 0, _ => .errProto
  | fuel + 1, i =>
    if i < bound then
      match data[i]? with
      | none => .oobRead i
      | some b0 =>
        if b0 = 0xA2 then
          match data[i+1]? with
          | none => .oobRead (i+1)
          | some b1 =>
            if b1 = 0x03 then
              match data[i+2]? with
              | none => .oobRead (i+2)
              | some b2 =>
                if b2 = 0x02 then
                  match data[i+3]? with
                  | none => .oobRead (i+3)
                  | some b3 =>
                    if b3 = 0x01 then
                      match data[i+4]? with
                      | none => .oobRead (i+4)
                      | some r => if r = 0 then .accepted else .rejected r
                    else aareScanGo data bound fuel (i+1)
                else aareScanGo data bound fuel (i+1)
            else aareScanGo data bound fuel (i+1)
        else aareScanGo data bound fuel (i+1)
    else .errProto

def aareScan (data : List Nat) (bound i : Nat) : AareResult :=
  aareScanGo data bound (bound - i) i

/-- `cosem_parse_aare` (dlms_cosem.c).  The scan's upper bound is the
C expression `len - 4` computed in `size_t`, i.e. modulo `2^64` — it
underflows for `len = 3`. -/
def cosem_parse_aare (data : List Nat) : AareResult :=
  if data.length < 3 then .errInval
  else if data.getD 0 0 ≠ COSEM_TAG_AARE then .errProto
  else aareScan data ((data.length + (SIZE_T_MOD - 4)) % SIZE_T_MOD) 2

/-- `cosem_build_get_request` (dlms_cosem.c).  The attribute-id byte is
the `int8_t` converted to a byte (two's complement, `% 256`). -/
def cosem_build_get_request (bufSize : Nat) (invoke_id : Nat)
    (attr : CosemAttrDesc) : Option (List Nat) :=
  if bufSize < 16 then none
  else some [COSEM_TAG_GET_REQUEST, GET_REQUEST_NORMAL, invoke_id,
    (attr.class_id >>> 8) &&& 0xFF, attr.class_id &&& 0xFF,
    attr.obis.a, attr.obis.b, attr.obis.c, attr.obis.d, attr.obis.e, attr.obis.f,
    (attr.attribute_id % 256).toNat, 0x00]

/-- The decoded value slot of `struct cosem_get_result` (a C union).
IEEE-754 reinterpretation of the float types is kept as the raw bit
pattern; numeric floating-point semantics are outside this embedding. -/
inductive CosemValue where
  | u64 (v : Nat)
  | i64 (v : Int)
  | f32bits (v : Nat)
  | f64bits (v : Nat)
  | raw (bytes : List Nat)
deriving Repr, DecidableEq

structure CosemGetResult where
  success : Bool
  data_type : Nat
  value : CosemValue
deriving Repr, DecidableEq

/-- Two's-complement reading of a `w`-bit pattern (the C casts to
`int8_t`/`int16_t`/`int32_t`/`int64_t`). -/
def toSigned (w v : Nat) : Int :=
  if v < 2 ^ (w - 1) then (v : Int) else (v : Int) - 2 ^ w

/-- `cosem_decode_data` (dlms_cosem.c): tag-dispatched typed-value
decoder.  Returns the filled result together with `bytes_consumed`
(the C function's non-negative return), or the negative errno. -/
def cosem_decode_data (data : List Nat) : Except Int (CosemGetResult × Nat) :=
  if data.length < 1 then .error (-einval)
  else
    let t := data.getD 0 0
    if t = COSEM_TYPE_NULL_DATA then
      .ok (⟨false, t, .u64 0⟩, 1)
    else if t = COSEM_TYPE_BOOLEAN then
      if data.length < 2 then .error (-enodata)
      else .ok (⟨false, t, .u64 (data.getD 1 0)⟩, 2)
    else if t = COSEM_TYPE_UINT8 ∨ t = COSEM_TYPE_ENUM then
      if data.length < 2 then .error (-enodata)
      else .ok (⟨false, t, .u64 (data.getD 1 0)⟩, 2)
    else if t = COSEM_TYPE_INT8 then
      if data.length < 2 then .error (-enodata)
      else .ok (⟨false, t, .i64 (toSigned 8 (data.getD 1 0 % 2 ^ 8))⟩, 2)
    else if t = COSEM_TYPE_UINT16 then
      if data.length < 3 then .error (-enodata)
      else .ok (⟨false, t, .u64 ((data.getD 1 0 <<< 8) ||| data.getD 2 0)⟩, 3)
    else if t = COSEM_TYPE_INT16 then
      if data.length < 3 then .error (-enodata)
      else .ok (⟨false, t,
        .i64 (toSigned 16 (((data.getD 1 0 <<< 8) ||| data.getD 2 0) % 2 ^ 16))⟩, 3)
    else if t = COSEM_TYPE_UINT32 then
      if data.length < 5 then .error (-enodata)
      else .ok (⟨false, t, .u64 (((data.getD 1 0 <<< 24) ||| (data.getD 2 0 <<< 16) |||
        (data.getD 3 0 <<< 8) ||| data.getD 4 0) % 2 ^ 32)⟩, 5)
    else if t = COSEM_TYPE_INT32 then
      if data.length < 5 then .error (-enodata)
      else .ok (⟨false, t, .i64 (toSigned 32 (((data.getD 1 0 <<< 24) |||
        (data.getD 2 0 <<< 16) ||| (data.getD 3 0 <<< 8) ||| data.getD 4 0) % 2 ^ 32))⟩, 5)
    else if t = COSEM_TYPE_UINT64 then
      if data.length < 9 then .error (-enodata)
      else .ok (⟨false, t, .u64 ((List.range 8).foldl
        (fun acc j => ((acc <<< 8) ||| data.getD (1 + j) 0) % 2 ^ 64) 0)⟩, 9)
    else if t = COSEM_TYPE_INT64 then
      if data.length < 9 then .error (-enodata)
      else .ok (⟨false, t, .i64 (toSigned 64 ((List.range 8).foldl
        (fun acc j => ((acc <<< 8) ||| data.getD (1 + j) 0) % 2 ^ 64) 0))⟩, 9)
    else if t = COSEM_TYPE_FLOAT32 then
      if data.length < 5 then .error (-enodata)
      else .ok (⟨false, t, .f32bits (((data.getD 1 0 <<< 24) ||| (data.getD 2 0 <<< 16) |||
        (data.getD 3 0 <<< 8) ||| data.getD 4 0) % 2 ^ 32)⟩, 5)
    else if t = COSEM_TYPE_FLOAT64 then
      if data.length < 9 then .error (-enodata)
      else .ok (⟨false, t, .f64bits ((List.range 8).foldl
        (fun acc j => ((acc <<< 8) ||| data.getD (1 + j) 0) % 2 ^ 64) 0)⟩, 9)
    else if t = COSEM_TYPE_OCTET_STRING ∨ t = COSEM_TYPE_VISIBLE_STRING then
      if data.length < 2 then .error (-enodata)
      else
        let slen := data.getD 1 0
        if data.length < 2 + slen then .error (-enodata)
        else
          let copy_len := min slen 128
          .ok (⟨false, t, .raw ((data.drop 2).take copy_len)⟩, 2 + slen)
    else if t = COSEM_TYPE_STRUCTURE then
      if data.length < 2 then .error (-enodata)
      else .ok (⟨false, t, .u64 (data.getD 1 0)⟩, 2)
    else if t = COSEM_TYPE_ARRAY then
      if data.length < 2 then .error (-enodata)
      else .ok (⟨false, t, .u64 (data.getD 1 0)⟩, 2)
    else .error (-enotsup)

/-- `cosem_parse_get_response` (dlms_cosem.c). -/
def cosem_parse_get_response (data : List Nat) : Except Int CosemGetResult :=
  if data.length < 4 then .error (-einval)
  else if data.getD 0 0 ≠ COSEM_TAG_GET_RESPONSE then .error (-eproto)
  else if data.getD 1 0 = GET_RESPONSE_NORMAL then
    if data.getD 3 0 = 0x00 then
      match cosem_decode_data (data.drop 4) with
      | .error e => .error e
      | .ok (r, _) => .ok { r with success := true }
    else if data.getD 3 0 = 0x01 then .error (-eacces)
    else .error (-eproto)
  else if data.getD 1 0 = GET_RESPONSE_WITH_DATABLOCK then .error (-enotsup)
  else .error (-eproto)

/-- `cosem_build_rlrq` (dlms_cosem.c). -/
def cosem_build_rlrq (bufSize : Nat) : Option (List Nat) :=
  if bufSize < 3 then none
  else some [COSEM_TAG_RLRQ, 0x00]

/-! ## GET.request layout (C3) and typed-value decoding (C4) -/

/-- **C3 (amended)** — for every invoke-id and attribute descriptor,
`cosem_build_get_request` (buffer of at least 16 bytes) produces the fixed
13-byte PDU `C0 01 <invoke> <class-id hi> <class-id lo> <6 OBIS bytes>
<attribute-id> 00` and returns that 13-byte length; the two class-id bytes
are the big-endian encoding of the 16-bit class id. -/
theorem C3_get_request_layout (bufSize invoke_id : Nat) (attr : CosemAttrDesc)
    (hbuf : 16 <= bufSize) :
    cosem_build_get_request bufSize invoke_id attr =
      some [COSEM_TAG_GET_REQUEST, GET_REQUEST_NORMAL, invoke_id,
        (attr.class_id >>> 8) &&& 0xFF, attr.class_id &&& 0xFF,
        attr.obis.a, attr.obis.b, attr.obis.c, attr.obis.d, attr.obis.e,
        attr.obis.f, (attr.attribute_id % 256).toNat, 0x00] ∧
    (∀ pdu, cosem_build_get_request bufSize invoke_id attr = some pdu →
      pdu.length = 13 ∧
      pdu.getD 3 0 * 256 + pdu.getD 4 0 = attr.class_id % 65536 ∧
      pdu.getD 12 0 = 0) := by
  have hbuild : cosem_build_get_request bufSize invoke_id attr =
      some [COSEM_TAG_GET_REQUEST, GET_REQUEST_NORMAL, invoke_id,
        (attr.class_id >>> 8) &&& 0xFF, attr.class_id &&& 0xFF,
        attr.obis.a, attr.obis.b, attr.obis.c, attr.obis.d, attr.obis.e,
        attr.obis.f, (attr.attribute_id % 256).toNat, 0x00] := by
    unfold cosem_build_get_request
    rw [if_neg (by omega)]
  refine ⟨hbuild, ?_⟩
  intro pdu hpdu
  rw [hbuild] at hpdu
  injection hpdu with hpdu
  subst hpdu
  refine ⟨by simp, ?_, by simp⟩
  simp only [List.getD_cons_succ, List.getD_cons_zero]
  rw [and_255_eq_mod, and_255_eq_mod, Nat.shiftRight_eq_div_pow]
  have := Nat.div_add_mod (attr.class_id % 65536) 256
  omega

/-- **C3 counterexample** — the PDU is 13 bytes long (and the function
returns 13), not 12 as the claim states: the listed fields
(tag, subtype, invoke-id, 2-byte class-id, 6-byte OBIS, attribute-id,
trailing zero) add up to 13 bytes. -/
theorem C3_get_request_counterexample :
    (cosem_build_get_request 16 0 ⟨3, ⟨1, 1, 32, 7, 0, 255⟩, 2⟩).map List.length =
      some 13 ∧ (13 : Nat) ≠ 12 := by
  exact ⟨by decide, by decide⟩

theorem shiftRight_or_distrib (x y n : Nat) :
    (x ||| y) >>> n = (x >>> n) ||| (y >>> n) := by
  apply Nat.eq_of_testBit_eq
  intro i
  simp [Nat.testBit_shiftRight, Nat.testBit_or]

theorem and_or_distrib_right (x y m : Nat) :
    (x ||| y) &&& m = (x &&& m) ||| (y &&& m) := by
  apply Nat.eq_of_testBit_eq
  intro i
  simp [Nat.testBit_and, Nat.testBit_or, Bool.and_or_distrib_right]

/-- OR of a left-shifted value with a small value is addition. -/
theorem or_shift_add (s hi lo : Nat) (hlo : lo < 2 ^ s) :
    (hi <<< s) ||| lo = 2 ^ s * hi + lo := by
  have hdiv : ((hi <<< s) ||| lo) >>> s = hi := by
    rw [shiftRight_or_distrib, Nat.shiftRight_eq_div_pow lo s, Nat.div_eq_of_lt hlo,
      Nat.shiftLeft_eq, Nat.shiftRight_eq_div_pow,
      Nat.mul_div_cancel _ (Nat.pos_pow_of_pos s (by norm_num))]
    simp
  have hmod : ((hi <<< s) ||| lo) &&& (2 ^ s - 1) = lo := by
    rw [and_or_distrib_right, Nat.and_pow_two_sub_one_eq_mod, Nat.and_pow_two_sub_one_eq_mod,
      Nat.shiftLeft_eq, Nat.mul_mod_left, Nat.mod_eq_of_lt hlo]
    simp
  have := Nat.div_add_mod ((hi <<< s) ||| lo) (2 ^ s)
  rw [← Nat.shiftRight_eq_div_pow, hdiv] at this
  rw [Nat.and_pow_two_sub_one_eq_mod] at hmod
  rw [hmod] at this
  omega

theorem byte_or_add {hi b : Nat} (hb : b < 256) :
    (hi <<< 8) ||| b = 256 * hi + b := or_shift_add 8 hi b hb

/-- OR is addition when the left operand is a multiple of `2^s` and the
right operand fits in `s` bits. -/
theorem or_eq_add_of_dvd {x y : Nat} (s : Nat) (hx : 2 ^ s ∣ x) (hy : y < 2 ^ s) :
    x ||| y = x + y := by
  obtain ⟨k, hk⟩ := hx
  subst hk
  rw [show 2 ^ s * k = k <<< s by rw [Nat.shiftLeft_eq]; ring,
    or_shift_add s k y hy, Nat.shiftLeft_eq]
  ring

/-- The C `((u32)b1<<24)|((u32)b2<<16)|((u32)b3<<8)|b4` expression as the
big-endian number, for byte inputs. -/
theorem be4_eq (b1 b2 b3 b4 : Nat) (h1 : b1 <= 255) (h2 : b2 <= 255)
    (h3 : b3 <= 255) (h4 : b4 <= 255) :
    ((b1 <<< 24) ||| (b2 <<< 16) ||| (b3 <<< 8) ||| b4) =
      ((256 * b1 + b2) * 256 + b3) * 256 + b4 := by
  rw [Nat.shiftLeft_eq, Nat.shiftLeft_eq, Nat.shiftLeft_eq]
  have hA : b1 * 2 ^ 24 ||| b2 * 2 ^ 16 = b1 * 2 ^ 24 + b2 * 2 ^ 16 :=
    or_eq_add_of_dvd 24 ⟨b1, by ring⟩ (by nlinarith)
  rw [hA]
  have hB : b1 * 2 ^ 24 + b2 * 2 ^ 16 ||| b3 * 2 ^ 8 =
      b1 * 2 ^ 24 + b2 * 2 ^ 16 + b3 * 2 ^ 8 :=
    or_eq_add_of_dvd 16 ⟨2 ^ 8 * b1 + b2, by ring⟩ (by nlinarith)
  rw [hB]
  have hC : b1 * 2 ^ 24 + b2 * 2 ^ 16 + b3 * 2 ^ 8 ||| b4 =
      b1 * 2 ^ 24 + b2 * 2 ^ 16 + b3 * 2 ^ 8 + b4 :=
    or_eq_add_of_dvd 8 ⟨2 ^ 16 * b1 + 2 ^ 8 * b2 + b3, by ring⟩ (by omega)
  rw [hC]
  ring

/-- One step of the 64-bit accumulation loop
(`v = (v << 8) | data[1+i]` in `uint64_t`), below the wrap point. -/
theorem acc64_step {acc b m : Nat} (hacc : acc < 2 ^ m) (hb : b <= 255)
    (hm : m <= 56) : ((acc <<< 8) ||| b) % 2 ^ 64 = 256 * acc + b := by
  rw [byte_or_add (by omega)]
  apply Nat.mod_eq_of_lt
  have : (2 : Nat) ^ m <= 2 ^ 56 := Nat.pow_le_pow_right (by norm_num) hm
  have h2 : (2 : Nat) ^ 56 * 256 = 2 ^ 64 := by norm_num
  calc 256 * acc + b < 256 * 2 ^ m := by omega
    _ <= 256 * 2 ^ 56 := by omega
    _ = 2 ^ 64 := by rw [Nat.mul_comm]; exact h2

theorem decode_null (rest : List Nat) :
    cosem_decode_data (COSEM_TYPE_NULL_DATA :: rest) =
      .ok (⟨false, COSEM_TYPE_NULL_DATA, .u64 0⟩, 1) := by
  unfold cosem_decode_data
  simp [COSEM_TYPE_NULL_DATA]

theorem decode_boolean (b : Nat) (rest : List Nat) :
    cosem_decode_data (COSEM_TYPE_BOOLEAN :: b :: rest) =
      .ok (⟨false, COSEM_TYPE_BOOLEAN, .u64 b⟩, 2) := by
  unfold cosem_decode_data
  simp only [List.getD_cons_zero, List.getD_cons_succ, List.length_cons,
    COSEM_TYPE_NULL_DATA, COSEM_TYPE_BOOLEAN]
  norm_num

theorem decode_uint8 (b : Nat) (rest : List Nat) :
    cosem_decode_data (COSEM_TYPE_UINT8 :: b :: rest) =
      .ok (⟨false, COSEM_TYPE_UINT8, .u64 b⟩, 2) := by
  unfold cosem_decode_data
  simp only [List.getD_cons_zero, List.getD_cons_succ, List.length_cons,
    COSEM_TYPE_NULL_DATA, COSEM_TYPE_BOOLEAN, COSEM_TYPE_UINT8, COSEM_TYPE_ENUM]
  norm_num

theorem decode_enum (b : Nat) (rest : List Nat) :
    cosem_decode_data (COSEM_TYPE_ENUM :: b :: rest) =
      .ok (⟨false, COSEM_TYPE_ENUM, .u64 b⟩, 2) := by
  unfold cosem_decode_data
  simp only [List.getD_cons_zero, List.getD_cons_succ, List.length_cons,
    COSEM_TYPE_NULL_DATA, COSEM_TYPE_BOOLEAN, COSEM_TYPE_UINT8, COSEM_TYPE_ENUM]
  norm_num

theorem decode_int8 (b : Nat) (rest : List Nat) (hb : b <= 255) :
    cosem_decode_data (COSEM_TYPE_INT8 :: b :: rest) =
      .ok (⟨false, COSEM_TYPE_INT8, .i64 (toSigned 8 b)⟩, 2) := by
  unfold cosem_decode_data
  simp only [List.getD_cons_zero, List.getD_cons_succ, List.length_cons,
    COSEM_TYPE_NULL_DATA, COSEM_TYPE_BOOLEAN, COSEM_TYPE_UINT8, COSEM_TYPE_ENUM,
    COSEM_TYPE_INT8]
  norm_num
  rw [Nat.mod_eq_of_lt (by omega), if_neg (by omega : ¬ (rest.length + 1 + 1 < 2))]

theorem decode_uint16 (b1 b2 : Nat) (rest : List Nat)
    (h1 : b1 <= 255) (h2 : b2 <= 255) :
    cosem_decode_data (COSEM_TYPE_UINT16 :: b1 :: b2 :: rest) =
      .ok (⟨false, COSEM_TYPE_UINT16, .u64 (256 * b1 + b2)⟩, 3) := by
  unfold cosem_decode_data
  simp only [List.getD_cons_zero, List.getD_cons_succ, List.length_cons,
    COSEM_TYPE_NULL_DATA, COSEM_TYPE_BOOLEAN, COSEM_TYPE_UINT8, COSEM_TYPE_ENUM,
    COSEM_TYPE_INT8, COSEM_TYPE_UINT16]
  norm_num
  rw [if_neg (by omega : ¬ (rest.length + 1 + 1 + 1 < 3))]
  rw [byte_or_add (by omega)]

theorem decode_int16 (b1 b2 : Nat) (rest : List Nat)
    (h1 : b1 <= 255) (h2 : b2 <= 255) :
    cosem_decode_data (COSEM_TYPE_INT16 :: b1 :: b2 :: rest) =
      .ok (⟨false, COSEM_TYPE_INT16, .i64 (toSigned 16 (256 * b1 + b2))⟩, 3) := by
  unfold cosem_decode_data
  simp only [List.getD_cons_zero, List.getD_cons_succ, List.length_cons,
    COSEM_TYPE_NULL_DATA, COSEM_TYPE_BOOLEAN, COSEM_TYPE_UINT8, COSEM_TYPE_ENUM,
    COSEM_TYPE_INT8, COSEM_TYPE_UINT16, COSEM_TYPE_INT16]
  norm_num
  rw [if_neg (by omega : ¬ (rest.length + 1 + 1 + 1 < 3))]
  rw [byte_or_add (by omega), Nat.mod_eq_of_lt (by omega)]

theorem decode_uint32 (b1 b2 b3 b4 : Nat) (rest : List Nat)
    (h1 : b1 <= 255) (h2 : b2 <= 255) (h3 : b3 <= 255) (h4 : b4 <= 255) :
    cosem_decode_data (COSEM_TYPE_UINT32 :: b1 :: b2 :: b3 :: b4 :: rest) =
      .ok (⟨false, COSEM_TYPE_UINT32,
        .u64 (((256 * b1 + b2) * 256 + b3) * 256 + b4)⟩, 5) := by
  unfold cosem_decode_data
  simp only [List.getD_cons_zero, List.getD_cons_succ, List.length_cons,
    COSEM_TYPE_NULL_DATA, COSEM_TYPE_BOOLEAN, COSEM_TYPE_UINT8, COSEM_TYPE_ENUM,
    COSEM_TYPE_INT8, COSEM_TYPE_UINT16, COSEM_TYPE_INT16, COSEM_TYPE_UINT32]
  norm_num
  rw [if_neg (by omega : ¬ (rest.length + 1 + 1 + 1 + 1 + 1 < 5))]
  rw [be4_eq b1 b2 b3 b4 h1 h2 h3 h4, Nat.mod_eq_of_lt (by omega)]

theorem decode_int32 (b1 b2 b3 b4 : Nat) (rest : List Nat)
    (h1 : b1 <= 255) (h2 : b2 <= 255) (h3 : b3 <= 255) (h4 : b4 <= 255) :
    cosem_decode_data (COSEM_TYPE_INT32 :: b1 :: b2 :: b3 :: b4 :: rest) =
      .ok (⟨false, COSEM_TYPE_INT32,
        .i64 (toSigned 32 (((256 * b1 + b2) * 256 + b3) * 256 + b4))⟩, 5) := by
  unfold cosem_decode_data
  simp only [List.getD_cons_zero, List.getD_cons_succ, List.length_cons,
    COSEM_TYPE_NULL_DATA, COSEM_TYPE_BOOLEAN, COSEM_TYPE_UINT8, COSEM_TYPE_ENUM,
    COSEM_TYPE_INT8, COSEM_TYPE_UINT16, COSEM_TYPE_INT16, COSEM_TYPE_UINT32,
    COSEM_TYPE_INT32]
  norm_num
  rw [if_neg (by omega : ¬ (rest.length + 1 + 1 + 1 + 1 + 1 < 5))]
  rw [be4_eq b1 b2 b3 b4 h1 h2 h3 h4, Nat.mod_eq_of_lt (by omega)]

/-- The eight-step `uint64` accumulation loop on byte inputs equals the
big-endian value. -/
theorem acc64_loop (b1 b2 b3 b4 b5 b6 b7 b8 : Nat) (rest : List Nat)
    (h1 : b1 <= 255) (h2 : b2 <= 255) (h3 : b3 <= 255) (h4 : b4 <= 255)
    (h5 : b5 <= 255) (h6 : b6 <= 255) (h7 : b7 <= 255) (h8 : b8 <= 255) :
    (List.range 8).foldl
      (fun acc j => ((acc <<< 8) |||
        (b1 :: b2 :: b3 :: b4 :: b5 :: b6 :: b7 :: b8 :: rest).getD j 0) % 2 ^ 64) 0 =
    ((((((b1 * 256 + b2) * 256 + b3) * 256 + b4) * 256 + b5) * 256 + b6) * 256
      + b7) * 256 + b8 := by
  rw [show List.range 8 = [0, 1, 2, 3, 4, 5, 6, 7] from by decide]
  simp only [List.foldl_cons, List.foldl_nil, List.getD_cons_zero, List.getD_cons_succ]
  rw [acc64_step (m := 0) (by norm_num) h1 (by norm_num)]
  rw [acc64_step (m := 8) (by norm_num; omega) h2 (by norm_num)]
  rw [acc64_step (m := 16) (by norm_num; omega) h3 (by norm_num)]
  rw [acc64_step (m := 24) (by norm_num; omega) h4 (by norm_num)]
  rw [acc64_step (m := 32) (by norm_num; omega) h5 (by norm_num)]
  rw [acc64_step (m := 40) (by norm_num; omega) h6 (by norm_num)]
  rw [acc64_step (m := 48) (by norm_num; omega) h7 (by norm_num)]
  rw [acc64_step (m := 56) (by norm_num; omega) h8 (by norm_num)]
  ring

theorem getD_shift_one (t : Nat) (l : List Nat) :
    ∀ j, (t :: l).getD (1 + j) 0 = l.getD j 0 := by
  intro j
  rw [show 1 + j = j + 1 by omega, List.getD_cons_succ]

theorem decode_uint64 (b1 b2 b3 b4 b5 b6 b7 b8 : Nat) (rest : List Nat)
    (h1 : b1 <= 255) (h2 : b2 <= 255) (h3 : b3 <= 255) (h4 : b4 <= 255)
    (h5 : b5 <= 255) (h6 : b6 <= 255) (h7 : b7 <= 255) (h8 : b8 <= 255) :
    cosem_decode_data (COSEM_TYPE_UINT64 :: b1 :: b2 :: b3 :: b4 :: b5 :: b6 ::
      b7 :: b8 :: rest) =
      .ok (⟨false, COSEM_TYPE_UINT64,
        .u64 (((((((b1 * 256 + b2) * 256 + b3) * 256 + b4) * 256 + b5) * 256 + b6)
          * 256 + b7) * 256 + b8)⟩, 9) := by
  unfold cosem_decode_data
  simp only [List.getD_cons_zero, List.length_cons,
    COSEM_TYPE_NULL_DATA, COSEM_TYPE_BOOLEAN, COSEM_TYPE_UINT8, COSEM_TYPE_ENUM,
    COSEM_TYPE_INT8, COSEM_TYPE_UINT16, COSEM_TYPE_INT16, COSEM_TYPE_UINT32,
    COSEM_TYPE_INT32, COSEM_TYPE_UINT64]
  rw [if_neg (by omega), if_neg (by decide : ¬ ((0x15 : Nat) = 0x00)),
    if_neg (by decide : ¬ ((0x15 : Nat) = 0x03)),
    if_neg (by decide : ¬ ((0x15 : Nat) = 0x11 ∨ (0x15 : Nat) = 0x16)),
    if_neg (by decide : ¬ ((0x15 : Nat) = 0x0F)),
    if_neg (by decide : ¬ ((0x15 : Nat) = 0x12)),
    if_neg (by decide : ¬ ((0x15 : Nat) = 0x10)),
    if_neg (by decide : ¬ ((0x15 : Nat) = 0x06)),
    if_neg (by decide : ¬ ((0x15 : Nat) = 0x05)),
    if_pos (trivial : True),
    if_neg (by omega)]
  simp only [getD_shift_one]
  rw [acc64_loop b1 b2 b3 b4 b5 b6 b7 b8 rest h1 h2 h3 h4 h5 h6 h7 h8]

theorem decode_int64 (b1 b2 b3 b4 b5 b6 b7 b8 : Nat) (rest : List Nat)
    (h1 : b1 <= 255) (h2 : b2 <= 255) (h3 : b3 <= 255) (h4 : b4 <= 255)
    (h5 : b5 <= 255) (h6 : b6 <= 255) (h7 : b7 <= 255) (h8 : b8 <= 255) :
    cosem_decode_data (COSEM_TYPE_INT64 :: b1 :: b2 :: b3 :: b4 :: b5 :: b6 ::
      b7 :: b8 :: rest) =
      .ok (⟨false, COSEM_TYPE_INT64,
        .i64 (toSigned 64 (((((((b1 * 256 + b2) * 256 + b3) * 256 + b4) * 256 + b5)
          * 256 + b6) * 256 + b7) * 256 + b8))⟩, 9) := by
  unfold cosem_decode_data
  simp only [List.getD_cons_zero, List.length_cons,
    COSEM_TYPE_NULL_DATA, COSEM_TYPE_BOOLEAN, COSEM_TYPE_UINT8, COSEM_TYPE_ENUM,
    COSEM_TYPE_INT8, COSEM_TYPE_UINT16, COSEM_TYPE_INT16, COSEM_TYPE_UINT32,
    COSEM_TYPE_INT32, COSEM_TYPE_UINT64, COSEM_TYPE_INT64]
  rw [if_neg (by omega), if_neg (by decide : ¬ ((0x14 : Nat) = 0x00)),
    if_neg (by decide : ¬ ((0x14 : Nat) = 0x03)),
    if_neg (by decide : ¬ ((0x14 : Nat) = 0x11 ∨ (0x14 : Nat) = 0x16)),
    if_neg (by decide : ¬ ((0x14 : Nat) = 0x0F)),
    if_neg (by decide : ¬ ((0x14 : Nat) = 0x12)),
    if_neg (by decide : ¬ ((0x14 : Nat) = 0x10)),
    if_neg (by decide : ¬ ((0x14 : Nat) = 0x06)),
    if_neg (by decide : ¬ ((0x14 : Nat) = 0x05)),
    if_neg (by decide : ¬ ((0x14 : Nat) = 0x15)),
    if_pos (trivial : True),
    if_neg (by omega)]
  simp only [getD_shift_one]
  rw [acc64_loop b1 b2 b3 b4 b5 b6 b7 b8 rest h1 h2 h3 h4 h5 h6 h7 h8]

/-- InsufficientData for the 1-byte-payload tags on a tag-only input. -/
theorem decode_short2 (t : Nat)
    (ht : t = COSEM_TYPE_BOOLEAN ∨ t = COSEM_TYPE_UINT8 ∨ t = COSEM_TYPE_ENUM ∨
      t = COSEM_TYPE_INT8) :
    cosem_decode_data [t] = .error (-enodata) := by
  rcases ht with h | h | h | h <;> subst h <;> unfold cosem_decode_data <;>
    simp [COSEM_TYPE_NULL_DATA, COSEM_TYPE_BOOLEAN, COSEM_TYPE_UINT8,
      COSEM_TYPE_ENUM, COSEM_TYPE_INT8]

/-- InsufficientData for the 2-byte-payload tags. -/
theorem decode_short3 (t : Nat) (rest : List Nat)
    (ht : t = COSEM_TYPE_UINT16 ∨ t = COSEM_TYPE_INT16)
    (hlen : rest.length < 2) :
    cosem_decode_data (t :: rest) = .error (-enodata) := by
  rcases ht with h | h <;> subst h <;> unfold cosem_decode_data <;>
    simp only [List.getD_cons_zero, List.length_cons,
      COSEM_TYPE_NULL_DATA, COSEM_TYPE_BOOLEAN, COSEM_TYPE_UINT8, COSEM_TYPE_ENUM,
      COSEM_TYPE_INT8, COSEM_TYPE_UINT16, COSEM_TYPE_INT16] <;>
    rw [if_neg (by omega)] <;> norm_num <;> (intro h; exact absurd h (by omega))

/-- InsufficientData for the 4-byte-payload integer tags. -/
theorem decode_short5 (t : Nat) (rest : List Nat)
    (ht : t = COSEM_TYPE_UINT32 ∨ t = COSEM_TYPE_INT32)
    (hlen : rest.length < 4) :
    cosem_decode_data (t :: rest) = .error (-enodata) := by
  rcases ht with h | h <;> subst h <;> unfold cosem_decode_data <;>
    simp only [List.getD_cons_zero, List.length_cons,
      COSEM_TYPE_NULL_DATA, COSEM_TYPE_BOOLEAN, COSEM_TYPE_UINT8, COSEM_TYPE_ENUM,
      COSEM_TYPE_INT8, COSEM_TYPE_UINT16, COSEM_TYPE_INT16, COSEM_TYPE_UINT32,
      COSEM_TYPE_INT32] <;>
    rw [if_neg (by omega)] <;> norm_num <;> (intro h; exact absurd h (by omega))

/-- InsufficientData for the 8-byte-payload integer tags. -/
theorem decode_short9 (t : Nat) (rest : List Nat)
    (ht : t = COSEM_TYPE_UINT64 ∨ t = COSEM_TYPE_INT64)
    (hlen : rest.length < 8) :
    cosem_decode_data (t :: rest) = .error (-enodata) := by
  rcases ht with h | h <;> subst h <;> unfold cosem_decode_data <;>
    simp only [List.getD_cons_zero, List.length_cons,
      COSEM_TYPE_NULL_DATA, COSEM_TYPE_BOOLEAN, COSEM_TYPE_UINT8, COSEM_TYPE_ENUM,
      COSEM_TYPE_INT8, COSEM_TYPE_UINT16, COSEM_TYPE_INT16, COSEM_TYPE_UINT32,
      COSEM_TYPE_INT32, COSEM_TYPE_UINT64, COSEM_TYPE_INT64] <;>
    rw [if_neg (by omega)] <;> norm_num <;> (intro h; exact absurd h (by omega))

/-- The decoder's full supported tag set (every case of the C switch). -/
def cosemSupportedTags : List Nat :=
  [COSEM_TYPE_NULL_DATA, COSEM_TYPE_BOOLEAN, COSEM_TYPE_UINT8, COSEM_TYPE_ENUM,
   COSEM_TYPE_INT8, COSEM_TYPE_UINT16, COSEM_TYPE_INT16, COSEM_TYPE_UINT32,
   COSEM_TYPE_INT32, COSEM_TYPE_UINT64, COSEM_TYPE_INT64, COSEM_TYPE_FLOAT32,
   COSEM_TYPE_FLOAT64, COSEM_TYPE_OCTET_STRING, COSEM_TYPE_VISIBLE_STRING,
   COSEM_TYPE_STRUCTURE, COSEM_TYPE_ARRAY]

/-- UnsupportedType for any tag outside the switch. -/
theorem decode_unsupported (t : Nat) (rest : List Nat)
    (ht : t ∉ cosemSupportedTags) :
    cosem_decode_data (t :: rest) = .error (-enotsup) := by
  simp only [cosemSupportedTags, List.mem_cons, List.not_mem_nil, or_false,
    not_or, COSEM_TYPE_NULL_DATA, COSEM_TYPE_BOOLEAN, COSEM_TYPE_UINT8,
    COSEM_TYPE_ENUM, COSEM_TYPE_INT8, COSEM_TYPE_UINT16, COSEM_TYPE_INT16,
    COSEM_TYPE_UINT32, COSEM_TYPE_INT32, COSEM_TYPE_UINT64, COSEM_TYPE_INT64,
    COSEM_TYPE_FLOAT32, COSEM_TYPE_FLOAT64, COSEM_TYPE_OCTET_STRING,
    COSEM_TYPE_VISIBLE_STRING, COSEM_TYPE_STRUCTURE, COSEM_TYPE_ARRAY] at ht
  obtain ⟨n1, n2, n3, n4, n5, n6, n7, n8, n9, n10, n11, n12, n13, n14, n15, n16, n17⟩ := ht
  unfold cosem_decode_data
  simp [COSEM_TYPE_NULL_DATA, COSEM_TYPE_BOOLEAN, COSEM_TYPE_UINT8,
    COSEM_TYPE_ENUM, COSEM_TYPE_INT8, COSEM_TYPE_UINT16, COSEM_TYPE_INT16,
    COSEM_TYPE_UINT32, COSEM_TYPE_INT32, COSEM_TYPE_UINT64, COSEM_TYPE_INT64,
    COSEM_TYPE_FLOAT32, COSEM_TYPE_FLOAT64, COSEM_TYPE_OCTET_STRING,
    COSEM_TYPE_VISIBLE_STRING, COSEM_TYPE_STRUCTURE, COSEM_TYPE_ARRAY,
    n1, n2, n3, n4, n5, n6, n7, n8, n9, n10, n11, n12, n13, n14, n15, n16, n17]

/-- **C4** — `cosem_decode_data` on each supported fixed-size tag followed
by sufficient bytes yields exactly the big-endian value of those bytes
(sign-extended via two's complement for the signed types) and consumes
1 + payload-size bytes; the `UINT32` example `06 00 00 01 2C` decodes to
300 consuming 5 bytes; a fixed-size tag with fewer bytes than its payload
size yields `-ENODATA` (InsufficientData); any tag outside the decoder's
supported set yields `-ENOTSUP` (UnsupportedType). -/
theorem C4_decode_data :
    (∀ rest : List Nat, cosem_decode_data (COSEM_TYPE_NULL_DATA :: rest) =
      .ok (⟨false, COSEM_TYPE_NULL_DATA, .u64 0⟩, 1)) ∧
    (∀ b (rest : List Nat), cosem_decode_data (COSEM_TYPE_BOOLEAN :: b :: rest) =
      .ok (⟨false, COSEM_TYPE_BOOLEAN, .u64 b⟩, 2)) ∧
    (∀ b (rest : List Nat), cosem_decode_data (COSEM_TYPE_UINT8 :: b :: rest) =
      .ok (⟨false, COSEM_TYPE_UINT8, .u64 b⟩, 2)) ∧
    (∀ b (rest : List Nat), cosem_decode_data (COSEM_TYPE_ENUM :: b :: rest) =
      .ok (⟨false, COSEM_TYPE_ENUM, .u64 b⟩, 2)) ∧
    (∀ b (rest : List Nat), b <= 255 →
      cosem_decode_data (COSEM_TYPE_INT8 :: b :: rest) =
        .ok (⟨false, COSEM_TYPE_INT8, .i64 (toSigned 8 b)⟩, 2)) ∧
    (∀ b1 b2 (rest : List Nat), b1 <= 255 → b2 <= 255 →
      cosem_decode_data (COSEM_TYPE_UINT16 :: b1 :: b2 :: rest) =
        .ok (⟨false, COSEM_TYPE_UINT16, .u64 (256 * b1 + b2)⟩, 3)) ∧
    (∀ b1 b2 (rest : List Nat), b1 <= 255 → b2 <= 255 →
      cosem_decode_data (COSEM_TYPE_INT16 :: b1 :: b2 :: rest) =
        .ok (⟨false, COSEM_TYPE_INT16, .i64 (toSigned 16 (256 * b1 + b2))⟩, 3)) ∧
    (∀ b1 b2 b3 b4 (rest : List Nat), b1 <= 255 → b2 <= 255 → b3 <= 255 →
      b4 <= 255 →
      cosem_decode_data (COSEM_TYPE_UINT32 :: b1 :: b2 :: b3 :: b4 :: rest) =
        .ok (⟨false, COSEM_TYPE_UINT32,
          .u64 (((256 * b1 + b2) * 256 + b3) * 256 + b4)⟩, 5)) ∧
    (∀ b1 b2 b3 b4 (rest : List Nat), b1 <= 255 → b2 <= 255 → b3 <= 255 →
      b4 <= 255 →
      cosem_decode_data (COSEM_TYPE_INT32 :: b1 :: b2 :: b3 :: b4 :: rest) =
        .ok (⟨false, COSEM_TYPE_INT32,
          .i64 (toSigned 32 (((256 * b1 + b2) * 256 + b3) * 256 + b4))⟩, 5)) ∧
    (∀ b1 b2 b3 b4 b5 b6 b7 b8 (rest : List Nat), b1 <= 255 → b2 <= 255 →
      b3 <= 255 → b4 <= 255 → b5 <= 255 → b6 <= 255 → b7 <= 255 → b8 <= 255 →
      cosem_decode_data (COSEM_TYPE_UINT64 :: b1 :: b2 :: b3 :: b4 :: b5 :: b6 ::
        b7 :: b8 :: rest) =
        .ok (⟨false, COSEM_TYPE_UINT64,
          .u64 (((((((b1 * 256 + b2) * 256 + b3) * 256 + b4) * 256 + b5) * 256 +
            b6) * 256 + b7) * 256 + b8)⟩, 9)) ∧
    (∀ b1 b2 b3 b4 b5 b6 b7 b8 (rest : List Nat), b1 <= 255 → b2 <= 255 →
      b3 <= 255 → b4 <= 255 → b5 <= 255 → b6 <= 255 → b7 <= 255 → b8 <= 255 →
      cosem_decode_data (COSEM_TYPE_INT64 :: b1 :: b2 :: b3 :: b4 :: b5 :: b6 ::
        b7 :: b8 :: rest) =
        .ok (⟨false, COSEM_TYPE_INT64,
          .i64 (toSigned 64 (((((((b1 * 256 + b2) * 256 + b3) * 256 + b4) * 256 +
            b5) * 256 + b6) * 256 + b7) * 256 + b8))⟩, 9)) ∧
    (cosem_decode_data [0x06, 0x00, 0x00, 0x01, 0x2C] =
      .ok (⟨false, COSEM_TYPE_UINT32, .u64 300⟩, 5)) ∧
    (∀ t, (t = COSEM_TYPE_BOOLEAN ∨ t = COSEM_TYPE_UINT8 ∨ t = COSEM_TYPE_ENUM ∨
        t = COSEM_TYPE_INT8) →
      cosem_decode_data [t] = .error (-enodata)) ∧
    (∀ t (rest : List Nat), (t = COSEM_TYPE_UINT16 ∨ t = COSEM_TYPE_INT16) →
      rest.length < 2 → cosem_decode_data (t :: rest) = .error (-enodata)) ∧
    (∀ t (rest : List Nat), (t = COSEM_TYPE_UINT32 ∨ t = COSEM_TYPE_INT32) →
      rest.length < 4 → cosem_decode_data (t :: rest) = .error (-enodata)) ∧
    (∀ t (rest : List Nat), (t = COSEM_TYPE_UINT64 ∨ t = COSEM_TYPE_INT64) →
      rest.length < 8 → cosem_decode_data (t :: rest) = .error (-enodata)) ∧
    (∀ t (rest : List Nat), t ∉ cosemSupportedTags →
      cosem_decode_data (t :: rest) = .error (-enotsup)) :=
  ⟨decode_null, decode_boolean, decode_uint8, decode_enum,
    fun b rest hb => decode_int8 b rest hb,
    fun b1 b2 rest h1 h2 => decode_uint16 b1 b2 rest h1 h2,
    fun b1 b2 rest h1 h2 => decode_int16 b1 b2 rest h1 h2,
    fun b1 b2 b3 b4 rest h1 h2 h3 h4 => decode_uint32 b1 b2 b3 b4 rest h1 h2 h3 h4,
    fun b1 b2 b3 b4 rest h1 h2 h3 h4 => decode_int32 b1 b2 b3 b4 rest h1 h2 h3 h4,
    fun b1 b2 b3 b4 b5 b6 b7 b8 rest h1 h2 h3 h4 h5 h6 h7 h8 =>
      decode_uint64 b1 b2 b3 b4 b5 b6 b7 b8 rest h1 h2 h3 h4 h5 h6 h7 h8,
    fun b1 b2 b3 b4 b5 b6 b7 b8 rest h1 h2 h3 h4 h5 h6 h7 h8 =>
      decode_int64 b1 b2 b3 b4 b5 b6 b7 b8 rest h1 h2 h3 h4 h5 h6 h7 h8,
    by decide,
    fun t ht => decode_short2 t ht,
    fun t rest ht hlen => decode_short3 t rest ht hlen,
    fun t rest ht hlen => decode_short5 t rest ht hlen,
    fun t rest ht hlen => decode_short9 t rest ht hlen,
    fun t rest ht => decode_unsupported t rest ht⟩

/-- Witness for C4 at concrete inputs. -/
theorem C4_decode_data_witness :
    cosem_decode_data [COSEM_TYPE_UINT16, 0x01, 0x2C] =
      .ok (⟨false, COSEM_TYPE_UINT16, .u64 300⟩, 3) ∧
    cosem_decode_data [COSEM_TYPE_INT8, 0xFF] =
      .ok (⟨false, COSEM_TYPE_INT8, .i64 (-1)⟩, 2) ∧
    cosem_decode_data [COSEM_TYPE_UINT32, 0x00] = .error (-enodata) ∧
    cosem_decode_data [0x42, 0x00] = .error (-enotsup) :=
  ⟨by have := C4_decode_data.2.2.2.2.2.1 0x01 0x2C [] (by decide) (by decide)
      simpa using this,
   by have := C4_decode_data.2.2.2.2.1 0xFF [] (by decide)
      have he : toSigned 8 0xFF = -1 := by decide
      rw [he] at this
      simpa using this,
   by have := C4_decode_data.2.2.2.2.2.2.2.2.2.2.2.2.2.2.1 0x06 [0x00]
        (Or.inl rfl) (by decide)
      simpa using this,
   by have := C4_decode_data.2.2.2.2.2.2.2.2.2.2.2.2.2.2.2.2 0x42 [0x00]
        (by decide)
      simpa using this⟩

/-! ## AARQ construction (claim C7) -/

/-- Witness for C3 at a concrete request. -/
theorem C3_get_request_layout_witness :
    cosem_build_get_request 32 0x81 ⟨3, ⟨1, 1, 32, 7, 0, 255⟩, 2⟩ =
      some [0xC0, 0x01, 0x81, 0x00, 0x03, 1, 1, 32, 7, 0, 255, 2, 0x00] ∧
    (∀ pdu, cosem_build_get_request 32 0x81 ⟨3, ⟨1, 1, 32, 7, 0, 255⟩, 2⟩ =
        some pdu →
      pdu.length = 13 ∧ pdu.getD 3 0 * 256 + pdu.getD 4 0 = 3 ∧
        pdu.getD 12 0 = 0) := by
  have h := C3_get_request_layout 32 0x81 ⟨3, ⟨1, 1, 32, 7, 0, 255⟩, 2⟩ (by decide)
  exact ⟨h.1.trans (by decide), fun pdu hp => by simpa using h.2 pdu hp⟩

/-- The AARQ built without authentication (31 bytes). -/
def aarqNoAuth : List Nat :=
  [0x60, 0x1D, 0xA1, 0x09, 0x06, 0x07, 0x60, 0x85, 0x74, 0x05, 0x08, 0x01, 0x01,
   0xBE, 0x10, 0x04, 0x0E, 0x01, 0x00, 0x00, 0x00, 0x06, 0x5F, 0x1F, 0x04, 0x00,
   0x00, 0x18, 0x1D, 0x00, 0x80]

set_option maxRecDepth 100000 in
/-- **C7 (amended)** — `cosem_build_aarq` with a null or zero-length
password emits the fixed 31-byte AARQ with no ACSE-requirements (`8A`),
mechanism-name (`8B`) or calling-authentication-value (`AC`) fields; with a
password of length 1..209 it emits all three, the authentication value
carrying exactly the password bytes preceded by a length byte equal to the
password length; in each case the outer length byte equals the number of
bytes that follow it. -/
theorem C7_aarq_password :
    (∀ bufSize, 64 <= bufSize →
      cosem_build_aarq bufSize none = some aarqNoAuth ∧
      cosem_build_aarq bufSize (some []) = some aarqNoAuth ∧
      (0x8A ∉ aarqNoAuth ∧ 0x8B ∉ aarqNoAuth ∧ 0xAC ∉ aarqNoAuth) ∧
      aarqNoAuth.getD 1 0 = aarqNoAuth.length - 2) ∧
    (∀ bufSize (pw : List Nat), 64 <= bufSize → 1 <= pw.length →
      pw.length <= 209 →
      cosem_build_aarq bufSize (some pw) =
        some ([0x60, 46 + pw.length, 0xA1, 0x09, 0x06, 0x07] ++ app_context_ln ++
          [0x8A, 0x02, 0x07, 0x80] ++
          [0x8B, 0x07, 0x60, 0x85, 0x74, 0x05, 0x08, 0x02, 0x01] ++
          [0xAC, pw.length + 2, 0x80, pw.length] ++ pw ++
          [0xBE, 0x10, 0x04, 0x0E] ++ initiate_request) ∧
      (∀ pdu, cosem_build_aarq bufSize (some pw) = some pdu →
        pdu.getD 1 0 = pdu.length - 2 ∧ pdu.length = 48 + pw.length)) := by
  constructor
  · intro bufSize hbuf
    refine ⟨?_, ?_, by decide, by decide⟩
    · unfold cosem_build_aarq
      rw [if_neg (by omega)]
      decide
    · unfold cosem_build_aarq
      rw [if_neg (by omega)]
      decide
  · intro bufSize pw hbuf h1 h209
    have hbuild : cosem_build_aarq bufSize (some pw) =
        some ([0x60, 46 + pw.length, 0xA1, 0x09, 0x06, 0x07] ++ app_context_ln ++
          [0x8A, 0x02, 0x07, 0x80] ++
          [0x8B, 0x07, 0x60, 0x85, 0x74, 0x05, 0x08, 0x02, 0x01] ++
          [0xAC, pw.length + 2, 0x80, pw.length] ++ pw ++
          [0xBE, 0x10, 0x04, 0x0E] ++ initiate_request) := by
      unfold cosem_build_aarq
      rw [if_neg (by omega)]
      dsimp only
      rw [if_pos (by omega : pw.length > 0)]
      rw [and_255_eq_self (show pw.length + 2 < 256 by omega),
        and_255_eq_self (show pw.length < 256 by omega)]
      rw [show (initiate_request.length + 2) &&& 255 = 16 from by decide,
        show initiate_request.length &&& 255 = 14 from by decide]
      refine congrArg some ?_
      simp [COSEM_TAG_AARQ, app_context_ln, initiate_request, List.cons.injEq,
        List.append_assoc]
      rw [and_255_eq_self (by omega)]
      omega
    refine ⟨hbuild, fun pdu hp => ?_⟩
    rw [hbuild] at hp
    injection hp with hp
    subst hp
    constructor
    · simp only [List.getD_cons_succ, List.getD_cons_zero, List.cons_append,
        List.length_append, List.length_cons, List.length_nil]
      simp [app_context_ln, initiate_request]
      omega
    · simp [app_context_ln, initiate_request]
      omega

set_option maxRecDepth 100000 in
/-- **C7 counterexample** — with a 210-byte password the outer AARQ length
byte is truncated mod 256 to 0, while 256 bytes follow it. -/
theorem C7_aarq_password_counterexample :
    (cosem_build_aarq 300 (some (List.replicate 210 0x41))).map
      (fun p => (p.getD 1 0, p.length)) = some (0, 258) ∧
    (0 : Nat) ≠ 258 - 2 := by
  exact ⟨by decide, by decide⟩

set_option maxRecDepth 100000 in
/-- Witness for the amended C7 at a concrete password. -/
theorem C7_aarq_password_witness :
    cosem_build_aarq 128 none = some aarqNoAuth ∧
    cosem_build_aarq 128 (some [0x32, 0x32]) =
      some ([0x60, 48, 0xA1, 0x09, 0x06, 0x07] ++ app_context_ln ++
        [0x8A, 0x02, 0x07, 0x80] ++
        [0x8B, 0x07, 0x60, 0x85, 0x74, 0x05, 0x08, 0x02, 0x01] ++
        [0xAC, 4, 0x80, 2] ++ [0x32, 0x32] ++
        [0xBE, 0x10, 0x04, 0x0E] ++ initiate_request) := by
  constructor
  · exact (C7_aarq_password.1 128 (by decide)).1
  · have := (C7_aarq_password.2 128 [0x32, 0x32] (by decide) (by decide)
      (by decide)).1
    simpa using this

/-! ## AARE parsing (claims C8, C10) -/

/-- The 4-byte association-result pattern `A2 03 02 01` present at offset
`i` of the AARE body. -/
def aareMatchAt (data : List Nat) (i : Nat) : Prop :=
  data.getD i 0 = 0xA2 ∧ data.getD (i+1) 0 = 0x03 ∧
  data.getD (i+2) 0 = 0x02 ∧ data.getD (i+3) 0 = 0x01

instance (data : List Nat) (i : Nat) : Decidable (aareMatchAt data i) := by
  unfold aareMatchAt; infer_instance

lemma getElem?_eq_some_getD {l : List Nat} {i : Nat} (h : i < l.length) :
    l[i]? = some (l.getD i 0) := by
  rw [List.getD_eq_getElem?_getD, List.getElem?_eq_getElem h]
  rfl

/-- One step of the scan when all five reads are in range. -/
lemma aareScanGo_step (data : List Nat) (bound fuel i : Nat)
    (hlt : i < bound) (hrange : i + 5 ≤ data.length) :
    aareScanGo data bound (fuel + 1) i =
      if aareMatchAt data i then
        (if data.getD (i+4) 0 = 0 then .accepted
         else .rejected (data.getD (i+4) 0))
      else aareScanGo data bound fuel (i+1) := by
  rw [aareScanGo, if_pos hlt,
    getElem?_eq_some_getD (show i < data.length by omega),
    getElem?_eq_some_getD (show i + 1 < data.length by omega),
    getElem?_eq_some_getD (show i + 2 < data.length by omega),
    getElem?_eq_some_getD (show i + 3 < data.length by omega),
    getElem?_eq_some_getD (show i + 4 < data.length by omega)]
  by_cases h0 : data.getD i 0 = 0xA2
  · by_cases h1 : data.getD (i+1) 0 = 0x03
    · by_cases h2 : data.getD (i+2) 0 = 0x02
      · by_cases h3 : data.getD (i+3) 0 = 0x01
        · simp only [h0, h1, h2, h3, if_pos rfl, if_true,
            if_pos (show aareMatchAt data i from ⟨h0, h1, h2, h3⟩)]
        · simp only [h0, h1, h2, if_pos rfl, if_true, if_neg h3,
            if_neg (show ¬ aareMatchAt data i from fun hm => h3 hm.2.2.2)]
      · simp only [h0, h1, if_pos rfl, if_true, if_neg h2,
          if_neg (show ¬ aareMatchAt data i from fun hm => h2 hm.2.2.1)]
    · simp only [h0, if_pos rfl, if_true, if_neg h1,
        if_neg (show ¬ aareMatchAt data i from fun hm => h1 hm.2.1)]
  · simp only [if_neg h0,
      if_neg (show ¬ aareMatchAt data i from fun hm => h0 hm.1)]

/-- If no offset in `[i, bound)` matches, the scan ends in `errProto`. -/
lemma aareScanGo_not_found (data : List Nat) (bound : Nat)
    (hb : bound + 4 ≤ data.length) :
    ∀ fuel i, (∀ j, i ≤ j → j < bound → ¬ aareMatchAt data j) →
      aareScanGo data bound fuel i = .errProto := by
  intro fuel
  induction fuel with
  | zero => intro i _; rw [aareScanGo]
  | succ fuel ih =>
    intro i hnone
    by_cases hlt : i < bound
    · rw [aareScanGo_step data bound fuel i hlt (by omega),
        if_neg (hnone i le_rfl hlt)]
      exact ih (i+1) fun j hj hj2 => hnone j (by omega) hj2
    · rw [aareScanGo, if_neg hlt]

/-- If `i0` is the first matching offset at or after `i`, the scan from `i`
returns the result determined by the byte after the pattern. -/
lemma aareScanGo_found (data : List Nat) (bound i0 : Nat)
    (hb : bound + 4 ≤ data.length) (hi0 : i0 < bound)
    (hm : aareMatchAt data i0) :
    ∀ fuel i, i ≤ i0 → i0 < i + fuel →
      (∀ j, i ≤ j → j < i0 → ¬ aareMatchAt data j) →
      aareScanGo data bound fuel i =
        (if data.getD (i0+4) 0 = 0 then .accepted
         else .rejected (data.getD (i0+4) 0)) := by
  intro fuel
  induction fuel with
  | zero => intro i hle hfuel _; exact absurd hfuel (by omega)
  | succ fuel ih =>
    intro i hle hfuel hfirst
    rcases eq_or_lt_of_le hle with heq | hlt
    · subst heq
      rw [aareScanGo_step data bound fuel i hi0 (by omega), if_pos hm]
    · rw [aareScanGo_step data bound fuel i (by omega) (by omega),
        if_neg (hfirst i le_rfl hlt)]
      exact ih (i+1) (by omega) (by omega)
        (fun j hj hj2 => hfirst j (by omega) hj2)

/-- C8 (amended).  For an input of length at least 4 (and below `2^64`, so
that the `size_t` bound `len - 4` does not underflow) whose first byte is
the AARE tag `0x61`: if `i0` is the first offset in `[2, len - 4)` carrying
the pattern `A2 03 02 01`, the parser returns `accepted` exactly when the
following byte is 0 and `rejected reason` (the nonzero byte) otherwise; if
no offset in that range matches, it returns `errProto`.  A wrong leading
tag on an input of length at least 3 gives `errProto`, and an input shorter
than 3 bytes gives `errInval` — not `errProto` as the claim states. -/
theorem C8_parse_aare_amended :
    (∀ data : List Nat, 4 ≤ data.length → data.length < 2 ^ 64 →
      data.getD 0 0 = COSEM_TAG_AARE →
      (∀ i0, 2 ≤ i0 → i0 < data.length - 4 → aareMatchAt data i0 →
        (∀ j, 2 ≤ j → j < i0 → ¬ aareMatchAt data j) →
        cosem_parse_aare data =
          (if data.getD (i0+4) 0 = 0 then .accepted
           else .rejected (data.getD (i0+4) 0))) ∧
      ((∀ j, 2 ≤ j → j < data.length - 4 → ¬ aareMatchAt data j) →
        cosem_parse_aare data = .errProto)) ∧
    (∀ data : List Nat, 3 ≤ data.length →
      data.getD 0 0 ≠ COSEM_TAG_AARE → cosem_parse_aare data = .errProto) ∧
    (∀ data : List Nat, data.length < 3 →
      cosem_parse_aare data = .errInval) := by
  refine ⟨fun data hlen hsz htag => ?_,
    fun data hlen htag => ?_, fun data hlen => ?_⟩
  · have hbound : (data.length + (SIZE_T_MOD - 4)) % SIZE_T_MOD
        = data.length - 4 := by
      unfold SIZE_T_MOD
      rw [show data.length + (2 ^ 64 - 4) = (data.length - 4) + 2 ^ 64 by
        omega]
      rw [Nat.add_mod_right, Nat.mod_eq_of_lt (by omega)]
    have hparse : cosem_parse_aare data
        = aareScan data (data.length - 4) 2 := by
      unfold cosem_parse_aare
      rw [if_neg (show ¬ data.length < 3 by omega),
        if_neg (show ¬ data.getD 0 0 ≠ COSEM_TAG_AARE from fun h => h htag),
        hbound]
    constructor
    · intro i0 hi0lo hi0hi hm hfirst
      rw [hparse]
      exact aareScanGo_found data (data.length - 4) i0 (by omega) hi0hi hm
        (data.length - 4 - 2) 2 hi0lo (by omega)
        (fun j hj hj2 => hfirst j hj hj2)
    · intro hnone
      rw [hparse]
      exact aareScanGo_not_found data (data.length - 4) (by omega)
        (data.length - 4 - 2) 2 (fun j hj hj2 => hnone j hj hj2)
  · unfold cosem_parse_aare
    rw [if_neg (show ¬ data.length < 3 by omega), if_pos htag]
  · unfold cosem_parse_aare
    rw [if_pos hlen]

/-- C8 counterexample.  `[0x61]` begins with the AARE tag and contains no
association-result element; the claim says wrong tag or absent element
yields a ProtocolError, but the code returns `-EINVAL` for any input
shorter than 3 bytes. -/
theorem C8_parse_aare_counterexample :
    cosem_parse_aare [0x61] = .errInval ∧
    AareResult.errInval ≠ AareResult.errProto := by
  exact ⟨by decide, by decide⟩

/-- Witness for the amended C8 theorem: a 7-byte AARE whose result byte is
0 is accepted, the same with result byte 1 is rejected with reason 1, and
a wrong-tag input gives `errProto`. -/
theorem C8_parse_aare_amended_witness :
    cosem_parse_aare [0x61, 0x05, 0xA2, 0x03, 0x02, 0x01, 0x00]
      = .accepted ∧
    cosem_parse_aare [0x61, 0x05, 0xA2, 0x03, 0x02, 0x01, 0x01]
      = .rejected 1 ∧
    cosem_parse_aare [0x62, 0x05, 0xA2, 0x03, 0x02, 0x01, 0x00]
      = .errProto ∧
    cosem_parse_aare [0x61, 0x00] = .errInval := by
  refine ⟨?_, ?_, ?_, ?_⟩
  · have h := ((C8_parse_aare_amended.1
      [0x61, 0x05, 0xA2, 0x03, 0x02, 0x01, 0x00]
      (by decide) (by decide) (by decide)).1 2 (by decide) (by decide)
      (by decide) (fun j hj hj2 => absurd (Nat.lt_of_le_of_lt hj hj2)
        (lt_irrefl 2)))
    simpa using h
  · have h := ((C8_parse_aare_amended.1
      [0x61, 0x05, 0xA2, 0x03, 0x02, 0x01, 0x01]
      (by decide) (by decide) (by decide)).1 2 (by decide) (by decide)
      (by decide) (fun j hj hj2 => absurd (Nat.lt_of_le_of_lt hj hj2)
        (lt_irrefl 2)))
    simpa using h
  · exact C8_parse_aare_amended.2.1 [0x62, 0x05, 0xA2, 0x03, 0x02, 0x01, 0x00]
      (by decide) (by decide)
  · exact C8_parse_aare_amended.2.2 [0x61, 0x00] (by decide)

/-- C10 (code bug).  On the 3-byte input `61 00 00` — a well-formed call
with `len = 3` — the scan's upper bound `len - 4` underflows in `size_t`,
so the loop runs and reads `data[3]`, an index not below the declared
length 3: the total embedding takes the out-of-range branch. -/
theorem C10_parse_aare_oob :
    cosem_parse_aare [0x61, 0x00, 0x00] = .oobRead 3 ∧
    ¬ (3 < ([0x61, 0x00, 0x00] : List Nat).length) := by
  exact ⟨by decide, by decide⟩

/-! ## Session orchestrator (dlms_meter.c) — claims C5, C6, C9

The meter module's static state is gathered in `MeterMod`; the RS-485
link and the peer meter are abstracted by a `MeterEnv` oracle whose
`transact` field gives, for each successive `transact()` call (numbered
by a counter threaded through the model), either the negative errno the
C `transact` returns or the parsed response frame it fills in.  The
RS-485 UART driver itself (`rs485_uart.c`) is not part of `src/`, so the
whole send/receive/find/parse pipeline of `transact` sits behind this
oracle at its C signature.  C `double` values are modelled as rationals;
the IEEE-754 meaning of float bit patterns is abstracted by the oracle
maps `f32val`/`f64val`.  The GET requests issued (`trace`), the entries
that succeed (`succeeded`) and the entries denied with `-EACCES`
(`denied`) are returned as explicit observations of the run. -/

/-- `enum meter_state`. -/
inductive MeterState where
  | disconnected
  | hdlcConnected
  | associated
  | error
deriving Repr, DecidableEq

/-- The C enum's numeric value (used for the `state >= …` comparisons). -/
def meterStateNat : MeterState → Nat
  | .disconnected => 0
  | .hdlcConnected => 1
  | .associated => 2
  | .error => 3

/-- `struct meter_config`.  `password` is the 16-byte `char` array. -/
structure MeterConfig where
  client_sap : Nat
  server_logical : Nat
  server_physical : Nat
  password : List Nat
  max_info_len : Nat
  response_timeout_ms : Int
  inter_frame_delay_ms : Int

/-- `set_defaults()`: the `strncpy` of `"22222222"` leaves the 8 password
bytes followed by 8 NUL bytes. -/
def default_config : MeterConfig :=
  { client_sap := 1, server_logical := 0, server_physical := 1,
    password := List.replicate 8 0x32 ++ List.replicate 8 0,
    max_info_len := 128, response_timeout_ms := 5000,
    inter_frame_delay_ms := 30 }

/-- `strlen(cfg.password)`-prefix of the password array. -/
def pwBytes (cfg : MeterConfig) : List Nat :=
  cfg.password.takeWhile (fun b => b != 0)

/-- The module's static variables in dlms_meter.c.  The three arrays
indexed by the OBIS table are modelled as functions from the index. -/
structure MeterMod where
  state : MeterState
  cfg : MeterConfig
  hdlc_send_seq : Nat
  hdlc_recv_seq : Nat
  cosem_invoke_id : Nat
  hdlc_client_addr : Nat
  hdlc_server_addr : Nat
  scaler_cache : Nat → ℚ
  scaler_cached : Nat → Bool
  obis_skip : Nat → Bool

/-- Pointwise array update (`arr[i] = v`). -/
def updF {α : Type} (f : Nat → α) (i : Nat) (v : α) : Nat → α :=
  fun j => if j = i then v else f j

/-- Outcome of one `transact()` call: the negative errno it returns, or
the `struct hdlc_frame` it parsed into `resp`. -/
inductive TransactResult where
  | err (e : Int)
  | ok (resp : HdlcFrame)

/-- Environment oracle: `transact n tx` is the result of the `n`-th
`transact()` call of the run (with `tx` the frame sent), `uptime` the
`k_uptime_get()` samples, `f32val`/`f64val` the numeric reading of IEEE
float bit patterns, and `rs485_init_ret` the `rs485_init()` return. -/
structure MeterEnv where
  transact : Nat → List Nat → TransactResult
  uptime : Nat → Int
  f32val : Nat → ℚ
  f64val : Nat → ℚ
  rs485_init_ret : Int

/-- One OBIS mapping-table row (`struct obis_mapping`); `slot` is the
index of the target `double` field inside `struct meter_readings`
(`offset / sizeof(double)`). -/
structure ObisMapping where
  obis : ObisCode
  class_id : Nat
  slot : Nat

/-- `obis_table[]`: the 27 rows in source order, with the readings-field
slot each `offsetof` designates. -/
def obis_table : List ObisMapping :=
  [⟨⟨1,1,32,7,0,255⟩, 3, 0⟩,   -- Voltage_R        → voltage_r
   ⟨⟨1,1,31,7,0,255⟩, 3, 3⟩,   -- Current_R        → current_r
   ⟨⟨1,1,21,7,0,255⟩, 3, 6⟩,   -- ActivePower_R    → active_power_r
   ⟨⟨1,1,23,7,0,255⟩, 3, 9⟩,   -- ReactivePower_R  → reactive_power_r
   ⟨⟨1,1,29,7,0,255⟩, 3, 12⟩,  -- ApparentPower_R  → apparent_power_r
   ⟨⟨1,1,33,7,0,255⟩, 3, 15⟩,  -- PowerFactor_R    → power_factor_r
   ⟨⟨1,1,52,7,0,255⟩, 3, 1⟩,   -- Voltage_S        → voltage_s
   ⟨⟨1,1,51,7,0,255⟩, 3, 4⟩,   -- Current_S        → current_s
   ⟨⟨1,1,41,7,0,255⟩, 3, 7⟩,   -- ActivePower_S    → active_power_s
   ⟨⟨1,1,43,7,0,255⟩, 3, 10⟩,  -- ReactivePower_S  → reactive_power_s
   ⟨⟨1,1,49,7,0,255⟩, 3, 13⟩,  -- ApparentPower_S  → apparent_power_s
   ⟨⟨1,1,53,7,0,255⟩, 3, 16⟩,  -- PowerFactor_S    → power_factor_s
   ⟨⟨1,1,72,7,0,255⟩, 3, 2⟩,   -- Voltage_T        → voltage_t
   ⟨⟨1,1,71,7,0,255⟩, 3, 5⟩,   -- Current_T        → current_t
   ⟨⟨1,1,61,7,0,255⟩, 3, 8⟩,   -- ActivePower_T    → active_power_t
   ⟨⟨1,1,63,7,0,255⟩, 3, 11⟩,  -- ReactivePower_T  → reactive_power_t
   ⟨⟨1,1,69,7,0,255⟩, 3, 14⟩,  -- ApparentPower_T  → apparent_power_t
   ⟨⟨1,1,73,7,0,255⟩, 3, 17⟩,  -- PowerFactor_T    → power_factor_t
   ⟨⟨1,1,1,7,0,255⟩, 3, 18⟩,   -- TotalActivePower → total_active_power
   ⟨⟨1,1,3,7,0,255⟩, 3, 19⟩,   -- TotalReactivePower
   ⟨⟨1,1,9,7,0,255⟩, 3, 20⟩,   -- TotalApparentPower
   ⟨⟨1,1,13,7,0,255⟩, 3, 21⟩,  -- TotalPowerFactor
   ⟨⟨1,1,1,8,0,255⟩, 3, 22⟩,   -- ActiveEnergy
   ⟨⟨1,1,3,8,0,255⟩, 3, 23⟩,   -- ReactiveEnergy
   ⟨⟨1,1,9,8,0,255⟩, 3, 24⟩,   -- ApparentEnergy
   ⟨⟨1,1,14,7,0,255⟩, 3, 25⟩,  -- Frequency
   ⟨⟨1,1,91,7,0,255⟩, 3, 26⟩]  -- NeutralCurrent

def OBIS_TABLE_SIZE : Nat := obis_table.length

def obisEntry (i : Nat) : ObisMapping :=
  obis_table.getD i ⟨⟨0,0,0,0,0,0⟩, 0, 0⟩

/-- `struct meter_readings`: the 27 `double` fields as a slot-indexed
map, plus the metadata fields. -/
structure MeterReadings where
  values : Nat → ℚ
  valid : Bool
  read_count : Nat
  error_count : Nat
  timestamp_ms : Int

/-- `memset(readings, 0, …)` followed by the timestamp store. -/
def zeroReadings (ts : Int) : MeterReadings :=
  { values := fun _ => 0, valid := false, read_count := 0,
    error_count := 0, timestamp_ms := ts }

/-- `build_cosem_iframe`: prepend the LLC header `E6 E6 00`, build the
I-frame, and bump `hdlc_send_seq` (mod 8) on success.  The unreachable
builder failure is reported as `-EINVAL` (the C code would forward the
builder's negative errno). -/
def build_cosem_iframe (mod : MeterMod) (pdu : List Nat) :
    MeterMod × Except Int (List Nat) :=
  if 3 + pdu.length > HDLC_MAX_INFO_LEN then (mod, .error (-enomem))
  else
    match hdlc_build_iframe HDLC_MAX_FRAME_LEN mod.hdlc_client_addr
        mod.hdlc_server_addr mod.hdlc_send_seq mod.hdlc_recv_seq
        ([0xE6, 0xE6, 0x00] ++ pdu) with
    | some tx =>
      ({ mod with hdlc_send_seq := (mod.hdlc_send_seq + 1) &&& 0x07 }, .ok tx)
    | none => (mod, .error (-einval))

/-- `strip_iframe_llc`: update `hdlc_recv_seq` from the server's send
sequence (I-frames only) and strip a leading `E6 E6/E7 00` LLC header. -/
def strip_iframe_llc (mod : MeterMod) (resp : HdlcFrame) :
    MeterMod × HdlcFrame :=
  let mod' :=
    if resp.control &&& 0x01 = 0 then
      { mod with hdlc_recv_seq := (((resp.control >>> 1) &&& 0x07) + 1) &&& 0x07 }
    else mod
  let resp' :=
    if 3 ≤ resp.info.length ∧ resp.info.getD 0 0 = 0xE6 ∧
        (resp.info.getD 1 0 = 0xE6 ∨ resp.info.getD 1 0 = 0xE7) then
      { resp with info := resp.info.drop 3 }
    else resp
  (mod', resp')

/-- `meter_init`: set defaults, init RS-485 (failing early with its
errno), clear the scaler cache and the skip bitmap, reset the state.
The sequence counters are NOT touched (see C9). -/
def meter_init (mod : MeterMod) (env : MeterEnv) : MeterMod × Int :=
  let mod1 := { mod with cfg := default_config }
  if env.rs485_init_ret < 0 then (mod1, env.rs485_init_ret)
  else
    ({ mod1 with scaler_cached := fun _ => false,
                 obis_skip := fun _ => false,
                 state := .disconnected }, 0)

/-- `meter_set_config` (`NULL` resets to defaults). -/
def meter_set_config (mod : MeterMod) (c : Option MeterConfig) : MeterMod :=
  { mod with cfg := c.getD default_config }

/-- `meter_disconnect`: early-return 0 when already disconnected
(touching nothing); otherwise optionally RLRQ (state ≥ ASSOCIATED),
then DISC, ignoring all transaction errors, and reset state and the
sequence counters.  The result is `(module', next counter, return)`. -/
def meter_disconnect (mod : MeterMod) (env : MeterEnv) (n : Nat) :
    MeterMod × Nat × Int :=
  if mod.state = .disconnected then (mod, n, 0)
  else
    let step1 :=
      if 2 ≤ meterStateNat mod.state then
        match cosem_build_rlrq 8 with
        | none => (mod, n)
        | some rlrq =>
          match build_cosem_iframe mod rlrq with
          | (mod1, .ok _) => (mod1, n + 1)
          | (mod1, .error _) => (mod1, n)
      else (mod, n)
    let n2 :=
      match hdlc_build_disc HDLC_MAX_FRAME_LEN step1.1.hdlc_client_addr
          step1.1.hdlc_server_addr with
      | some _ => step1.2 + 1
      | none => step1.2
    ({ step1.1 with state := .disconnected,
                    hdlc_send_seq := 0, hdlc_recv_seq := 0 }, n2, 0)

/-- The body of `meter_connect` after the optional leading disconnect:
compute the HDLC addresses, send SNRM (expect UA), then the AARQ
I-frame and parse the AARE.  `none` marks the run hitting the
out-of-bounds AARE scan of C10, whose C behaviour is undefined. -/
def meter_connect_core (mod0 : MeterMod) (env : MeterEnv) (n0 : Nat) :
    Option (MeterMod × Nat × Int) :=
  let client := ((mod0.cfg.client_sap <<< 1) ||| 1) &&& 0xFF
  let combined := ((mod0.cfg.server_logical <<< 7) |||
                   mod0.cfg.server_physical) &&& 0xFFFF
  let server := if combined < 0x80 then ((combined <<< 1) ||| 1) &&& 0xFF
                else ((mod0.cfg.server_logical <<< 1) ||| 1) &&& 0xFF
  let mod1 := { mod0 with hdlc_client_addr := client,
                          hdlc_server_addr := server, hdlc_send_seq := 0,
                          hdlc_recv_seq := 0, cosem_invoke_id := 0 }
  match hdlc_build_snrm HDLC_MAX_FRAME_LEN client server none with
  | none => some (mod1, n0, -enomem)
  | some tx =>
    match env.transact n0 tx with
    | .err e => some ({ mod1 with state := .error }, n0 + 1, e)
    | .ok resp =>
      if resp.control ≠ HDLC_CTRL_UA then
        some ({ mod1 with state := .error }, n0 + 1, -eproto)
      else
        let mod2 := { mod1 with state := .hdlcConnected }
        match cosem_build_aarq 128 (some (pwBytes mod2.cfg)) with
        | none => some (mod2, n0 + 1, -einval)
        | some aarq =>
          match build_cosem_iframe mod2 aarq with
          | (mod3, .error e) => some (mod3, n0 + 1, e)
          | (mod3, .ok tx2) =>
            match env.transact (n0 + 1) tx2 with
            | .err e => some ({ mod3 with state := .error }, n0 + 2, e)
            | .ok resp2 =>
              let sr := strip_iframe_llc mod3 resp2
              match cosem_parse_aare sr.2.info with
              | .accepted => some ({ sr.1 with state := .associated }, n0 + 2, 0)
              | .errInval => some ({ sr.1 with state := .error }, n0 + 2, -einval)
              | .errProto => some ({ sr.1 with state := .error }, n0 + 2, -eproto)
              | .rejected _ => some ({ sr.1 with state := .error }, n0 + 2, -eacces)
              | .oobRead _ => none

/-- `meter_connect`: disconnect first if already connected, then run the
connection sequence. -/
def meter_connect (mod : MeterMod) (env : MeterEnv) (n : Nat) :
    Option (MeterMod × Nat × Int) :=
  if 1 ≤ meterStateNat mod.state then
    let d := meter_disconnect mod env n
    meter_connect_core d.1 env d.2.1
  else meter_connect_core mod env n

/-- `read_obis_value` result: updated module state, next transaction
counter, the C return value, and the `cosem_get_result` when filled. -/
structure ReadObisOut where
  mod : MeterMod
  n : Nat
  ret : Int
  result : Option CosemGetResult

/-- `read_obis_value`: GET.request for attribute 2 of the entry, post-
incrementing `cosem_invoke_id` (a `uint8_t`), wrapped in an LLC I-frame. -/
def read_obis_value (mod : MeterMod) (env : MeterEnv) (n : Nat)
    (entry : ObisMapping) : ReadObisOut :=
  let attr : CosemAttrDesc := ⟨entry.class_id, entry.obis, 2⟩
  let iid := mod.cosem_invoke_id
  let modi := { mod with cosem_invoke_id := (mod.cosem_invoke_id + 1) % 256 }
  match cosem_build_get_request 32 iid attr with
  | none => ⟨modi, n, -einval, none⟩
  | some pdu =>
    match build_cosem_iframe modi pdu with
    | (mod1, .error e) => ⟨mod1, n, e, none⟩
    | (mod1, .ok tx) =>
      match env.transact n tx with
      | .err e => ⟨mod1, n + 1, e, none⟩
      | .ok resp =>
        let sr := strip_iframe_llc mod1 resp
        match cosem_parse_get_response sr.2.info with
        | .error e => ⟨sr.1, n + 1, e, none⟩
        | .ok res => ⟨sr.1, n + 1, 0, some res⟩

/-- `value_to_double`: read the union member selected by `data_type`
(projections of an inactive member, unreachable for decoder-produced
results, give 0), then apply the cached scaler. -/
def cosemValU64 : CosemValue → Nat
  | .u64 v => v
  | _ => 0

def cosemValI64 : CosemValue → Int
  | .i64 v => v
  | _ => 0

def cosemValF (env : MeterEnv) : CosemValue → ℚ
  | .f32bits b => env.f32val b
  | .f64bits b => env.f64val b
  | _ => 0

def value_to_double (env : MeterEnv) (mod : MeterMod) (table_idx : Nat)
    (result : CosemGetResult) : ℚ :=
  let t := result.data_type
  let raw : ℚ :=
    if t = COSEM_TYPE_UINT8 ∨ t = COSEM_TYPE_UINT16 ∨ t = COSEM_TYPE_UINT32 ∨
        t = COSEM_TYPE_UINT64 ∨ t = COSEM_TYPE_ENUM then
      (cosemValU64 result.value : ℚ)
    else if t = COSEM_TYPE_INT8 ∨ t = COSEM_TYPE_INT16 ∨
        t = COSEM_TYPE_INT32 ∨ t = COSEM_TYPE_INT64 then
      (cosemValI64 result.value : ℚ)
    else if t = COSEM_TYPE_FLOAT32 ∨ t = COSEM_TYPE_FLOAT64 then
      cosemValF env result.value
    else 0
  if table_idx < OBIS_TABLE_SIZE ∧ mod.scaler_cached table_idx = true then
    raw * mod.scaler_cache table_idx
  else raw

/-- `scaler_cache[idx] = 1.0; scaler_cached[idx] = true` (fallback). -/
def scalerFallback (mod : MeterMod) (idx : Nat) : MeterMod :=
  { mod with scaler_cache := updF mod.scaler_cache idx 1,
             scaler_cached := updF mod.scaler_cached idx true }

/-- `read_scaler_unit`: GET.request for attribute 3, then parse the
`{int8 scaler, enum unit}` structure from the raw response bytes and
cache `10^scaler`; any parse shape mismatch caches 1.0 and returns 0. -/
def read_scaler_unit (mod : MeterMod) (env : MeterEnv) (n : Nat)
    (idx : Nat) : MeterMod × Nat × Int :=
  let entry := obisEntry idx
  let attr : CosemAttrDesc := ⟨entry.class_id, entry.obis, 3⟩
  let iid := mod.cosem_invoke_id
  let modi := { mod with cosem_invoke_id := (mod.cosem_invoke_id + 1) % 256 }
  match cosem_build_get_request 32 iid attr with
  | none => (modi, n, -einval)
  | some pdu =>
    match build_cosem_iframe modi pdu with
    | (mod1, .error e) => (mod1, n, e)
    | (mod1, .ok tx) =>
      match env.transact n tx with
      | .err e => (mod1, n + 1, e)
      | .ok resp =>
        let sr := strip_iframe_llc mod1 resp
        let mod2 := sr.1
        let info := sr.2.info
        if 6 < info.length ∧ info.getD 0 0 = COSEM_TAG_GET_RESPONSE then
          let d := info.drop 4
          let dlen := info.length - 4
          if 6 ≤ dlen ∧ d.getD 0 0 = COSEM_TYPE_STRUCTURE ∧
              d.getD 1 0 = 0x02 then
            if d.getD 2 0 = COSEM_TYPE_INT8 ∧ 6 ≤ dlen then
              let scaler := toSigned 8 (d.getD 3 0)
              ({ mod2 with
                 scaler_cache := updF mod2.scaler_cache idx ((10 : ℚ) ^ scaler),
                 scaler_cached := updF mod2.scaler_cached idx true }, n + 1, 0)
            else (scalerFallback mod2 idx, n + 1, 0)
          else (scalerFallback mod2 idx, n + 1, 0)
        else (scalerFallback mod2 idx, n + 1, 0)

/-- Phase 1 of `meter_read_all`: read scalers for entries neither
skipped nor cached; on failure cache 1.0.  The trace records the
attempted scaler GETs as `(index, 3)`. -/
def readAllPhase1 (env : MeterEnv) :
    MeterMod → Nat → List Nat → MeterMod × Nat × List (Nat × Nat)
  | mod, n, [] => (mod, n, [])
  | mod, n, i :: rest =>
    if mod.obis_skip i || mod.scaler_cached i then
      readAllPhase1 env mod n rest
    else
      let s := read_scaler_unit mod env n i
      let mod2 := if s.2.2 < 0 then scalerFallback s.1 i else s.1
      let k := readAllPhase1 env mod2 s.2.1 rest
      (k.1, k.2.1, (i, 3) :: k.2.2)

/-- `ret == 0 && result.success`. -/
def readSucceeded (ret : Int) (res : Option CosemGetResult) : Bool :=
  match res with
  | some r => decide (ret = 0) && r.success
  | none => false

structure Phase2Out where
  mod : MeterMod
  n : Nat
  r : MeterReadings
  trace : List (Nat × Nat)
  succeeded : List Nat
  denied : List Nat

/-- Phase 2 of `meter_read_all`: value reads (`(index, 2)` in the
trace); successes store the scaled value and bump `read_count`;
failures bump `error_count`, and `-EACCES` additionally sets the skip
flag (recorded in `denied`). -/
def readAllPhase2 (env : MeterEnv) :
    MeterMod → Nat → MeterReadings → List Nat → Phase2Out
  | mod, n, r, [] => ⟨mod, n, r, [], [], []⟩
  | mod, n, r, i :: rest =>
    if mod.obis_skip i then readAllPhase2 env mod n r rest
    else
      let ro := read_obis_value mod env n (obisEntry i)
      if readSucceeded ro.ret ro.result then
        let res := ro.result.getD ⟨false, 0, .u64 0⟩
        let val := value_to_double env ro.mod i res
        let r1 := { r with values := updF r.values (obisEntry i).slot val,
                           read_count := r.read_count + 1 }
        let k := readAllPhase2 env ro.mod ro.n r1 rest
        ⟨k.mod, k.n, k.r, (i, 2) :: k.trace, i :: k.succeeded, k.denied⟩
      else
        let r1 := { r with error_count := r.error_count + 1 }
        let mod2 := if ro.ret = -eacces then
            { ro.mod with obis_skip := updF ro.mod.obis_skip i true }
          else ro.mod
        let k := readAllPhase2 env mod2 ro.n r1 rest
        ⟨k.mod, k.n, k.r, (i, 2) :: k.trace, k.succeeded,
         if ro.ret = -eacces then i :: k.denied else k.denied⟩

structure ReadAllOut where
  mod : MeterMod
  n : Nat
  readings : MeterReadings
  ret : Int
  trace : List (Nat × Nat)
  succeeded : List Nat
  denied : List Nat

/-- `meter_read_all` (the `readings == NULL` guard is not representable
here): requires `METER_ASSOCIATED` (else `-ENOTCONN`, leaving the
caller's record untouched), zeroes the record, runs the two phases,
sets `valid = read_count > 0` and returns 0 iff valid, else `-EIO`. -/
def meter_read_all (mod : MeterMod) (env : MeterEnv) (n : Nat)
    (readings : MeterReadings) : ReadAllOut :=
  if mod.state ≠ .associated then ⟨mod, n, readings, -enotconn, [], [], []⟩
  else
    let r0 := zeroReadings (env.uptime n)
    let p1 := readAllPhase1 env mod n (List.range OBIS_TABLE_SIZE)
    let p2 := readAllPhase2 env p1.1 p1.2.1 r0 (List.range OBIS_TABLE_SIZE)
    ⟨p2.mod, p2.n, { p2.r with valid := decide (0 < p2.r.read_count) },
     if 0 < p2.r.read_count then 0 else -eio,
     p1.2.2 ++ p2.trace, p2.succeeded, p2.denied⟩

/-- `meter_poll`: connect (disconnecting and propagating the error on
failure), read all, always disconnect, return the read result. -/
def meter_poll (mod : MeterMod) (env : MeterEnv) (n : Nat)
    (readings : MeterReadings) :
    Option (MeterMod × Nat × MeterReadings × Int × List (Nat × Nat)) :=
  match meter_connect mod env n with
  | none => none
  | some (mod1, n1, ret) =>
    if ret < 0 then
      let d := meter_disconnect mod1 env n1
      some (d.1, d.2.1, readings, ret, [])
    else
      let ra := meter_read_all mod1 env n1 readings
      let d := meter_disconnect ra.mod env ra.n
      some (d.1, d.2.1, ra.readings, ra.ret, ra.trace)

/-- The public operations a caller can interleave (claim C5 quantifies
over arbitrary sequences of them). -/
inductive MeterOp where
  | connect
  | disconnect
  | readAll
  | poll
  | setConfig (c : Option MeterConfig)

/-- One public call; the result carries the GET trace it issued.
`none` again marks the undefined-behaviour AARE path. -/
def runOp (env : MeterEnv) (mod : MeterMod) (n : Nat) :
    MeterOp → Option (MeterMod × Nat × List (Nat × Nat))
  | .connect =>
    (meter_connect mod env n).map (fun p => (p.1, p.2.1, []))
  | .disconnect =>
    let d := meter_disconnect mod env n
    some (d.1, d.2.1, [])
  | .readAll =>
    let ra := meter_read_all mod env n (zeroReadings 0)
    some (ra.mod, ra.n, ra.trace)
  | .poll =>
    (meter_poll mod env n (zeroReadings 0)).map
      (fun p => (p.1, p.2.1, p.2.2.2.2))
  | .setConfig c => some (meter_set_config mod c, n, [])

/-- Run a sequence of public calls, concatenating the GET traces. -/
def runOps (env : MeterEnv) :
    MeterMod → Nat → List MeterOp → Option (MeterMod × Nat × List (Nat × Nat))
  | mod, n, [] => some (mod, n, [])
  | mod, n, op :: rest =>
    match runOp env mod n op with
    | none => none
    | some (mod1, n1, tr) =>
      match runOps env mod1 n1 rest with
      | none => none
      | some (mod2, n2, tr2) => some (mod2, n2, tr ++ tr2)

/-! ### Preservation of the skip bitmap -/

lemma updF_apply {α : Type} (f : Nat → α) (i : Nat) (v : α) (j : Nat) :
    updF f i v j = if j = i then v else f j := rfl

lemma build_cosem_iframe_skip (mod : MeterMod) (pdu : List Nat) :
    (build_cosem_iframe mod pdu).1.obis_skip = mod.obis_skip := by
  unfold build_cosem_iframe
  split
  · rfl
  · split <;> rfl

lemma strip_iframe_llc_skip (mod : MeterMod) (f : HdlcFrame) :
    (strip_iframe_llc mod f).1.obis_skip = mod.obis_skip := by
  simp only [strip_iframe_llc]
  split <;> rfl

lemma scalerFallback_skip (mod : MeterMod) (idx : Nat) :
    (scalerFallback mod idx).obis_skip = mod.obis_skip := rfl

lemma meter_set_config_skip (mod : MeterMod) (c : Option MeterConfig) :
    (meter_set_config mod c).obis_skip = mod.obis_skip := rfl

lemma read_obis_value_skip (mod : MeterMod) (env : MeterEnv) (n : Nat)
    (e : ObisMapping) :
    (read_obis_value mod env n e).mod.obis_skip = mod.obis_skip := by
  unfold read_obis_value
  dsimp only
  split
  · rfl
  next pdu hpdu =>
    rcases hb : build_cosem_iframe
        { mod with cosem_invoke_id := (mod.cosem_invoke_id + 1) % 256 } pdu
      with ⟨mod1, res⟩
    have hskip : mod1.obis_skip = mod.obis_skip :=
      (congrArg (fun q => q.1.obis_skip) hb).symm.trans
        (build_cosem_iframe_skip _ pdu)
    cases res with
    | error e => dsimp only; exact hskip
    | ok tx =>
      dsimp only
      cases env.transact n tx with
      | err e => dsimp only; exact hskip
      | ok resp =>
        dsimp only
        cases cosem_parse_get_response (strip_iframe_llc mod1 resp).2.info with
        | error e => exact (strip_iframe_llc_skip mod1 resp).trans hskip
        | ok res2 => exact (strip_iframe_llc_skip mod1 resp).trans hskip

lemma read_scaler_unit_skip (mod : MeterMod) (env : MeterEnv) (n idx : Nat) :
    (read_scaler_unit mod env n idx).1.obis_skip = mod.obis_skip := by
  unfold read_scaler_unit
  dsimp only
  split
  · rfl
  next pdu hpdu =>
    rcases hb : build_cosem_iframe
        { mod with cosem_invoke_id := (mod.cosem_invoke_id + 1) % 256 } pdu
      with ⟨mod1, res⟩
    have hskip : mod1.obis_skip = mod.obis_skip :=
      (congrArg (fun q => q.1.obis_skip) hb).symm.trans
        (build_cosem_iframe_skip _ pdu)
    cases res with
    | error e => dsimp only; exact hskip
    | ok tx =>
      dsimp only
      cases env.transact n tx with
      | err e => dsimp only; exact hskip
      | ok resp =>
        dsimp only
        have hs := (strip_iframe_llc_skip mod1 resp).trans hskip
        split
        · split
          · split
            · exact hs
            · exact hs
          · exact hs
        · exact hs

lemma meter_disconnect_skip (mod : MeterMod) (env : MeterEnv) (n : Nat) :
    (meter_disconnect mod env n).1.obis_skip = mod.obis_skip := by
  unfold meter_disconnect
  split
  · rfl
  · dsimp only
    split
    · split
      · rfl
      next rlrq hrlrq =>
        rcases hb : build_cosem_iframe mod rlrq with ⟨mod1, res⟩
        have hskip : mod1.obis_skip = mod.obis_skip :=
          (congrArg (fun q => q.1.obis_skip) hb).symm.trans
            (build_cosem_iframe_skip _ rlrq)
        cases res <;> (dsimp only; exact hskip)
    · rfl

lemma meter_connect_core_skip (mod : MeterMod) (env : MeterEnv) (n : Nat)
    (p : MeterMod × Nat × Int) (h : meter_connect_core mod env n = some p) :
    p.1.obis_skip = mod.obis_skip := by
  revert h
  unfold meter_connect_core
  dsimp only
  split
  · intro h
    cases h
    rfl
  next tx htx =>
    cases env.transact n tx with
    | err e =>
      dsimp only
      intro h
      cases h
      rfl
    | ok resp =>
      dsimp only
      split
      · intro h
        cases h
        rfl
      · split
        · intro h
          cases h
          rfl
        next aarq haarq =>
          split
          next mod3 e heq =>
            intro h
            cases h
            exact (congrArg (fun q => q.1.obis_skip) heq).symm.trans
              (build_cosem_iframe_skip _ aarq)
          next mod3 tx2 heq =>
            have h3 := (congrArg (fun q => q.1.obis_skip) heq).symm.trans
              (build_cosem_iframe_skip _ aarq)
            cases env.transact (n + 1) tx2 with
            | err e =>
              dsimp only
              intro h
              cases h
              exact h3
            | ok resp2 =>
              dsimp only
              have hs := (strip_iframe_llc_skip mod3 resp2).trans h3
              cases cosem_parse_aare (strip_iframe_llc mod3 resp2).2.info
                <;> intro h <;> first
                | (cases h; exact hs)
                | cases h

lemma meter_connect_skip (mod : MeterMod) (env : MeterEnv) (n : Nat)
    (p : MeterMod × Nat × Int) (h : meter_connect mod env n = some p) :
    p.1.obis_skip = mod.obis_skip := by
  unfold meter_connect at h
  by_cases hst : 1 ≤ meterStateNat mod.state
  · rw [if_pos hst] at h
    exact (meter_connect_core_skip _ env _ p h).trans
      (meter_disconnect_skip mod env n)
  · rw [if_neg hst] at h
    exact meter_connect_core_skip _ env _ p h

/-! ### Phase-level invariants of `meter_read_all` -/

lemma phase1_step_skip (env : MeterEnv) (mod : MeterMod) (n j : Nat) :
    (if (read_scaler_unit mod env n j).2.2 < 0
     then scalerFallback (read_scaler_unit mod env n j).1 j
     else (read_scaler_unit mod env n j).1).obis_skip = mod.obis_skip := by
  split
  · exact (scalerFallback_skip _ j).trans (read_scaler_unit_skip mod env n j)
  · exact read_scaler_unit_skip mod env n j

lemma readAllPhase1_skip (env : MeterEnv) (idxs : List Nat) :
    ∀ mod n, (readAllPhase1 env mod n idxs).1.obis_skip = mod.obis_skip := by
  induction idxs with
  | nil => intro mod n; rfl
  | cons j rest ih =>
    intro mod n
    simp only [readAllPhase1]
    split
    · exact ih mod n
    · dsimp only
      rw [ih]
      exact phase1_step_skip env mod n j

lemma readAllPhase1_trace_mem (env : MeterEnv) (idxs : List Nat) :
    ∀ mod n p, p ∈ (readAllPhase1 env mod n idxs).2.2 → p.2 = 3 := by
  induction idxs with
  | nil => intro mod n p h; exact absurd h (List.not_mem_nil p)
  | cons j rest ih =>
    intro mod n p hp
    simp only [readAllPhase1] at hp
    revert hp
    split
    · exact ih mod n p
    · dsimp only
      intro hp
      rcases List.mem_cons.mp hp with he | hm
      · rw [he]
      · exact ih _ _ p hm

lemma readAllPhase1_notin (env : MeterEnv) (idxs : List Nat) :
    ∀ mod n i a, mod.obis_skip i = true →
      (i, a) ∉ (readAllPhase1 env mod n idxs).2.2 := by
  induction idxs with
  | nil => intro mod n i a _ h; exact absurd h (List.not_mem_nil _)
  | cons j rest ih =>
    intro mod n i a hi
    simp only [readAllPhase1]
    split
    · exact ih mod n i a hi
    next hcond =>
      dsimp only
      intro hp
      rcases List.mem_cons.mp hp with he | hm
      · have hij : i = j := by injection he with h1 h2
        rw [hij] at hi
        rw [hi] at hcond
        exact hcond rfl
      · have hmod2 : (if (read_scaler_unit mod env n j).2.2 < 0
            then scalerFallback (read_scaler_unit mod env n j).1 j
            else (read_scaler_unit mod env n j).1).obis_skip i = true := by
          rw [phase1_step_skip]
          exact hi
        exact ih _ _ i a hmod2 hm

lemma readAllPhase2_trace_mem (env : MeterEnv) (idxs : List Nat) :
    ∀ mod n r p, p ∈ (readAllPhase2 env mod n r idxs).trace → p.2 = 2 := by
  induction idxs with
  | nil => intro mod n r p h; exact absurd h (List.not_mem_nil p)
  | cons j rest ih =>
    intro mod n r p hp
    simp only [readAllPhase2] at hp
    revert hp
    split
    · exact ih mod n r p
    · split
      · dsimp only
        intro hp
        rcases List.mem_cons.mp hp with he | hm
        · rw [he]
        · exact ih _ _ _ p hm
      · dsimp only
        intro hp
        rcases List.mem_cons.mp hp with he | hm
        · rw [he]
        · exact ih _ _ _ p hm

lemma readAllPhase2_mono (env : MeterEnv) (idxs : List Nat) :
    ∀ mod n r i, mod.obis_skip i = true →
      (readAllPhase2 env mod n r idxs).mod.obis_skip i = true ∧
      ∀ a, (i, a) ∉ (readAllPhase2 env mod n r idxs).trace := by
  induction idxs with
  | nil =>
    intro mod n r i hi
    exact ⟨hi, fun a h => absurd h (List.not_mem_nil _)⟩
  | cons j rest ih =>
    intro mod n r i hi
    simp only [readAllPhase2]
    split
    · exact ih mod n r i hi
    next hcond =>
      have hij : i ≠ j := by
        intro he
        rw [he] at hi
        rw [hi] at hcond
        exact hcond rfl
      split
      · dsimp only
        have hro : (read_obis_value mod env n (obisEntry j)).mod.obis_skip i
            = true := by
          rw [read_obis_value_skip]
          exact hi
        refine ⟨(ih _ _ _ i hro).1, fun a hp => ?_⟩
        rcases List.mem_cons.mp hp with he | hm
        · injection he with h1 h2
          exact hij h1
        · exact (ih _ _ _ i hro).2 a hm
      · dsimp only
        have hmod2 : (if (read_obis_value mod env n (obisEntry j)).ret = -eacces
            then { (read_obis_value mod env n (obisEntry j)).mod with
                   obis_skip := updF
                     (read_obis_value mod env n (obisEntry j)).mod.obis_skip
                     j true }
            else (read_obis_value mod env n (obisEntry j)).mod).obis_skip i
            = true := by
          split
          · show updF (read_obis_value mod env n (obisEntry j)).mod.obis_skip
              j true i = true
            rw [updF_apply, if_neg hij, read_obis_value_skip]
            exact hi
          · rw [read_obis_value_skip]
            exact hi
        refine ⟨(ih _ _ _ i hmod2).1, fun a hp => ?_⟩
        rcases List.mem_cons.mp hp with he | hm
        · injection he with h1 h2
          exact hij h1
        · exact (ih _ _ _ i hmod2).2 a hm

lemma readAllPhase2_denied (env : MeterEnv) (idxs : List Nat) :
    ∀ mod n r i,
      (readAllPhase2 env mod n r idxs).mod.obis_skip i
        = (mod.obis_skip i ||
            decide (i ∈ (readAllPhase2 env mod n r idxs).denied)) := by
  induction idxs with
  | nil =>
    intro mod n r i
    simp [readAllPhase2]
  | cons j rest ih =>
    intro mod n r i
    simp only [readAllPhase2]
    split
    · exact ih mod n r i
    next hcond =>
      split
      · dsimp only
        rw [ih]
        have hro : (read_obis_value mod env n (obisEntry j)).mod.obis_skip
            = mod.obis_skip := read_obis_value_skip mod env n (obisEntry j)
        rw [hro]
      · dsimp only
        by_cases hacc : (read_obis_value mod env n (obisEntry j)).ret = -eacces
        · simp only [if_pos hacc]
          rw [ih]
          have hro : (read_obis_value mod env n (obisEntry j)).mod.obis_skip
              = mod.obis_skip := read_obis_value_skip mod env n (obisEntry j)
          by_cases hij : i = j
          · subst hij
            simp [updF_apply, List.mem_cons]
          · simp [updF_apply, if_neg hij, hro, List.mem_cons, hij]
        · simp only [if_neg hacc]
          rw [ih]
          have hro : (read_obis_value mod env n (obisEntry j)).mod.obis_skip
              = mod.obis_skip := read_obis_value_skip mod env n (obisEntry j)
          rw [hro]

lemma readAllPhase2_counts (env : MeterEnv) (idxs : List Nat) :
    ∀ mod n r,
      ((readAllPhase2 env mod n r idxs).r.read_count
         = r.read_count + (readAllPhase2 env mod n r idxs).succeeded.length) ∧
      ((readAllPhase2 env mod n r idxs).r.read_count +
          (readAllPhase2 env mod n r idxs).r.error_count
         = r.read_count + r.error_count +
             (readAllPhase2 env mod n r idxs).trace.length) := by
  induction idxs with
  | nil =>
    intro mod n r
    refine ⟨?_, ?_⟩ <;> simp [readAllPhase2]
  | cons j rest ih =>
    intro mod n r
    simp only [readAllPhase2]
    split
    · exact ih mod n r
    · split
      · dsimp only
        constructor
        · rw [(ih _ _ _).1]
          dsimp only
          simp only [List.length_cons]
          omega
        · rw [(ih _ _ _).2]
          dsimp only
          simp only [List.length_cons]
          omega
      · dsimp only
        constructor
        · rw [(ih _ _ _).1]
        · rw [(ih _ _ _).2]
          dsimp only
          simp only [List.length_cons]
          omega

lemma meter_read_all_mono (env : MeterEnv) (mod : MeterMod) (n : Nat)
    (r : MeterReadings) (i : Nat) (hi : mod.obis_skip i = true) :
    (meter_read_all mod env n r).mod.obis_skip i = true ∧
    ∀ a, (i, a) ∉ (meter_read_all mod env n r).trace := by
  simp only [meter_read_all]
  split
  · exact ⟨hi, fun a h => absurd h (List.not_mem_nil _)⟩
  · dsimp only
    have h1 : (readAllPhase1 env mod n (List.range OBIS_TABLE_SIZE)).1.obis_skip i
        = true := by
      rw [readAllPhase1_skip]
      exact hi
    have h2 := readAllPhase2_mono env (List.range OBIS_TABLE_SIZE)
      (readAllPhase1 env mod n (List.range OBIS_TABLE_SIZE)).1
      (readAllPhase1 env mod n (List.range OBIS_TABLE_SIZE)).2.1
      (zeroReadings (env.uptime n)) i h1
    refine ⟨h2.1, fun a hp => ?_⟩
    rcases List.mem_append.mp hp with hm | hm
    · exact readAllPhase1_notin env (List.range OBIS_TABLE_SIZE) mod n i a hi hm
    · exact h2.2 a hm

lemma meter_read_all_denied (env : MeterEnv) (mod : MeterMod) (n : Nat)
    (r : MeterReadings) (i : Nat) :
    (meter_read_all mod env n r).mod.obis_skip i
      = (mod.obis_skip i ||
          decide (i ∈ (meter_read_all mod env n r).denied)) := by
  simp only [meter_read_all]
  split
  · simp
  · dsimp only
    rw [readAllPhase2_denied env (List.range OBIS_TABLE_SIZE),
      readAllPhase1_skip]

lemma meter_poll_mono (env : MeterEnv) (mod : MeterMod) (n : Nat)
    (r : MeterReadings) (p : MeterMod × Nat × MeterReadings × Int × List (Nat × Nat))
    (hp : meter_poll mod env n r = some p) (i : Nat)
    (hi : mod.obis_skip i = true) :
    p.1.obis_skip i = true ∧ ∀ a, (i, a) ∉ p.2.2.2.2 := by
  unfold meter_poll at hp
  rcases hc : meter_connect mod env n with _ | q
  · rw [hc] at hp
    cases hp
  · rw [hc] at hp
    obtain ⟨mod1, n1, ret⟩ := q
    dsimp only at hp
    have hskip1 : mod1.obis_skip i = true := by
      have hcs := meter_connect_skip mod env n (mod1, n1, ret) hc
      rw [show mod1.obis_skip = mod.obis_skip from hcs]
      exact hi
    revert hp
    split
    · intro hp
      have h' := Option.some.inj hp
      subst h'
      refine ⟨?_, fun a h => absurd h (List.not_mem_nil _)⟩
      show (meter_disconnect mod1 env n1).1.obis_skip i = true
      rw [meter_disconnect_skip]
      exact hskip1
    · intro hp
      have h' := Option.some.inj hp
      subst h'
      have hra := meter_read_all_mono env mod1 n1 r i hskip1
      constructor
      · show (meter_disconnect (meter_read_all mod1 env n1 r).mod env
            (meter_read_all mod1 env n1 r).n).1.obis_skip i = true
        rw [meter_disconnect_skip]
        exact hra.1
      · exact hra.2

lemma runOp_skip (env : MeterEnv) (mod : MeterMod) (n : Nat) (op : MeterOp)
    (res : MeterMod × Nat × List (Nat × Nat))
    (h : runOp env mod n op = some res) (i : Nat)
    (hi : mod.obis_skip i = true) :
    res.1.obis_skip i = true ∧ ∀ a, (i, a) ∉ res.2.2 := by
  cases op with
  | connect =>
    simp only [runOp, Option.map_eq_some'] at h
    obtain ⟨p, hp, hres⟩ := h
    subst hres
    refine ⟨?_, fun a hm => absurd hm (List.not_mem_nil _)⟩
    show p.1.obis_skip i = true
    rw [meter_connect_skip mod env n p hp]
    exact hi
  | disconnect =>
    simp only [runOp] at h
    have h' := Option.some.inj h
    subst h'
    refine ⟨?_, fun a hm => absurd hm (List.not_mem_nil _)⟩
    show (meter_disconnect mod env n).1.obis_skip i = true
    rw [meter_disconnect_skip]
    exact hi
  | readAll =>
    simp only [runOp] at h
    have h' := Option.some.inj h
    subst h'
    exact meter_read_all_mono env mod n (zeroReadings 0) i hi
  | poll =>
    simp only [runOp, Option.map_eq_some'] at h
    obtain ⟨p, hp, hres⟩ := h
    subst hres
    exact meter_poll_mono env mod n (zeroReadings 0) p hp i hi
  | setConfig c =>
    simp only [runOp] at h
    have h' := Option.some.inj h
    subst h'
    exact ⟨hi, fun a hm => absurd hm (List.not_mem_nil _)⟩

lemma runOps_skip (env : MeterEnv) (ops : List MeterOp) :
    ∀ mod n res, runOps env mod n ops = some res →
      ∀ i, mod.obis_skip i = true →
        res.1.obis_skip i = true ∧ ∀ a, (i, a) ∉ res.2.2 := by
  induction ops with
  | nil =>
    intro mod n res h i hi
    have h' := Option.some.inj h
    subst h'
    exact ⟨hi, fun a hm => absurd hm (List.not_mem_nil _)⟩
  | cons op rest ih =>
    intro mod n res h i hi
    simp only [runOps] at h
    revert h
    rcases ho : runOp env mod n op with _ | ⟨mod1, n1, tr⟩
    · intro h
      cases h
    · dsimp only
      rcases hos : runOps env mod1 n1 rest with _ | ⟨mod2, n2, tr2⟩
      · intro h
        cases h
      · dsimp only
        intro h
        have h' := Option.some.inj h
        subst h'
        have h1 := runOp_skip env mod n op (mod1, n1, tr) ho i hi
        have h2 := ih mod1 n1 (mod2, n2, tr2) hos i h1.1
        refine ⟨h2.1, fun a hp => ?_⟩
        rcases List.mem_append.mp hp with hm | hm
        · exact h1.2 a hm
        · exact h2.2 a hm

/-! ### Test fixtures (boot state and concrete environments) -/

/-- The module statics as zero-initialized at boot. -/
def mod0 : MeterMod :=
  { state := .disconnected,
    cfg := { client_sap := 0, server_logical := 0, server_physical := 0,
             password := List.replicate 16 0, max_info_len := 0,
             response_timeout_ms := 0, inter_frame_delay_ms := 0 },
    hdlc_send_seq := 0, hdlc_recv_seq := 0, cosem_invoke_id := 0,
    hdlc_client_addr := 0, hdlc_server_addr := 0,
    scaler_cache := fun _ => 0, scaler_cached := fun _ => false,
    obis_skip := fun _ => false }

/-- An associated module state with every OBIS entry marked skip. -/
def modSkipAll : MeterMod :=
  { mod0 with state := .associated, obis_skip := fun _ => true }

/-- Environment whose every transaction fails with `-EIO`. -/
def envW : MeterEnv :=
  { transact := fun _ _ => .err (-eio), uptime := fun _ => 0,
    f32val := fun _ => 0, f64val := fun _ => 0, rs485_init_ret := 0 }

/-- Environment answering the SNRM with a UA and failing afterwards:
`meter_connect` reaches the AARQ I-frame (bumping `hdlc_send_seq` to 1)
and then errors out. -/
def envCX : MeterEnv :=
  { transact := fun n _ =>
      if n = 0 then
        .ok { dst_addr := 3, src_addr := 3, control := HDLC_CTRL_UA,
              info := [], segmented := false, valid := true }
      else .err (-eio),
    uptime := fun _ => 0, f32val := fun _ => 0, f64val := fun _ => 0,
    rs485_init_ret := 0 }

/-! ### Claims C5, C6, C9 -/

/-- **C5 (confirmed)** — skip flags are monotone and silencing: along any
sequence of public operations (`connect`/`disconnect`/`read_all`/`poll`/
`set_config`), an entry whose skip flag is set keeps it set and never
appears in the GET trace (neither a value nor a scaler request); after
`meter_read_all` the skip bitmap is exactly the old one joined with the
entries denied `-EACCES` in this call; and `meter_init` (when
`rs485_init` succeeds) is the operation that clears all skip flags. -/
theorem C5_skip_persistence :
    (∀ env mod n ops res, runOps env mod n ops = some res →
       ∀ i, mod.obis_skip i = true →
         res.1.obis_skip i = true ∧ ∀ a, (i, a) ∉ res.2.2) ∧
    (∀ env mod n r i,
       (meter_read_all mod env n r).mod.obis_skip i
         = (mod.obis_skip i ||
             decide (i ∈ (meter_read_all mod env n r).denied))) ∧
    (∀ env mod, ¬ env.rs485_init_ret < 0 →
       ∀ i, (meter_init mod env).1.obis_skip i = false) := by
  refine ⟨fun env mod n ops res h i hi => runOps_skip env ops mod n res h i hi,
    fun env mod n r i => meter_read_all_denied env mod n r i,
    fun env mod hr i => ?_⟩
  unfold meter_init
  rw [if_neg hr]

/-- Witness for C5: with every entry skipped, a `read_all; disconnect`
run keeps entry 5 skipped and issues no GET for it; a denied-join
instance; and `meter_init` clears entry 5. -/
theorem C5_skip_persistence_witness :
    ((runOps envW modSkipAll 0 [.readAll, .disconnect]).map
        (fun res => (res.1.obis_skip 5, decide ((5, 2) ∈ res.2.2))))
      = some (true, false) ∧
    (meter_read_all modSkipAll envW 0 (zeroReadings 0)).mod.obis_skip 3 = true ∧
    (meter_init modSkipAll envW).1.obis_skip 5 = false := by
  refine ⟨?_, ?_, ?_⟩
  · have hsome : (runOps envW modSkipAll 0 [.readAll, .disconnect]).isSome
        = true := by decide
    rcases hEq : runOps envW modSkipAll 0 [.readAll, .disconnect] with _ | res
    · rw [hEq] at hsome
      cases hsome
    · have h5 := C5_skip_persistence.1 envW modSkipAll 0
        [.readAll, .disconnect] res hEq 5 (by decide)
      rw [Option.map_some']
      rw [h5.1, decide_eq_false (h5.2 2)]
  · have hd := C5_skip_persistence.2.1 envW modSkipAll 0 (zeroReadings 0) 3
    rw [hd]
    rfl
  · exact C5_skip_persistence.2.2 envW modSkipAll (by decide) 5

/-- **C6 (confirmed)** — with the session not `ASSOCIATED`,
`meter_read_all` returns `-ENOTCONN` leaving the caller's record (and
everything else) untouched; when associated it returns 0 exactly when at
least one value read succeeded (`read_count` equals the number of
successful non-skipped value reads and `read_count + error_count` the
number of value GETs issued), sets `valid = read_count > 0`, and on zero
successes returns `-EIO` with `valid = false`. -/
theorem C6_read_all_result :
    (∀ env mod n r, mod.state ≠ .associated →
       meter_read_all mod env n r = ⟨mod, n, r, -enotconn, [], [], []⟩) ∧
    (∀ env mod n r, mod.state = .associated →
       ((meter_read_all mod env n r).ret = 0 ↔
          0 < (meter_read_all mod env n r).readings.read_count) ∧
       ((meter_read_all mod env n r).readings.valid
          = decide (0 < (meter_read_all mod env n r).readings.read_count)) ∧
       ((meter_read_all mod env n r).ret ≠ 0 →
          (meter_read_all mod env n r).ret = -eio ∧
          (meter_read_all mod env n r).readings.valid = false) ∧
       ((meter_read_all mod env n r).readings.read_count
          = (meter_read_all mod env n r).succeeded.length) ∧
       ((meter_read_all mod env n r).readings.read_count +
           (meter_read_all mod env n r).readings.error_count
          = ((meter_read_all mod env n r).trace.filter
              (fun p => p.2 == 2)).length)) := by
  constructor
  · intro env mod n r h
    unfold meter_read_all
    rw [if_pos h]
  · intro env mod n r h
    unfold meter_read_all
    rw [if_neg (show ¬ mod.state ≠ MeterState.associated from fun hne => hne h)]
    dsimp only
    refine ⟨?_, ?_, ?_, ?_, ?_⟩
    · split
      next hpos => simpa using hpos
      next hneg =>
        exact ⟨fun he => absurd he (by decide), fun hc => absurd hc hneg⟩
    · rfl
    · split
      next hpos => intro h0; exact absurd rfl h0
      next hneg =>
        intro _
        exact ⟨rfl, decide_eq_false hneg⟩
    · have h1 := (readAllPhase2_counts env (List.range OBIS_TABLE_SIZE)
        (readAllPhase1 env mod n (List.range OBIS_TABLE_SIZE)).1
        (readAllPhase1 env mod n (List.range OBIS_TABLE_SIZE)).2.1
        (zeroReadings (env.uptime n))).1
      simpa [zeroReadings] using h1
    · have h2 := (readAllPhase2_counts env (List.range OBIS_TABLE_SIZE)
        (readAllPhase1 env mod n (List.range OBIS_TABLE_SIZE)).1
        (readAllPhase1 env mod n (List.range OBIS_TABLE_SIZE)).2.1
        (zeroReadings (env.uptime n))).2
      rw [List.filter_append]
      rw [show ((readAllPhase1 env mod n (List.range OBIS_TABLE_SIZE)).2.2.filter
          (fun p => p.2 == 2)) = [] from by
        rw [List.filter_eq_nil_iff]
        intro p hp
        simp [readAllPhase1_trace_mem env (List.range OBIS_TABLE_SIZE) mod n p hp]]
      rw [show ((readAllPhase2 env
            (readAllPhase1 env mod n (List.range OBIS_TABLE_SIZE)).1
            (readAllPhase1 env mod n (List.range OBIS_TABLE_SIZE)).2.1
            (zeroReadings (env.uptime n)) (List.range OBIS_TABLE_SIZE)).trace.filter
          (fun p => p.2 == 2))
          = (readAllPhase2 env
            (readAllPhase1 env mod n (List.range OBIS_TABLE_SIZE)).1
            (readAllPhase1 env mod n (List.range OBIS_TABLE_SIZE)).2.1
            (zeroReadings (env.uptime n)) (List.range OBIS_TABLE_SIZE)).trace from by
        rw [List.filter_eq_self]
        intro p hp
        simp [readAllPhase2_trace_mem env (List.range OBIS_TABLE_SIZE) _ _ _ p hp]]
      simpa [zeroReadings] using h2

/-- Witness for C6: a non-associated module returns `-ENOTCONN`; an
associated module with everything skipped performs zero reads and
returns `-EIO` with `valid = false`. -/
theorem C6_read_all_result_witness :
    (meter_read_all { mod0 with state := .error } envW 0 (zeroReadings 7)).ret
      = -enotconn ∧
    (meter_read_all { mod0 with state := .error } envW 0
        (zeroReadings 7)).readings.timestamp_ms = 7 ∧
    (meter_read_all modSkipAll envW 0 (zeroReadings 0)).ret = -eio ∧
    (meter_read_all modSkipAll envW 0 (zeroReadings 0)).readings.valid
      = false := by
  have hA := C6_read_all_result.1 envW { mod0 with state := .error } 0
    (zeroReadings 7) (by decide)
  have hB := C6_read_all_result.2 envW modSkipAll 0 (zeroReadings 0) rfl
  have hrc : (meter_read_all modSkipAll envW 0
      (zeroReadings 0)).readings.read_count = 0 := by decide
  have hret : (meter_read_all modSkipAll envW 0 (zeroReadings 0)).ret ≠ 0 := by
    intro h0
    have := hB.1.mp h0
    rw [hrc] at this
    exact absurd this (by decide)
  have hBe := hB.2.2.1 hret
  refine ⟨?_, ?_, hBe.1, hBe.2⟩
  · rw [hA]
  · rw [hA]
    rfl

/-- **C9 (amended)** — `meter_disconnect` always returns 0; from any
state other than `METER_DISCONNECTED` it resets the state and zeroes
both HDLC sequence counters; from `METER_DISCONNECTED` it returns
immediately, changing nothing — so the sequence counters keep whatever
values they had, and are NOT always zero afterwards (see the
counterexample). -/
theorem C9_disconnect_amended :
    (∀ env mod n, (meter_disconnect mod env n).2.2 = 0) ∧
    (∀ env mod n, mod.state ≠ .disconnected →
       ((meter_disconnect mod env n).1.state = .disconnected ∧
        (meter_disconnect mod env n).1.hdlc_send_seq = 0 ∧
        (meter_disconnect mod env n).1.hdlc_recv_seq = 0)) ∧
    (∀ env mod n, mod.state = .disconnected →
       meter_disconnect mod env n = (mod, n, 0)) := by
  refine ⟨fun env mod n => ?_, fun env mod n h => ?_, fun env mod n h => ?_⟩
  · unfold meter_disconnect
    split
    · rfl
    · rfl
  · unfold meter_disconnect
    rw [if_neg h]
    exact ⟨rfl, rfl, rfl⟩
  · unfold meter_disconnect
    rw [if_pos h]

/-- Witness for the amended C9 theorem at concrete states. -/
theorem C9_disconnect_amended_witness :
    (meter_disconnect modSkipAll envW 0).2.2 = 0 ∧
    (meter_disconnect modSkipAll envW 0).1.state = MeterState.disconnected ∧
    (meter_disconnect modSkipAll envW 0).1.hdlc_send_seq = 0 ∧
    meter_disconnect mod0 envW 5 = (mod0, 5, 0) := by
  have h1 := C9_disconnect_amended.1 envW modSkipAll 0
  have h2 := C9_disconnect_amended.2.1 envW modSkipAll 0 (by decide)
  have h3 := C9_disconnect_amended.2.2 envW mod0 5 (by decide)
  exact ⟨h1, h2.1, h2.2.1, h3⟩

/-- **C9 counterexample** — a reachable run refuting "after it returns
… both HDLC sequence counters are zero": boot, `meter_init`,
`meter_connect` against a meter that acknowledges SNRM and then fails
(the AARQ I-frame build has bumped `hdlc_send_seq` to 1), `meter_init`
again (which resets the state to `METER_DISCONNECTED` but not the
sequence counters), then `meter_disconnect`: it returns 0 but leaves
`hdlc_send_seq = 1 ≠ 0`. -/
theorem C9_disconnect_counterexample :
    ((meter_connect (meter_init mod0 envCX).1 envCX 0).map
      (fun res =>
        ((meter_disconnect (meter_init res.1 envCX).1 envCX res.2.1).2.2,
         (meter_disconnect (meter_init res.1 envCX).1 envCX
           res.2.1).1.hdlc_send_seq,
         (meter_disconnect (meter_init res.1 envCX).1 envCX
           res.2.1).1.state)))
      = some (0, 1, MeterState.disconnected) ∧ (1 : Nat) ≠ 0 := by
  exact ⟨by decide, by decide⟩

end Dlms

